import Mathlib

/-!
Verification of the Logic Simulator compiler front end.

This file gives a shallow embedding, in Lean 4, of the parts of the
repository that the claims C1 to C10 are about:

* scanner.py : the Symbol classification helpers (is_string, is_name,
  is_number, is_integer, determine_type) and the cached-symbol cursor
  (Scanner.get_symbol);
* final/names.py : the Names table (query, lookup, get_name_string,
  unique_error_codes);
* parse.py and final/parse.py : the two variants of the recursive-descent
  Parser (the intermediate one and the maintained one), embedded as pure
  state-passing functions over the cached symbol list;
* semantic_error_handler.py : the result-code lookup table (handle_error)
  and the unconnected-input diagnostic.

Python is modelled as follows: character predicates use the ASCII reading
(the specification fixes the input to ASCII text); machine integers are
Nat; fallible operations return Option or Except; methods that mutate
the parser object become functions threading an explicit state record.
Ghost fields (a fetch counter and a diagnostics log) record observable
events without influencing control flow.
-/

namespace LogicSim

/- ===== scanner.py : module-level token sets ===== -/

/-- Source scanner.py line 11: the maximal number of gate input pins. -/
def max_number_of_input_pins : Nat := 16

/-- Source scanner.py lines 12-13: the keyword set.  Note that it does not
contain RC or SIGGEN. -/
def keywords : List String :=
  ["DEVICES", "CONNECT", "MONITOR", "END", "AND", "NAND", "OR", "NOR",
   "DTYPE", "XOR", "SWITCH", "CLOCK"]

/-- Source scanner.py line 14: the D-type input pin names. -/
def dtype_input_pins : List String := ["DATA", "SET", "CLEAR", "CLK"]

/-- Source scanner.py line 15: the gate input pin names I1 .. I16,
built exactly as the Python set comprehension does. -/
def gate_pins : List String :=
  (List.range max_number_of_input_pins).map (fun i => "I" ++ toString (i + 1))

/-- Source scanner.py line 16: all input pin names. -/
def input_pins : List String := gate_pins ++ dtype_input_pins

/-- Source scanner.py line 17: the output pin names. -/
def output_pins : List String := ["Q", "QBAR"]

/-- Source scanner.py lines 19-20: single-character punctuation and the
category name of each. -/
def punctuation : List (String × String) :=
  [(";", "semi-colon"), (":", "colon"), (",", "comma"), (".", "dot"),
   (">", "arrow")]

/- ===== scanner.py : Symbol classification helpers ===== -/

/-- Python str.lower restricted to ASCII, applied character-wise. -/
def py_lower (s : String) : String := ⟨s.data.map Char.toLower⟩

/-- Source scanner.py Symbol.is_string: every character is alphanumeric or
an underscore (vacuously true on the empty string, as in Python). -/
def is_string (s : String) : Bool :=
  s.data.all (fun c => c.isAlphanum || c == '_')

/-- Source scanner.py Symbol.is_name: is_string holds, the first character
is a letter, and the string equals its own lowercasing.  Python raises
IndexError on the empty string; the embedding returns false there, and the
theorems that use this function exclude the empty string. -/
def is_name (s : String) : Bool :=
  match s.data with
  | [] => false
  | c :: _ => is_string s && c.isAlpha && (py_lower s == s)

/-- Source scanner.py Symbol.is_number: Python str.isdigit, that is, the
string is non-empty and every character is a digit. -/
def is_number (s : String) : Bool :=
  !s.data.isEmpty && s.data.all Char.isDigit

/-- Source scanner.py Symbol.is_integer: only digits and the first digit is
not zero (Python evaluates isdigit first, so the empty string is false). -/
def is_integer (s : String) : Bool :=
  match s.data with
  | [] => false
  | c :: _ => is_number s && c != '0'

/-- Source scanner.py Symbol.determine_type: the classification cascade.
Python raises on the empty string (inside is_name); the theorems about
this function exclude the empty string. -/
def determine_type (s : String) : String :=
  if input_pins.contains s then "input_pin"
  else if output_pins.contains s then "output_pin"
  else if keywords.contains s then "keyword"
  else if is_number s then
    if is_integer s then "integer" else "number"
  else if is_string s then
    if is_name s then "name" else "string"
  else
    match punctuation.lookup s with
    | some p => p
    | none => "other"

/- ===== Specification-side classifier (spec section 4.2) ===== -/

/-- Spec section 4.2: a character is a digit (ASCII range). -/
def spec_digit (c : Char) : Bool := '0' ≤ c && c ≤ '9'

/-- Spec section 4.2: a character is a letter (ASCII ranges). -/
def spec_letter (c : Char) : Bool :=
  ('A' ≤ c && c ≤ 'Z') || ('a' ≤ c && c ≤ 'z')

/-- Spec section 4.2: input-pin names I1..I16, DATA, SET, CLEAR, CLK,
written out literally as the spec enumerates them. -/
def spec_input_pins : List String :=
  ["I1", "I2", "I3", "I4", "I5", "I6", "I7", "I8", "I9", "I10", "I11",
   "I12", "I13", "I14", "I15", "I16", "DATA", "SET", "CLEAR", "CLK"]

/-- Spec section 4.2: the fixed keyword set as the spec sentence lists it,
including RC and SIGGEN. -/
def spec_keywords_full : List String :=
  ["DEVICES", "CONNECT", "MONITOR", "END", "AND", "NAND", "OR", "NOR",
   "DTYPE", "XOR", "SWITCH", "CLOCK", "RC", "SIGGEN"]

/-- Spec section 4.2: the keyword set with the two entries that the code
does not recognise removed (the amendment forced by the counterexample). -/
def spec_keywords_amended : List String :=
  ["DEVICES", "CONNECT", "MONITOR", "END", "AND", "NAND", "OR", "NOR",
   "DTYPE", "XOR", "SWITCH", "CLOCK"]

/-- Spec section 4.2: all-digit text. -/
def spec_all_digits (s : String) : Bool :=
  !s.data.isEmpty && s.data.all spec_digit

/-- Spec section 4.2: text made of alphanumerics plus underscore. -/
def spec_alnum_underscore (s : String) : Bool :=
  s.data.all (fun c => spec_letter c || spec_digit c || c == '_')

/-- Spec section 4.2: a name is all-lowercase (fixed by lowercasing) and
starts with a letter. -/
def spec_name_shape (s : String) : Bool :=
  match s.data with
  | [] => false
  | c :: _ => spec_letter c && (py_lower s == s)

/-- Spec section 4.2: the classification precedence, parameterised by the
keyword set so that the stated claim (with RC and SIGGEN) and the amended
claim (without them) can both be expressed. -/
def spec_classify (kw : List String) (s : String) : String :=
  if spec_input_pins.contains s then "input_pin"
  else if output_pins.contains s then "output_pin"
  else if kw.contains s then "keyword"
  else if spec_all_digits s then
    if is_integer s then "integer" else "number"
  else if spec_alnum_underscore s then
    if spec_name_shape s then "name" else "string"
  else if s = ";" then "semi-colon"
  else if s = ":" then "colon"
  else if s = "," then "comma"
  else if s = "." then "dot"
  else if s = ">" then "arrow"
  else "other"

/- ===== final/names.py : the Names table ===== -/

/-- Python range(a, b) as a list. -/
def pyRange (a b : Nat) : List Nat := List.range' a (b - a)

/-- Source final/names.py Names.unique_error_codes: bump the counter by the
requested amount and return the freshly covered range.  The counter is the
first component of the state; Python rejects non-int arguments with a
TypeError, so the argument is a Nat here. -/
def unique_error_codes (error_code_count num_error_codes : Nat) :
    List Nat × Nat :=
  let count := error_code_count + num_error_codes
  (pyRange (count - num_error_codes) count, count)

/-- Successive calls of unique_error_codes on one Names instance, starting
from counter c, one call per requested size. -/
def alloc_calls (c : Nat) : List Nat → List (List Nat)
  | [] => []
  | n :: ns =>
    let r := unique_error_codes c n
    r.1 :: alloc_calls r.2 ns

/-- Source final/names.py Names.query: index of the string if present. -/
def names_query (names_list : List String) (name_string : String) :
    Option Nat :=
  if names_list.contains name_string then
    some (names_list.indexOf name_string)
  else none

/-- Source final/names.py Names.lookup, one string at a time: return the
id, appending the string first when it is new. -/
def names_lookup_one (names_list : List String) (s : String) :
    Nat × List String :=
  match names_query names_list s with
  | some id => (id, names_list)
  | none => (names_list.length, names_list ++ [s])

/-- Source final/names.py Names.lookup over a list of strings. -/
def names_lookup (names_list : List String) :
    List String → List Nat × List String
  | [] => ([], names_list)
  | s :: ss =>
    let r := names_lookup_one names_list s
    let rest := names_lookup r.2 ss
    (r.1 :: rest.1, rest.2)

/-- Source final/names.py Names.get_name_string: the string at the id, or
None when the id is out of range. -/
def get_name_string (names_list : List String) (id : Nat) : Option String :=
  names_list[id]?

/- ===== scanner.py : the Symbol record ===== -/

/-- Source scanner.py class Symbol: id, type (the category computed by
determine_type), line number and column number. -/
structure Symbol where
  id : Nat
  type : String
  line_number : Nat
  column_number : Nat
deriving DecidableEq

/-- Default symbol used only to read fields of a symbol that the source
guarantees to be present (Python would have raised before reaching such a
read). -/
def junk_symbol : Symbol := { id := 0, type := "", line_number := 0, column_number := 0 }

/-- Source scanner.py Scanner.create_symbol: intern the string, classify
it, and record the position.  Returns the symbol and the updated table. -/
def create_symbol (names_list : List String) (s : String) (line col : Nat) :
    Symbol × List String :=
  let r := names_lookup names_list [s]
  ({ id := r.1.headD 0, type := determine_type s,
     line_number := line, column_number := col }, r.2)

/-- Helper for building concrete test inputs: run create_symbol over a list
of token strings, numbering columns 1, 2, ... on line 1.  This mirrors what
Scanner.get_symbols produces for a one-line file whose character-level
positions are irrelevant to the claims. -/
def tokenize_strings (strs : List String) : List Symbol × List String :=
  let step := fun (acc : List Symbol × List String × Nat) (s : String) =>
    let r := create_symbol acc.2.1 s 1 acc.2.2
    (acc.1 ++ [r.1], r.2, acc.2.2 + 1)
  let out := strs.foldl step ([], [], 1)
  (out.1, out.2.1)

/- ===== semantic_error_handler.py : the result-code protocol ===== -/

/-- Result-code constants minted by the three collaborators (devices,
network, monitors) through Names.unique_error_codes; their concrete values
are decided at run time, so they are parameters here.  Field names follow
the collaborator constants used in SemanticErrorHandler.__init__. -/
structure CollabCodes where
  INVALID_QUALIFIER : Nat
  NO_QUALIFIER : Nat
  BAD_DEVICE : Nat
  QUALIFIER_PRESENT : Nat
  DEVICE_PRESENT : Nat
  INPUT_TO_INPUT : Nat
  OUTPUT_TO_OUTPUT : Nat
  INPUT_CONNECTED : Nat
  PORT_ABSENT : Nat
  DEVICE_ABSENT : Nat
  NOT_OUTPUT : Nat
  MONITOR_PRESENT : Nat
deriving DecidableEq

/-- Source semantic_error_handler.py lines 44-57: the lookup table built at
construction, in the construction order of the Python dict literal. -/
def semantic_error_codes (k : CollabCodes) : List (Nat × String) :=
  [(k.INVALID_QUALIFIER, "Invalid qualifier"),
   (k.NO_QUALIFIER, "No qualifier"),
   (k.BAD_DEVICE, "Bad device"),
   (k.QUALIFIER_PRESENT, "Qualifier present"),
   (k.DEVICE_PRESENT, "Device present"),
   (k.INPUT_TO_INPUT, "Input to input"),
   (k.OUTPUT_TO_OUTPUT, "Output to output"),
   (k.INPUT_CONNECTED, "Input connected"),
   (k.PORT_ABSENT, "Port absent"),
   (k.DEVICE_ABSENT, "Device absent"),
   (k.NOT_OUTPUT, "Not output"),
   (k.MONITOR_PRESENT, "Monitor present")]

/-- Python dict lookup on a literal built from a key-value list: a later
binding of the same key overwrites an earlier one, so the last binding
wins. -/
def py_dict_get (l : List (Nat × String)) (key : Nat) : Option String :=
  (l.reverse.find? (fun e => e.1 == key)).map (fun e => e.2)

/-- Source semantic_error_handler.py SemanticErrorHandler.handle_error:
codes absent from the table mean success (return False); a present code is
printed, and only the one bound to the Monitor present category is treated
as a warning (return False); every other present code is fatal (return
True).  The symbols argument only feeds the printing, which does not
affect the returned value. -/
def handle_error (k : CollabCodes) (code : Nat) (_symbols : List Symbol) :
    Bool :=
  match py_dict_get (semantic_error_codes k) code with
  | none => false
  | some cat => if cat = "Monitor present" then false else true

/-- Source semantic_error_handler.py display_input_not_connected_error
reads the network through devices.find_devices, devices.get_device and
network.get_connected_output; those collaborators are modelled as data. -/
structure DevRecord where
  id : Nat
  inputs : List Nat
deriving DecidableEq

/-- Collaborator state visible to display_input_not_connected_error. -/
structure NetEnv where
  names : List String
  devices : List DevRecord
  connected_output : Nat → Nat → Bool

/-- Source semantic_error_handler.py lines 286-293: the list accumulated by
display_input_not_connected_error.  For every device, for every input pin
whose connected output is None, the DEVICE NAME (get_name_string of the
device id, an Option) is appended, once per undriven input. -/
def input_not_connected_entries (env : NetEnv) : List (Option String) :=
  env.devices.foldl
    (fun acc d =>
      acc ++ (d.inputs.filter (fun i => !env.connected_output d.id i)).map
        (fun _ => get_name_string env.names d.id))
    []

/-- Source semantic_error_handler.py line 295: the fixed text in front of
the accumulated list in the unconnected-input diagnostic. -/
def input_not_connected_message_head : String :=
  "One or more inputs are left unconnected for the following devices: "

/-- Message head that the module tests (test_semantic_error_handling.py
lines 426 and 439) and the spec expect for the same diagnostic. -/
def expected_not_connected_message_head : String :=
  "The following input pins are not connected to a device: "

/- ===== Parser construction (parse.py line 45, final/parse.py line 45) ===== -/

/-- Source parse.py Parser.__init__ line 45 reads
scanner.list_of_symbols[0]; on an empty cached list Python raises an
uncaught IndexError, modelled as the error case. -/
def src_parser_init_symbol (syms : List Symbol) : Except String Symbol :=
  match syms with
  | [] => Except.error "IndexError"
  | x :: _ => Except.ok x

/-- Source final/parse.py Parser.__init__ line 45 sets self.symbol = None
whatever the cached list holds. -/
def final_parser_init_symbol (_syms : List Symbol) : Option Symbol := none

/- ===== Scanner cursor and parser state ===== -/

/-- Context fixed for a whole parse: the cached symbol list
(scanner.list_of_symbols, filled once by get_symbols) and the names table
as it stands after scanning. -/
structure Ctx where
  syms : List Symbol
  names : List String
deriving DecidableEq

/-- One diagnostic record: either a syntax-error report (the error index of
Parser.syntax_error_types and the symbol the error is located at) or the
summary line that final/parse.py parse_network hands to print_error (its
argument is the recorded error count).  Message rendering is presentation
and is not modelled. -/
inductive LogEntry where
  | err (idx : Nat) (sym : Option Symbol)
  | summary (count : Nat)
deriving DecidableEq

/-- Mutable parser/scanner state: pos is symbol_counter + 1 (so the
initial counter -1 is pos 0), sym is self.symbol, errors is
num_of_errors, log records the print_error calls in order, and fetches is
a ghost counter of get_symbol calls. -/
structure PSt where
  pos : Nat
  sym : Option Symbol
  errors : Nat
  log : List LogEntry
  fetches : Nat
deriving DecidableEq

/-- Source scanner.py Scanner.get_symbol (lines 613-627), with the result
stored into self.symbol as every call site does: within the cache, advance
the cursor and return the symbol there; past the end, reset the cursor to
before the start and return None. -/
def get_symbol (ctx : Ctx) (st : PSt) : PSt :=
  if h : st.pos < ctx.syms.length then
    { st with sym := some (ctx.syms.get ⟨st.pos, h⟩), pos := st.pos + 1,
              fetches := st.fetches + 1 }
  else
    { st with sym := none, pos := 0, fetches := st.fetches + 1 }

/-- Iterated get_symbol, for the cursor-cycling claim. -/
def get_symbol_iter (ctx : Ctx) : Nat → PSt → PSt
  | 0, st => st
  | k + 1, st => get_symbol_iter ctx k (get_symbol ctx st)

/-- Source parse.py display_syntax_error: count the error and pass the
message for the given index to scanner.print_error located at the given
symbol.  Only the index and the location are recorded; the message text is
presentation. -/
def display_error (idx : Nat) (sym : Option Symbol) (st : PSt) : PSt :=
  { st with errors := st.errors + 1, log := st.log ++ [LogEntry.err idx sym] }

/-- Python scanner.list_of_symbols[-1], used to locate the premature-EOF
error; None only on an empty cache, where Python would raise instead (that
state is unreachable from the claims proved here). -/
def last_symbol (ctx : Ctx) : Option Symbol := ctx.syms.getLast?

/-- Python self.symbol.type; reading it with self.symbol = None would raise
in Python, and every such read in the embedding is behind a None check, so
the junk value is never observable. -/
def symType (st : PSt) : String :=
  match st.sym with
  | some y => y.type
  | none => ""

/-- Python self.symbol where the source guarantees it is not None. -/
def symD (st : PSt) : Symbol := st.sym.getD junk_symbol

/-- Python self.names.get_name_string(self.symbol.id). -/
def symName (ctx : Ctx) (st : PSt) : Option String :=
  get_name_string ctx.names (symD st).id

/-- Python self.names.get_name_string(self.symbol.id) in SET: None is in no
set of strings. -/
def name_in (ctx : Ctx) (st : PSt) (l : List String) : Bool :=
  match symName ctx st with
  | some s => l.contains s
  | none => false

/-- Python set comprehension str(i) for i in range(1, 17), the legal gate
input counts (parse.py line 287). -/
def one_to_sixteen : List String := (List.range 16).map (fun i => toString (i + 1))

/-- Stop predicate of the recovery loops that discard up to a comma or a
semi-colon. -/
def stop_comma_semi : Symbol → Bool :=
  fun y => y.type == "comma" || y.type == "semi-colon"

/-- Stop predicate of the outer recovery loops that discard up to a section
keyword, compared through get_name_string as the source does. -/
def stop_name_is (ctx : Ctx) (s : String) : Symbol → Bool :=
  fun y => get_name_string ctx.names y.id == some s

/-- Stop predicate of the recovery loops of final/parse.py that stop at a
comma, a semi-colon or a section keyword. -/
def stop_comma_semi_name (ctx : Ctx) (s : String) : Symbol → Bool :=
  fun y => y.type == "comma" || y.type == "semi-colon"
    || get_name_string ctx.names y.id == some s

/-- Shared shape of every syntax-error recovery loop of parse.py and
final/parse.py: while the stop predicate rejects the current symbol, fetch
the next one; when the fetch runs past the end, report error 22 at the last
cached symbol and leave self.symbol = None, which makes the enclosing
production return at once. -/
def resync (ctx : Ctx) (stop : Symbol → Bool) (st : PSt) : PSt :=
  match st.sym with
  | none => st
  | some y =>
    if stop y then st
    else
      match h2 : (get_symbol ctx st).sym with
      | none => display_error 22 (last_symbol ctx) (get_symbol ctx st)
      | some _ => resync ctx stop (get_symbol ctx st)
termination_by ctx.syms.length - st.pos
decreasing_by
  simp only [get_symbol] at h2 ⊢
  split at h2 <;> simp_all <;> omega


/- ===== Cursor accounting (termination and fetch-count support) =====

Every parser production satisfies the same contract FS over the scanner
cursor: it keeps the cursor within the cache, it never decreases the error
count, and either it ends with a symbol in hand, having advanced the
cursor by at least as much as it fetched, or it ends at the None sentinel,
having fetched at most the remaining cache plus the one sentinel fetch,
with at least one error reported.  The lemmas are stated before the parser
definitions because the recursive list productions need them to justify
termination. -/

/-- Contract relating a production's entry state to its exit state, over a
cache of n symbols. -/
def FS (n : Nat) (s s1 : PSt) : Prop :=
  s1.pos ≤ n ∧ s.errors ≤ s1.errors ∧
  ((s1.sym = none ∧ s1.fetches ≤ s.fetches + (n - s.pos) + 1 ∧
      s.errors < s1.errors) ∨
   (s1.sym ≠ none ∧ s.pos ≤ s1.pos ∧
      s1.fetches ≤ s.fetches + (s1.pos - s.pos)))

theorem gs_errors (ctx : Ctx) (st : PSt) :
    (get_symbol ctx st).errors = st.errors := by
  unfold get_symbol; split <;> rfl

theorem gs_log (ctx : Ctx) (st : PSt) :
    (get_symbol ctx st).log = st.log := by
  unfold get_symbol; split <;> rfl

theorem gs_fetches (ctx : Ctx) (st : PSt) :
    (get_symbol ctx st).fetches = st.fetches + 1 := by
  unfold get_symbol; split <;> rfl

theorem gs_some (ctx : Ctx) (st : PSt) (h : (get_symbol ctx st).sym ≠ none) :
    (get_symbol ctx st).pos = st.pos + 1 ∧ st.pos < ctx.syms.length := by
  unfold get_symbol at h ⊢
  by_cases hlt : st.pos < ctx.syms.length
  · simp [hlt]
  · simp [hlt] at h

theorem gs_none (ctx : Ctx) (st : PSt) (h : (get_symbol ctx st).sym = none) :
    (get_symbol ctx st).pos = 0 ∧ ctx.syms.length ≤ st.pos := by
  unfold get_symbol at h ⊢
  by_cases hlt : st.pos < ctx.syms.length
  · simp [hlt] at h
  · simp [hlt]; omega

theorem de_pos (idx : Nat) (y : Option Symbol) (st : PSt) :
    (display_error idx y st).pos = st.pos := rfl

theorem de_sym (idx : Nat) (y : Option Symbol) (st : PSt) :
    (display_error idx y st).sym = st.sym := rfl

theorem de_fetches (idx : Nat) (y : Option Symbol) (st : PSt) :
    (display_error idx y st).fetches = st.fetches := rfl

theorem de_errors (idx : Nat) (y : Option Symbol) (st : PSt) :
    (display_error idx y st).errors = st.errors + 1 := rfl

/-- Exit through the None sentinel right after a fetch, reporting error 22:
the composite satisfies the contract. -/
theorem fs_fetch_none (ctx : Ctx) (st : PSt) (idx : Nat) (y : Option Symbol)
    (hpos : st.pos ≤ ctx.syms.length)
    (h : (get_symbol ctx st).sym = none) :
    FS ctx.syms.length st (display_error idx y (get_symbol ctx st)) := by
  have h1 := gs_none ctx st h
  refine ⟨?_, ?_, Or.inl ⟨?_, ?_, ?_⟩⟩ <;>
    simp [de_pos, de_sym, de_errors, de_fetches, gs_errors, gs_fetches, h, h1] <;>
    omega

/-- Plain error report in place: the contract holds over it. -/
theorem fs_display (n : Nat) (st : PSt) (idx : Nat) (y : Option Symbol)
    (hpos : st.pos ≤ n) :
    FS n st (display_error idx y st) := by
  by_cases h : st.sym = none
  · exact ⟨by simpa [de_pos] using hpos, by simp [de_errors],
      Or.inl ⟨by simp [de_sym, h], by simp [de_fetches]; omega,
        by simp [de_errors]⟩⟩
  · exact ⟨by simpa [de_pos] using hpos, by simp [de_errors],
      Or.inr ⟨by simp [de_sym, h], by simp [de_pos], by simp [de_fetches]⟩⟩

/-- Doing nothing satisfies the contract when a symbol is in hand or an
error has already been charged; used for exits that return the state
unchanged (possible only with a symbol in hand in the reachable states). -/
theorem fs_id_some (n : Nat) (st : PSt) (hpos : st.pos ≤ n)
    (h : st.sym ≠ none) : FS n st st :=
  ⟨hpos, le_refl _, Or.inr ⟨h, le_refl _, by omega⟩⟩

/-- Chaining two contract-satisfying steps when the first ends with a
symbol in hand. -/
theorem fs_trans (n : Nat) (s s1 s2 : PSt) (h1 : FS n s s1)
    (hs : s1.sym ≠ none) (h2 : FS n s1 s2) : FS n s s2 := by
  obtain ⟨p1, e1, c1⟩ := h1
  obtain ⟨p2, e2, c2⟩ := h2
  rcases c1 with ⟨hn, _, _⟩ | ⟨_, hp1, hf1⟩
  · exact absurd hn hs
  rcases c2 with ⟨hn2, hf2, he2⟩ | ⟨hs2, hp2, hf2⟩
  · exact ⟨p2, le_trans e1 e2, Or.inl ⟨hn2, by omega, lt_of_le_of_lt e1 he2⟩⟩
  · exact ⟨p2, le_trans e1 e2, Or.inr ⟨hs2, le_trans hp1 hp2, by omega⟩⟩

/-- A fetch that lands on a symbol keeps the contract relative to the
pre-fetch state. -/
theorem fs_fetch_some (ctx : Ctx) (st : PSt)
    (hpos : st.pos ≤ ctx.syms.length)
    (h : (get_symbol ctx st).sym ≠ none) :
    FS ctx.syms.length st (get_symbol ctx st) := by
  have h1 := gs_some ctx st h
  exact ⟨by omega, by simp [gs_errors],
    Or.inr ⟨h, by omega, by simp [gs_fetches]; omega⟩⟩

/-- The recovery loop entered at the None sentinel returns at once (a
state unreachable from the parser, where Python would have raised). -/
theorem resync_none (ctx : Ctx) (stop : Symbol → Bool) (st : PSt)
    (h : st.sym = none) : resync ctx stop st = st := by
  rw [resync]; split
  · rfl
  · simp_all

/-- The shared recovery loop satisfies the contract whenever it starts with
a symbol in hand, as every call site guarantees. -/
theorem resync_fs (ctx : Ctx) (stop : Symbol → Bool) (st : PSt)
    (hpos : st.pos ≤ ctx.syms.length) (hsym : st.sym ≠ none) :
    FS ctx.syms.length st (resync ctx stop st) := by
  induction st using resync.induct ctx stop with
  | case1 x hx => exact absurd hx hsym
  | case2 x y hy hstop =>
    rw [resync, hy]
    simp only []
    rw [if_pos hstop]
    exact fs_id_some _ x hpos hsym
  | case3 x y hy hstop hnone =>
    rw [resync, hy]
    simp only []
    rw [if_neg hstop]
    split
    · exact fs_fetch_none ctx x 22 (last_symbol ctx) hpos hnone
    · simp_all
  | case4 x y hy hstop val hval ih =>
    rw [resync, hy]
    simp only []
    rw [if_neg hstop]
    split
    · simp_all
    · have hs : (get_symbol ctx x).sym ≠ none := by simp [hval]
      have h1 := gs_some ctx x hs
      exact fs_trans _ _ _ _ (fs_fetch_some ctx x hpos hs) hs
        (ih (by omega) hs)

/- ===== Shared parse-result shapes ===== -/

/-- One parsed item: the symbols of a device, connection or monitor. -/
abbrev Item := List Symbol

/-- One slot of a parsed list: the item, or None for a malformed item. -/
abbrev MItem := Option Item

/-- The dictionary network_dict builds: one optional entry per section (a
missing Python key is None here). -/
structure NetDict where
  devices : Option (List MItem)
  connect : Option (List MItem)
  monitor : Option (List MItem)
deriving DecidableEq

/-- Python truthiness of the network_dict value at parse_network: a dict is
truthy iff it has at least one key. -/
def dict_truthy (d : NetDict) : Bool :=
  d.devices.isSome || d.connect.isSome || d.monitor.isSome

/-- Python int() applied to get_name_string output: the parser has already
checked the string is numeric, so the junk value 0 (where Python would
raise) is never produced on reachable inputs. -/
def py_int (o : Option String) : Int := ((o.getD "").toInt?).getD 0

/-- Common shape of one section of network_dict in both parse.py (lines
799-838) and final/parse.py (lines 942-991): check the section keyword
(else report errk), fetch, abort on premature EOF, check the colon (else
report 20), then run the section list production; abort again if that
production ran out of symbols.  The error result carries the state of the
early return False; the ok result carries the section value (the dict
entry, None when the key stays absent) and the continuing state. -/
def network_section (ctx : Ctx) (kw : String) (errk : Nat)
    (listfn : Ctx → PSt → Option (List MItem) × PSt) (st : PSt) :
    Except PSt (Option (List MItem) × PSt) :=
  let stA := if symName ctx st = some kw then st
             else display_error errk st.sym st
  match (get_symbol ctx stA).sym with
  | none =>
    Except.error (display_error 22 (last_symbol ctx) (get_symbol ctx stA))
  | some _ =>
    let stB := get_symbol ctx stA
    let stC := if symType stB = "colon" then stB
               else display_error 20 stB.sym stB
    let r := listfn ctx stC
    if r.2.sym = none then Except.error r.2
    else Except.ok (r.1, r.2)

theorem network_section_fs (ctx : Ctx) (kw : String) (errk : Nat)
    (listfn : Ctx → PSt → Option (List MItem) × PSt)
    (hlist : ∀ st1 : PSt, st1.pos ≤ ctx.syms.length →
      FS ctx.syms.length st1 (listfn ctx st1).2)
    (st : PSt) (hpos : st.pos ≤ ctx.syms.length) (hsym : st.sym ≠ none) :
    (match network_section ctx kw errk listfn st with
     | Except.error stE => FS ctx.syms.length st stE
     | Except.ok (_, st1) =>
        FS ctx.syms.length st st1 ∧ st1.sym ≠ none) := by
  have hA : FS ctx.syms.length st
      (if symName ctx st = some kw then st
       else display_error errk st.sym st) := by
    split
    · exact fs_id_some _ st hpos hsym
    · exact fs_display _ _ errk st.sym hpos
  have hAs : (if symName ctx st = some kw then st
      else display_error errk st.sym st).sym ≠ none := by
    split
    · exact hsym
    · rw [de_sym]; exact hsym
  have hAp : (if symName ctx st = some kw then st
      else display_error errk st.sym st).pos ≤ ctx.syms.length := by
    split
    · exact hpos
    · rw [de_pos]; exact hpos
  unfold network_section
  simp only []
  generalize hGA : (if symName ctx st = some kw then st
      else display_error errk st.sym st) = A at hA hAs hAp ⊢
  split
  · rename_i stE hn
    split at hn
    · rename_i hfn
      cases hn
      exact fs_trans _ _ _ _ hA hAs
        (fs_fetch_none ctx A 22 (last_symbol ctx) hAp hfn)
    · rename_i z hz
      have hs : (get_symbol ctx A).sym ≠ none := by simp [hz]
      have f1 := fs_fetch_some ctx A hAp hs
      have hbase := fs_trans _ _ _ _ hA hAs f1
      revert hn
      generalize hGC : (if symType (get_symbol ctx A) = "colon" then
          get_symbol ctx A
        else display_error 20 (get_symbol ctx A).sym (get_symbol ctx A)) = C
      have hC : FS ctx.syms.length st C := by
        rw [← hGC]
        split
        · exact hbase
        · exact fs_trans _ _ _ _ hbase hs (fs_display _ _ 20 _ f1.1)
      have hCs : C.sym ≠ none := by
        rw [← hGC]
        split
        · exact hs
        · rw [de_sym]; exact hs
      have hCp : C.pos ≤ ctx.syms.length := by
        rw [← hGC]
        split
        · exact f1.1
        · rw [de_pos]; exact f1.1
      intro hn
      split at hn
      · cases hn
        exact fs_trans _ _ _ _ hC hCs (hlist C hCp)
      · cases hn
  · rename_i p st1 hok
    split at hok
    · cases hok
    · rename_i z hz
      have hs : (get_symbol ctx A).sym ≠ none := by simp [hz]
      have f1 := fs_fetch_some ctx A hAp hs
      have hbase := fs_trans _ _ _ _ hA hAs f1
      revert hok
      generalize hGC : (if symType (get_symbol ctx A) = "colon" then
          get_symbol ctx A
        else display_error 20 (get_symbol ctx A).sym (get_symbol ctx A)) = C
      have hC : FS ctx.syms.length st C := by
        rw [← hGC]
        split
        · exact hbase
        · exact fs_trans _ _ _ _ hbase hs (fs_display _ _ 20 _ f1.1)
      have hCs : C.sym ≠ none := by
        rw [← hGC]
        split
        · exact hs
        · rw [de_sym]; exact hs
      have hCp : C.pos ≤ ctx.syms.length := by
        rw [← hGC]
        split
        · exact f1.1
        · rw [de_pos]; exact f1.1
      intro hok
      split at hok
      · cases hok
      · rename_i hns
        cases hok
        exact ⟨fs_trans _ _ _ _ hC hCs (hlist C hCp), hns⟩

/- ===== parse.py : the intermediate Parser (namespace SrcP) ===== -/

namespace SrcP

/-- Source parse.py Parser.check_name (lines 73-87). -/
def check_name (st : PSt) : Bool × PSt :=
  if symType st = "name" then (true, st)
  else (false, display_error 9 st.sym st)

/-- Source parse.py Parser.check_dtype_xor (lines 314-367). -/
def check_dtype_xor (ctx : Ctx) (dev : Item) (dev_list : List MItem)
    (st : PSt) : List MItem × PSt :=
  let dev1 := dev ++ [symD st]
  let st1 := get_symbol ctx st
  if st1.sym = none then
    (dev_list ++ [none], display_error 22 (last_symbol ctx) st1)
  else if symType st1 = "comma" then
    (dev_list ++ [none], display_error 7 st1.sym st1)
  else
    let r1 := check_name st1
    if r1.1 then
      let dev2 := dev1 ++ [symD r1.2]
      let st2 := get_symbol ctx r1.2
      if st2.sym = none then
        (dev_list ++ [none], display_error 22 (last_symbol ctx) st2)
      else if symType st2 = "comma" ∨ symType st2 = "semi-colon" then
        (dev_list ++ [some dev2], st2)
      else
        let st3 := display_error 19 st2.sym st2
        let st4 := get_symbol ctx st3
        if st4.sym = none then
          (dev_list ++ [none], display_error 22 (last_symbol ctx) st4)
        else (dev_list ++ [none], st4)
    else
      (dev_list ++ [none], resync ctx stop_comma_semi r1.2)

/-- Common body of Parser.check_clock (lines 89-162), Parser.check_switch
(lines 164-237) and Parser.check_logic_device (lines 239-312), which are
textually identical up to the third-parameter test (pcond) and the error
reported when that test fails (perr).  Each wrapper below instantiates the
two parameters exactly as its source method reads. -/
def check_param (ctx : Ctx) (pcond : PSt → Bool) (perr : Nat) (dev : Item)
    (dev_list : List MItem) (st : PSt) : List MItem × PSt :=
  let dev1 := dev ++ [symD st]
  let st1 := get_symbol ctx st
  if st1.sym = none then
    (dev_list ++ [none], display_error 22 (last_symbol ctx) st1)
  else if symType st1 = "comma" then
    (dev_list ++ [none], display_error 6 st1.sym st1)
  else
    let r1 := check_name st1
    if r1.1 then
      let dev2 := dev1 ++ [symD r1.2]
      let st2 := get_symbol ctx r1.2
      if st2.sym = none then
        (dev_list ++ [none], display_error 22 (last_symbol ctx) st2)
      else if symType st2 = "comma" then
        (dev_list ++ [none], display_error 6 st2.sym st2)
      else if pcond st2 then
        let dev3 := dev2 ++ [symD st2]
        let st3 := get_symbol ctx st2
        if st3.sym = none then
          (dev_list ++ [none], display_error 22 (last_symbol ctx) st3)
        else if symType st3 = "comma" ∨ symType st3 = "semi-colon" then
          (dev_list ++ [some dev3], st3)
        else
          let st4 := display_error 19 st3.sym st3
          let st5 := get_symbol ctx st4
          if st5.sym = none then
            (dev_list ++ [none], display_error 22 (last_symbol ctx) st5)
          else (dev_list ++ [none], st5)
      else
        let st3 := display_error perr st2.sym st2
        (dev_list ++ [none], resync ctx stop_comma_semi st3)
    else
      (dev_list ++ [none], resync ctx stop_comma_semi r1.2)

/-- Source parse.py Parser.check_clock: third parameter must be of type
integer, else error 10. -/
def check_clock (ctx : Ctx) (dev : Item) (dev_list : List MItem) (st : PSt) :
    List MItem × PSt :=
  check_param ctx (fun s => symType s == "integer") 10 dev dev_list st

/-- Source parse.py Parser.check_switch: third parameter must name 0 or 1,
else error 11. -/
def check_switch (ctx : Ctx) (dev : Item) (dev_list : List MItem) (st : PSt) :
    List MItem × PSt :=
  check_param ctx (fun s => name_in ctx s ["0", "1"]) 11 dev dev_list st

/-- Source parse.py Parser.check_logic_device: third parameter must name an
integer 1..16, else error 12. -/
def check_logic_device (ctx : Ctx) (dev : Item) (dev_list : List MItem)
    (st : PSt) : List MItem × PSt :=
  check_param ctx (fun s => name_in ctx s one_to_sixteen) 12 dev dev_list st

/-- Source parse.py Parser.device (lines 369-403): dispatch on the device
keyword, or report error 8 and resynchronise. -/
def device (ctx : Ctx) (dev_list : List MItem) (st : PSt) :
    List MItem × PSt :=
  if symName ctx st = some "CLOCK" then check_clock ctx [] dev_list st
  else if symName ctx st = some "SWITCH" then check_switch ctx [] dev_list st
  else if name_in ctx st ["AND", "NAND", "OR", "NOR"] then
    check_logic_device ctx [] dev_list st
  else if name_in ctx st ["XOR", "DTYPE"] then
    check_dtype_xor ctx [] dev_list st
  else
    let st1 := display_error 8 st.sym st
    (dev_list ++ [none], resync ctx stop_comma_semi st1)

theorem cn_sym (st : PSt) : (check_name st).2.sym = st.sym := by
  unfold check_name; split <;> rfl

theorem cn_pos (st : PSt) : (check_name st).2.pos = st.pos := by
  unfold check_name; split <;> rfl

theorem cn_fs (n : Nat) (st : PSt) (hpos : st.pos ≤ n)
    (hsym : st.sym ≠ none) : FS n st (check_name st).2 := by
  unfold check_name; split
  · exact fs_id_some n st hpos hsym
  · exact fs_display n st 9 st.sym hpos

theorem check_dtype_xor_fs (ctx : Ctx) (dev : Item) (dev_list : List MItem)
    (st : PSt) (hpos : st.pos ≤ ctx.syms.length) :
    FS ctx.syms.length st (check_dtype_xor ctx dev dev_list st).2 := by
  unfold check_dtype_xor
  by_cases h1 : (get_symbol ctx st).sym = none
  · simp only [h1, if_true]
    exact fs_fetch_none ctx st 22 (last_symbol ctx) hpos h1
  · have f1 := fs_fetch_some ctx st hpos h1
    have p1 : (get_symbol ctx st).pos ≤ ctx.syms.length := f1.1
    simp only [h1, if_false]
    split
    · exact fs_trans _ _ _ _ f1 h1
        (fs_display _ _ 7 (get_symbol ctx st).sym p1)
    · have fc := cn_fs ctx.syms.length (get_symbol ctx st) p1 h1
      have hcs : (check_name (get_symbol ctx st)).2.sym ≠ none := by
        rw [cn_sym]; exact h1
      have pc : (check_name (get_symbol ctx st)).2.pos ≤ ctx.syms.length := by
        rw [cn_pos]; exact p1
      split
      · -- check_name succeeded
        by_cases h2 : (get_symbol ctx (check_name (get_symbol ctx st)).2).sym = none
        · simp only [h2, if_true]
          exact fs_trans _ _ _ _ (fs_trans _ _ _ _ f1 h1 fc) hcs
            (fs_fetch_none ctx _ 22 (last_symbol ctx) pc h2)
        · have f2 := fs_fetch_some ctx _ pc h2
          have p2 := f2.1
          have base := fs_trans _ _ _ _ (fs_trans _ _ _ _ f1 h1 fc) hcs f2
          simp only [h2, if_false]
          split
          · exact base
          · -- error 19 then one more fetch
            have base2 := fs_trans _ _ _ _ base h2
              (fs_display ctx.syms.length _ 19
                (get_symbol ctx (check_name (get_symbol ctx st)).2).sym p2)
            have hds : (display_error 19
                (get_symbol ctx (check_name (get_symbol ctx st)).2).sym
                (get_symbol ctx (check_name (get_symbol ctx st)).2)).sym ≠ none := by
              rw [de_sym]; exact h2
            have pd : (display_error 19
                (get_symbol ctx (check_name (get_symbol ctx st)).2).sym
                (get_symbol ctx (check_name (get_symbol ctx st)).2)).pos ≤
                ctx.syms.length := by rw [de_pos]; exact p2
            by_cases h3 : (get_symbol ctx (display_error 19
                (get_symbol ctx (check_name (get_symbol ctx st)).2).sym
                (get_symbol ctx (check_name (get_symbol ctx st)).2))).sym = none
            · simp only [h3, if_true]
              exact fs_trans _ _ _ _ base2 hds
                (fs_fetch_none ctx _ 22 (last_symbol ctx) pd h3)
            · simp only [h3, if_false]
              exact fs_trans _ _ _ _ base2 hds (fs_fetch_some ctx _ pd h3)
      · -- check_name failed: recover to the next comma or semi-colon
        exact fs_trans _ _ _ _ (fs_trans _ _ _ _ f1 h1 fc) hcs
          (resync_fs ctx stop_comma_semi _ pc hcs)

theorem check_param_fs (ctx : Ctx) (pcond : PSt → Bool) (perr : Nat)
    (dev : Item) (dev_list : List MItem) (st : PSt)
    (hpos : st.pos ≤ ctx.syms.length) :
    FS ctx.syms.length st (check_param ctx pcond perr dev dev_list st).2 := by
  unfold check_param
  by_cases h1 : (get_symbol ctx st).sym = none
  · simp only [h1, if_true]
    exact fs_fetch_none ctx st 22 (last_symbol ctx) hpos h1
  · have f1 := fs_fetch_some ctx st hpos h1
    have p1 : (get_symbol ctx st).pos ≤ ctx.syms.length := f1.1
    simp only [h1, if_false]
    split
    · exact fs_trans _ _ _ _ f1 h1
        (fs_display _ _ 6 (get_symbol ctx st).sym p1)
    · have fc := cn_fs ctx.syms.length (get_symbol ctx st) p1 h1
      have hcs : (check_name (get_symbol ctx st)).2.sym ≠ none := by
        rw [cn_sym]; exact h1
      have pc : (check_name (get_symbol ctx st)).2.pos ≤ ctx.syms.length := by
        rw [cn_pos]; exact p1
      have base1 := fs_trans _ _ _ _ f1 h1 fc
      split
      · -- check_name succeeded
        by_cases h2 : (get_symbol ctx (check_name (get_symbol ctx st)).2).sym = none
        · simp only [h2, if_true]
          exact fs_trans _ _ _ _ base1 hcs
            (fs_fetch_none ctx _ 22 (last_symbol ctx) pc h2)
        · have f2 := fs_fetch_some ctx _ pc h2
          have p2 := f2.1
          have base2 := fs_trans _ _ _ _ base1 hcs f2
          simp only [h2, if_false]
          split
          · -- comma straight after the name
            exact fs_trans _ _ _ _ base2 h2 (fs_display _ _ 6 _ p2)
          · split
            · -- the parameter test passed: one more fetch
              by_cases h3 : (get_symbol ctx
                  (get_symbol ctx (check_name (get_symbol ctx st)).2)).sym = none
              · simp only [h3, if_true]
                exact fs_trans _ _ _ _ base2 h2
                  (fs_fetch_none ctx _ 22 (last_symbol ctx) p2 h3)
              · have f3 := fs_fetch_some ctx _ p2 h3
                have p3 := f3.1
                have base3 := fs_trans _ _ _ _ base2 h2 f3
                simp only [h3, if_false]
                split
                · exact base3
                · -- error 19, then one final fetch
                  have base4 := fs_trans _ _ _ _ base3 h3
                    (fs_display ctx.syms.length _ 19
                      (get_symbol ctx (get_symbol ctx
                        (check_name (get_symbol ctx st)).2)).sym p3)
                  have hds : (display_error 19
                      (get_symbol ctx (get_symbol ctx
                        (check_name (get_symbol ctx st)).2)).sym
                      (get_symbol ctx (get_symbol ctx
                        (check_name (get_symbol ctx st)).2))).sym ≠ none := by
                    rw [de_sym]; exact h3
                  have pd : (display_error 19
                      (get_symbol ctx (get_symbol ctx
                        (check_name (get_symbol ctx st)).2)).sym
                      (get_symbol ctx (get_symbol ctx
                        (check_name (get_symbol ctx st)).2))).pos ≤
                      ctx.syms.length := by rw [de_pos]; exact p3
                  by_cases h4 : (get_symbol ctx (display_error 19
                      (get_symbol ctx (get_symbol ctx
                        (check_name (get_symbol ctx st)).2)).sym
                      (get_symbol ctx (get_symbol ctx
                        (check_name (get_symbol ctx st)).2)))).sym = none
                  · simp only [h4, if_true]
                    exact fs_trans _ _ _ _ base4 hds
                      (fs_fetch_none ctx _ 22 (last_symbol ctx) pd h4)
                  · simp only [h4, if_false]
                    exact fs_trans _ _ _ _ base4 hds (fs_fetch_some ctx _ pd h4)
            · -- the parameter test failed: error perr, then recovery loop
              have base3 := fs_trans _ _ _ _ base2 h2
                (fs_display ctx.syms.length _ perr
                  (get_symbol ctx (check_name (get_symbol ctx st)).2).sym p2)
              have hds : (display_error perr
                  (get_symbol ctx (check_name (get_symbol ctx st)).2).sym
                  (get_symbol ctx (check_name (get_symbol ctx st)).2)).sym ≠
                  none := by rw [de_sym]; exact h2
              have pd : (display_error perr
                  (get_symbol ctx (check_name (get_symbol ctx st)).2).sym
                  (get_symbol ctx (check_name (get_symbol ctx st)).2)).pos ≤
                  ctx.syms.length := by rw [de_pos]; exact p2
              exact fs_trans _ _ _ _ base3 hds
                (resync_fs ctx stop_comma_semi _ pd hds)
      · -- check_name failed
        exact fs_trans _ _ _ _ base1 hcs
          (resync_fs ctx stop_comma_semi _ pc hcs)

theorem check_clock_fs (ctx : Ctx) (dev : Item) (dev_list : List MItem)
    (st : PSt) (hpos : st.pos ≤ ctx.syms.length) :
    FS ctx.syms.length st (check_clock ctx dev dev_list st).2 :=
  check_param_fs ctx _ 10 dev dev_list st hpos

theorem check_switch_fs (ctx : Ctx) (dev : Item) (dev_list : List MItem)
    (st : PSt) (hpos : st.pos ≤ ctx.syms.length) :
    FS ctx.syms.length st (check_switch ctx dev dev_list st).2 :=
  check_param_fs ctx _ 11 dev dev_list st hpos

theorem check_logic_device_fs (ctx : Ctx) (dev : Item)
    (dev_list : List MItem) (st : PSt) (hpos : st.pos ≤ ctx.syms.length) :
    FS ctx.syms.length st (check_logic_device ctx dev dev_list st).2 :=
  check_param_fs ctx _ 12 dev dev_list st hpos

theorem device_fs (ctx : Ctx) (dev_list : List MItem) (st : PSt)
    (hpos : st.pos ≤ ctx.syms.length) (hsym : st.sym ≠ none) :
    FS ctx.syms.length st (device ctx dev_list st).2 := by
  unfold device
  split
  · exact check_clock_fs ctx [] dev_list st hpos
  · split
    · exact check_switch_fs ctx [] dev_list st hpos
    · split
      · exact check_logic_device_fs ctx [] dev_list st hpos
      · split
        · exact check_dtype_xor_fs ctx [] dev_list st hpos
        · have hds : (display_error 8 st.sym st).sym ≠ none := by
            rw [de_sym]; exact hsym
          have pd : (display_error 8 st.sym st).pos ≤ ctx.syms.length := by
            rw [de_pos]; exact hpos
          exact fs_trans _ _ _ _ (fs_display _ _ 8 st.sym hpos) hds
            (resync_fs ctx stop_comma_semi _ pd hds)

/-- Source parse.py Parser.device_list, tail after the while loop (lines
441-457): expect the closing semi-colon, fetch past it, and return the
device list only when no placeholder is in it; otherwise report error 19
and discard symbols up to the CONNECT keyword. -/
def device_list_after (ctx : Ctx) (dev_list : List MItem) (st : PSt) :
    Option (List MItem) × PSt :=
  if symType st = "semi-colon" then
    match (get_symbol ctx st).sym with
    | none => (none, display_error 22 (last_symbol ctx) (get_symbol ctx st))
    | some _ =>
      if dev_list.contains none then (none, get_symbol ctx st)
      else (some dev_list, get_symbol ctx st)
  else
    let st1 := display_error 19 st.sym st
    (none, resync ctx (stop_name_is ctx "CONNECT") st1)

/-- Source parse.py Parser.device_list, the while loop (lines 431-440):
while the current symbol is a comma, fetch the next symbol, stop at the
CONNECT keyword, and parse one more device. -/
def device_list_loop (ctx : Ctx) (dev_list : List MItem) (st : PSt) :
    Option (List MItem) × PSt :=
  if symType st = "comma" then
    match h1 : (get_symbol ctx st).sym with
    | none => (none, display_error 22 (last_symbol ctx) (get_symbol ctx st))
    | some _ =>
      if symName ctx (get_symbol ctx st) = some "CONNECT" then
        device_list_after ctx dev_list (get_symbol ctx st)
      else
        let r := device ctx dev_list (get_symbol ctx st)
        if h2 : r.2.sym = none then (none, r.2)
        else device_list_loop ctx r.1 r.2
  else device_list_after ctx dev_list st
termination_by ctx.syms.length - st.pos
decreasing_by
  have hs1 : (get_symbol ctx st).sym ≠ none := by simp [h1]
  have hg := gs_some ctx st hs1
  have hd := device_fs ctx dev_list (get_symbol ctx st) (by omega) hs1
  rcases hd.2.2 with ⟨hn, _, _⟩ | ⟨_, hp, _⟩
  · exact absurd hn h2
  · omega

/-- Source parse.py Parser.device_list (lines 405-457): fetch the first
symbol of the list; a bare semi-colon is error 5 (at least one device is
required); otherwise parse the first device and iterate. -/
def device_list (ctx : Ctx) (st : PSt) : Option (List MItem) × PSt :=
  match (get_symbol ctx st).sym with
  | none => (none, display_error 22 (last_symbol ctx) (get_symbol ctx st))
  | some _ =>
    if symType (get_symbol ctx st) = "semi-colon" then
      let st1 := display_error 5 (get_symbol ctx st).sym (get_symbol ctx st)
      match (get_symbol ctx st1).sym with
      | none => (none, display_error 22 (last_symbol ctx) (get_symbol ctx st1))
      | some _ => (none, get_symbol ctx st1)
    else
      let r := device ctx [] (get_symbol ctx st)
      if r.2.sym = none then (none, r.2)
      else device_list_loop ctx r.1 r.2

theorem device_list_after_fs (ctx : Ctx) (dev_list : List MItem) (st : PSt)
    (hpos : st.pos ≤ ctx.syms.length) (hsym : st.sym ≠ none) :
    FS ctx.syms.length st (device_list_after ctx dev_list st).2 := by
  unfold device_list_after
  split
  · split
    · rename_i hn
      exact fs_fetch_none ctx st 22 (last_symbol ctx) hpos hn
    · rename_i z hz
      have hs : (get_symbol ctx st).sym ≠ none := by simp [hz]
      split
      · exact fs_fetch_some ctx st hpos hs
      · exact fs_fetch_some ctx st hpos hs
  · have hds : (display_error 19 st.sym st).sym ≠ none := by
      rw [de_sym]; exact hsym
    have pd : (display_error 19 st.sym st).pos ≤ ctx.syms.length := by
      rw [de_pos]; exact hpos
    exact fs_trans _ _ _ _ (fs_display _ _ 19 st.sym hpos) hds
      (resync_fs ctx (stop_name_is ctx "CONNECT") _ pd hds)

theorem device_list_loop_fs (ctx : Ctx) (dev_list : List MItem) (st : PSt)
    (hpos : st.pos ≤ ctx.syms.length) (hsym : st.sym ≠ none) :
    FS ctx.syms.length st (device_list_loop ctx dev_list st).2 := by
  induction dev_list, st using device_list_loop.induct ctx with
  | case1 dl st hc h1 =>
    rw [device_list_loop, if_pos hc]
    split
    · exact fs_fetch_none ctx st 22 (last_symbol ctx) hpos h1
    · simp_all
  | case2 dl st hc z h1 hkw =>
    rw [device_list_loop, if_pos hc]
    split
    · simp_all
    · rw [if_pos hkw]
      have hs : (get_symbol ctx st).sym ≠ none := by simp [h1]
      exact fs_trans _ _ _ _ (fs_fetch_some ctx st hpos hs) hs
        (device_list_after_fs ctx dl _ (fs_fetch_some ctx st hpos hs).1 hs)
  | case3 dl st hc z h1 hkw r h2 =>
    rw [device_list_loop, if_pos hc]
    split
    · simp_all
    · rw [if_neg hkw]
      have hs : (get_symbol ctx st).sym ≠ none := by simp [h1]
      have hd := device_fs ctx dl (get_symbol ctx st)
        (fs_fetch_some ctx st hpos hs).1 hs
      simp only []
      rw [dif_pos h2]
      exact fs_trans _ _ _ _ (fs_fetch_some ctx st hpos hs) hs hd
  | case4 dl st hc z h1 hkw r h2 ih =>
    rw [device_list_loop, if_pos hc]
    split
    · simp_all
    · rw [if_neg hkw]
      have hs : (get_symbol ctx st).sym ≠ none := by simp [h1]
      have hd := device_fs ctx dl (get_symbol ctx st)
        (fs_fetch_some ctx st hpos hs).1 hs
      simp only []
      rw [dif_neg h2]
      exact fs_trans _ _ _ _
        (fs_trans _ _ _ _ (fs_fetch_some ctx st hpos hs) hs hd) h2
        (ih hd.1 h2)
  | case5 dl st hc =>
    rw [device_list_loop, if_neg hc]
    exact device_list_after_fs ctx dl st hpos hsym

theorem device_list_fs (ctx : Ctx) (st : PSt)
    (hpos : st.pos ≤ ctx.syms.length) :
    FS ctx.syms.length st (device_list ctx st).2 := by
  unfold device_list
  split
  · rename_i hn
    exact fs_fetch_none ctx st 22 (last_symbol ctx) hpos hn
  · rename_i z hz
    have hs : (get_symbol ctx st).sym ≠ none := by simp [hz]
    have f1 := fs_fetch_some ctx st hpos hs
    split
    · have pd : (display_error 5 (get_symbol ctx st).sym
          (get_symbol ctx st)).pos ≤ ctx.syms.length := by
        rw [de_pos]; exact f1.1
      have hds : (display_error 5 (get_symbol ctx st).sym
          (get_symbol ctx st)).sym ≠ none := by rw [de_sym]; exact hs
      have base := fs_trans _ _ _ _ f1 hs
        (fs_display _ _ 5 (get_symbol ctx st).sym f1.1)
      simp only []
      split
      · rename_i hn2
        exact fs_trans _ _ _ _ base hds
          (fs_fetch_none ctx _ 22 (last_symbol ctx) pd hn2)
      · rename_i z2 hz2
        exact fs_trans _ _ _ _ base hds
          (fs_fetch_some ctx _ pd (by simp [hz2]))
    · have hd := device_fs ctx [] (get_symbol ctx st) f1.1 hs
      have base := fs_trans _ _ _ _ f1 hs hd
      simp only []
      split
      · exact base
      · rename_i hns
        exact fs_trans _ _ _ _ base hns
          (device_list_loop_fs ctx _ _ hd.1 hns)

/-- Source parse.py Parser.connection, closing comma-or-semi-colon check
(lines 576-585): accept the connection, or report error 13 and fetch one
more symbol. -/
def connection_close (ctx : Ctx) (con : Item) (con_list : List MItem)
    (st : PSt) : List MItem × PSt :=
  if symType st = "comma" ∨ symType st = "semi-colon" then
    (con_list ++ [some con], st)
  else
    let st1 := display_error 13 st.sym st
    let st2 := get_symbol ctx st1
    if st2.sym = none then
      (con_list ++ [none], display_error 22 (last_symbol ctx) st2)
    else (con_list ++ [none], st2)

/-- Source parse.py Parser.connection, input-pin check (lines 562-575):
consume the input pin and fetch, or report error 17 and fetch one more
symbol. -/
def connection_input_pin (ctx : Ctx) (con : Item) (con_list : List MItem)
    (st : PSt) : List MItem × PSt :=
  if symType st = "input_pin" then
    let con1 := con ++ [symD st]
    let st1 := get_symbol ctx st
    if st1.sym = none then
      (con_list ++ [none], display_error 22 (last_symbol ctx) st1)
    else connection_close ctx con1 con_list st1
  else
    let st1 := display_error 17 st.sym st
    let st2 := get_symbol ctx st1
    if st2.sym = none then
      (con_list ++ [none], display_error 22 (last_symbol ctx) st2)
    else (con_list ++ [none], st2)

/-- Source parse.py Parser.connection, from the arrow check to the dot in
front of the input pin (lines 515-561); con holds the symbols consumed so
far. -/
def connection_tail (ctx : Ctx) (con : Item) (con_list : List MItem)
    (st : PSt) : List MItem × PSt :=
  if symType st = "arrow" then
    let con1 := con ++ [symD st]
    let st1 := get_symbol ctx st
    if st1.sym = none then
      (con_list ++ [none], display_error 22 (last_symbol ctx) st1)
    else
      let r1 := check_name st1
      if r1.1 then
        let con2 := con1 ++ [symD r1.2]
        let st2 := get_symbol ctx r1.2
        if st2.sym = none then
          (con_list ++ [none], display_error 22 (last_symbol ctx) st2)
        else if symType st2 = "dot" then
          let con3 := con2 ++ [symD st2]
          let st3 := get_symbol ctx st2
          if st3.sym = none then
            (con_list ++ [none], display_error 22 (last_symbol ctx) st3)
          else connection_input_pin ctx con3 con_list st3
        else
          let st3 := display_error 16 st2.sym st2
          (con_list ++ [none], resync ctx stop_comma_semi st3)
      else
        (con_list ++ [none], resync ctx stop_comma_semi r1.2)
  else
    let st1 := display_error 15 st.sym st
    (con_list ++ [none], resync ctx stop_comma_semi st1)

/-- Source parse.py Parser.connection (lines 459-514): the first device
name and its optional output pin, then the tail above. -/
def connection (ctx : Ctx) (con_list : List MItem) (st : PSt) :
    List MItem × PSt :=
  let r1 := check_name st
  if r1.1 then
    let con1 : Item := [symD r1.2]
    let st1 := get_symbol ctx r1.2
    if st1.sym = none then
      (con_list ++ [none], display_error 22 (last_symbol ctx) st1)
    else if symType st1 = "dot" then
      let con2 := con1 ++ [symD st1]
      let st2 := get_symbol ctx st1
      if st2.sym = none then
        (con_list ++ [none], display_error 22 (last_symbol ctx) st2)
      else if symType st2 = "output_pin" then
        let con3 := con2 ++ [symD st2]
        let st3 := get_symbol ctx st2
        if st3.sym = none then
          (con_list ++ [none], display_error 22 (last_symbol ctx) st3)
        else connection_tail ctx con3 con_list st3
      else
        let st3 := display_error 14 st2.sym st2
        (con_list ++ [none], resync ctx stop_comma_semi st3)
    else connection_tail ctx con1 con_list st1
  else
    (con_list ++ [none], resync ctx stop_comma_semi r1.2)

/-- Source parse.py Parser.monitor, the closing comma-or-semi-colon check
(lines 700-709). -/
def monitor_after (ctx : Ctx) (mon : Item) (mon_list : List MItem)
    (st : PSt) : List MItem × PSt :=
  if symType st = "comma" ∨ symType st = "semi-colon" then
    (mon_list ++ [some mon], st)
  else
    let st1 := display_error 18 st.sym st
    let st2 := get_symbol ctx st1
    if st2.sym = none then
      (mon_list ++ [none], display_error 22 (last_symbol ctx) st2)
    else (mon_list ++ [none], st2)

/-- Source parse.py Parser.monitor (lines 641-709): a device name, an
optional dot and output pin, then the closing check. -/
def monitor (ctx : Ctx) (mon_list : List MItem) (st : PSt) :
    List MItem × PSt :=
  let r1 := check_name st
  if r1.1 then
    let mon1 : Item := [symD r1.2]
    let st1 := get_symbol ctx r1.2
    if st1.sym = none then
      (mon_list ++ [none], display_error 22 (last_symbol ctx) st1)
    else if symType st1 = "comma" then
      (mon_list ++ [some mon1], st1)
    else if symType st1 = "dot" then
      let mon2 := mon1 ++ [symD st1]
      let st2 := get_symbol ctx st1
      if st2.sym = none then
        (mon_list ++ [none], display_error 22 (last_symbol ctx) st2)
      else if symType st2 = "output_pin" then
        let mon3 := mon2 ++ [symD st2]
        let st3 := get_symbol ctx st2
        if st3.sym = none then
          (mon_list ++ [none], display_error 22 (last_symbol ctx) st3)
        else monitor_after ctx mon3 mon_list st3
      else
        let st3 := display_error 14 st2.sym st2
        (mon_list ++ [none], resync ctx stop_comma_semi st3)
    else monitor_after ctx mon1 mon_list st1
  else
    (mon_list ++ [none], resync ctx stop_comma_semi r1.2)

theorem connection_close_fs (ctx : Ctx) (con : Item) (con_list : List MItem)
    (st : PSt) (hpos : st.pos ≤ ctx.syms.length) (hsym : st.sym ≠ none) :
    FS ctx.syms.length st (connection_close ctx con con_list st).2 := by
  rw [connection_close]
  simp only []
  split
  · exact fs_id_some _ st hpos hsym
  · have hds : (display_error 13 st.sym st).sym ≠ none := by
      rw [de_sym]; exact hsym
    have pd : (display_error 13 st.sym st).pos ≤ ctx.syms.length := by
      rw [de_pos]; exact hpos
    have base := fs_display ctx.syms.length st 13 st.sym hpos
    by_cases h1 : (get_symbol ctx (display_error 13 st.sym st)).sym = none
    · simp only [h1, if_true]
      exact fs_trans _ _ _ _ base hds
        (fs_fetch_none ctx _ 22 (last_symbol ctx) pd h1)
    · simp only [h1, if_false]
      exact fs_trans _ _ _ _ base hds (fs_fetch_some ctx _ pd h1)

theorem connection_input_pin_fs (ctx : Ctx) (con : Item)
    (con_list : List MItem) (st : PSt) (hpos : st.pos ≤ ctx.syms.length)
    (hsym : st.sym ≠ none) :
    FS ctx.syms.length st (connection_input_pin ctx con con_list st).2 := by
  rw [connection_input_pin]
  simp only []
  split
  · by_cases h1 : (get_symbol ctx st).sym = none
    · simp only [h1, if_true]
      exact fs_fetch_none ctx st 22 (last_symbol ctx) hpos h1
    · have f1 := fs_fetch_some ctx st hpos h1
      simp only [h1, if_false]
      exact fs_trans _ _ _ _ f1 h1
        (connection_close_fs ctx _ con_list _ f1.1 h1)
  · have hds : (display_error 17 st.sym st).sym ≠ none := by
      rw [de_sym]; exact hsym
    have pd : (display_error 17 st.sym st).pos ≤ ctx.syms.length := by
      rw [de_pos]; exact hpos
    have base := fs_display ctx.syms.length st 17 st.sym hpos
    by_cases h1 : (get_symbol ctx (display_error 17 st.sym st)).sym = none
    · simp only [h1, if_true]
      exact fs_trans _ _ _ _ base hds
        (fs_fetch_none ctx _ 22 (last_symbol ctx) pd h1)
    · simp only [h1, if_false]
      exact fs_trans _ _ _ _ base hds (fs_fetch_some ctx _ pd h1)

theorem connection_tail_fs (ctx : Ctx) (con : Item) (con_list : List MItem)
    (st : PSt) (hpos : st.pos ≤ ctx.syms.length) (hsym : st.sym ≠ none) :
    FS ctx.syms.length st (connection_tail ctx con con_list st).2 := by
  rw [connection_tail]
  simp only []
  split
  · by_cases h1 : (get_symbol ctx st).sym = none
    · simp only [h1, if_true]
      exact fs_fetch_none ctx st 22 (last_symbol ctx) hpos h1
    · have f1 := fs_fetch_some ctx st hpos h1
      have fc := cn_fs ctx.syms.length (get_symbol ctx st) f1.1 h1
      have hcs : (check_name (get_symbol ctx st)).2.sym ≠ none := by
        rw [cn_sym]; exact h1
      have pc : (check_name (get_symbol ctx st)).2.pos ≤ ctx.syms.length := by
        rw [cn_pos]; exact f1.1
      have base1 := fs_trans _ _ _ _ f1 h1 fc
      simp only [h1, if_false]
      split
      · -- second name parsed
        by_cases h2 : (get_symbol ctx (check_name (get_symbol ctx st)).2).sym = none
        · simp only [h2, if_true]
          exact fs_trans _ _ _ _ base1 hcs
            (fs_fetch_none ctx _ 22 (last_symbol ctx) pc h2)
        · have f2 := fs_fetch_some ctx _ pc h2
          have base2 := fs_trans _ _ _ _ base1 hcs f2
          simp only [h2, if_false]
          split
          · -- dot seen
            by_cases h3 : (get_symbol ctx (get_symbol ctx
                (check_name (get_symbol ctx st)).2)).sym = none
            · simp only [h3, if_true]
              exact fs_trans _ _ _ _ base2 h2
                (fs_fetch_none ctx _ 22 (last_symbol ctx) f2.1 h3)
            · have f3 := fs_fetch_some ctx _ f2.1 h3
              have base3 := fs_trans _ _ _ _ base2 h2 f3
              simp only [h3, if_false]
              exact fs_trans _ _ _ _ base3 h3
                (connection_input_pin_fs ctx _ con_list _ f3.1 h3)
          · -- error 16 and recovery
            have base3 := fs_trans _ _ _ _ base2 h2
              (fs_display ctx.syms.length _ 16
                (get_symbol ctx (check_name (get_symbol ctx st)).2).sym f2.1)
            have hds : (display_error 16
                (get_symbol ctx (check_name (get_symbol ctx st)).2).sym
                (get_symbol ctx (check_name (get_symbol ctx st)).2)).sym ≠
                none := by rw [de_sym]; exact h2
            have pd : (display_error 16
                (get_symbol ctx (check_name (get_symbol ctx st)).2).sym
                (get_symbol ctx (check_name (get_symbol ctx st)).2)).pos ≤
                ctx.syms.length := by rw [de_pos]; exact f2.1
            exact fs_trans _ _ _ _ base3 hds
              (resync_fs ctx stop_comma_semi _ pd hds)
      · -- second name rejected
        exact fs_trans _ _ _ _ base1 hcs
          (resync_fs ctx stop_comma_semi _ pc hcs)
  · -- error 15 and recovery
    have hds : (display_error 15 st.sym st).sym ≠ none := by
      rw [de_sym]; exact hsym
    have pd : (display_error 15 st.sym st).pos ≤ ctx.syms.length := by
      rw [de_pos]; exact hpos
    exact fs_trans _ _ _ _ (fs_display _ _ 15 st.sym hpos) hds
      (resync_fs ctx stop_comma_semi _ pd hds)

theorem connection_fs (ctx : Ctx) (con_list : List MItem) (st : PSt)
    (hpos : st.pos ≤ ctx.syms.length) (hsym : st.sym ≠ none) :
    FS ctx.syms.length st (connection ctx con_list st).2 := by
  rw [connection]
  have fc := cn_fs ctx.syms.length st hpos hsym
  have hcs : (check_name st).2.sym ≠ none := by rw [cn_sym]; exact hsym
  have pc : (check_name st).2.pos ≤ ctx.syms.length := by
    rw [cn_pos]; exact hpos
  simp only []
  split
  · by_cases h1 : (get_symbol ctx (check_name st).2).sym = none
    · simp only [h1, if_true]
      exact fs_trans _ _ _ _ fc hcs
        (fs_fetch_none ctx _ 22 (last_symbol ctx) pc h1)
    · have f1 := fs_fetch_some ctx _ pc h1
      have base1 := fs_trans _ _ _ _ fc hcs f1
      simp only [h1, if_false]
      split
      · -- dot after the first name
        by_cases h2 : (get_symbol ctx (get_symbol ctx (check_name st).2)).sym = none
        · simp only [h2, if_true]
          exact fs_trans _ _ _ _ base1 h1
            (fs_fetch_none ctx _ 22 (last_symbol ctx) f1.1 h2)
        · have f2 := fs_fetch_some ctx _ f1.1 h2
          have base2 := fs_trans _ _ _ _ base1 h1 f2
          simp only [h2, if_false]
          split
          · -- output pin
            by_cases h3 : (get_symbol ctx (get_symbol ctx (get_symbol ctx
                (check_name st).2))).sym = none
            · simp only [h3, if_true]
              exact fs_trans _ _ _ _ base2 h2
                (fs_fetch_none ctx _ 22 (last_symbol ctx) f2.1 h3)
            · have f3 := fs_fetch_some ctx _ f2.1 h3
              have base3 := fs_trans _ _ _ _ base2 h2 f3
              simp only [h3, if_false]
              exact fs_trans _ _ _ _ base3 h3
                (connection_tail_fs ctx _ con_list _ f3.1 h3)
          · -- error 14 and recovery
            have base3 := fs_trans _ _ _ _ base2 h2
              (fs_display ctx.syms.length _ 14
                (get_symbol ctx (get_symbol ctx (check_name st).2)).sym f2.1)
            have hds : (display_error 14
                (get_symbol ctx (get_symbol ctx (check_name st).2)).sym
                (get_symbol ctx (get_symbol ctx (check_name st).2))).sym ≠
                none := by rw [de_sym]; exact h2
            have pd : (display_error 14
                (get_symbol ctx (get_symbol ctx (check_name st).2)).sym
                (get_symbol ctx (get_symbol ctx (check_name st).2))).pos ≤
                ctx.syms.length := by rw [de_pos]; exact f2.1
            exact fs_trans _ _ _ _ base3 hds
              (resync_fs ctx stop_comma_semi _ pd hds)
      · -- straight to the arrow
        exact fs_trans _ _ _ _ base1 h1
          (connection_tail_fs ctx _ con_list _ f1.1 h1)
  · exact fs_trans _ _ _ _ fc hcs (resync_fs ctx stop_comma_semi _ pc hcs)

theorem monitor_after_fs (ctx : Ctx) (mon : Item) (mon_list : List MItem)
    (st : PSt) (hpos : st.pos ≤ ctx.syms.length) (hsym : st.sym ≠ none) :
    FS ctx.syms.length st (monitor_after ctx mon mon_list st).2 := by
  unfold monitor_after
  split
  · exact fs_id_some _ st hpos hsym
  · have hds : (display_error 18 st.sym st).sym ≠ none := by
      rw [de_sym]; exact hsym
    have pd : (display_error 18 st.sym st).pos ≤ ctx.syms.length := by
      rw [de_pos]; exact hpos
    have base := fs_display ctx.syms.length st 18 st.sym hpos
    by_cases h1 : (get_symbol ctx (display_error 18 st.sym st)).sym = none
    · simp only [h1, if_true]
      exact fs_trans _ _ _ _ base hds
        (fs_fetch_none ctx _ 22 (last_symbol ctx) pd h1)
    · simp only [h1, if_false]
      exact fs_trans _ _ _ _ base hds (fs_fetch_some ctx _ pd h1)

theorem monitor_fs (ctx : Ctx) (mon_list : List MItem) (st : PSt)
    (hpos : st.pos ≤ ctx.syms.length) (hsym : st.sym ≠ none) :
    FS ctx.syms.length st (monitor ctx mon_list st).2 := by
  rw [monitor]
  have fc := cn_fs ctx.syms.length st hpos hsym
  have hcs : (check_name st).2.sym ≠ none := by rw [cn_sym]; exact hsym
  have pc : (check_name st).2.pos ≤ ctx.syms.length := by
    rw [cn_pos]; exact hpos
  simp only []
  split
  · by_cases h1 : (get_symbol ctx (check_name st).2).sym = none
    · simp only [h1, if_true]
      exact fs_trans _ _ _ _ fc hcs
        (fs_fetch_none ctx _ 22 (last_symbol ctx) pc h1)
    · have f1 := fs_fetch_some ctx _ pc h1
      have base1 := fs_trans _ _ _ _ fc hcs f1
      simp only [h1, if_false]
      split
      · exact base1
      · split
        · -- dot seen
          by_cases h2 : (get_symbol ctx (get_symbol ctx (check_name st).2)).sym = none
          · simp only [h2, if_true]
            exact fs_trans _ _ _ _ base1 h1
              (fs_fetch_none ctx _ 22 (last_symbol ctx) f1.1 h2)
          · have f2 := fs_fetch_some ctx _ f1.1 h2
            have base2 := fs_trans _ _ _ _ base1 h1 f2
            simp only [h2, if_false]
            split
            · -- output pin
              by_cases h3 : (get_symbol ctx (get_symbol ctx (get_symbol ctx
                  (check_name st).2))).sym = none
              · simp only [h3, if_true]
                exact fs_trans _ _ _ _ base2 h2
                  (fs_fetch_none ctx _ 22 (last_symbol ctx) f2.1 h3)
              · have f3 := fs_fetch_some ctx _ f2.1 h3
                have base3 := fs_trans _ _ _ _ base2 h2 f3
                simp only [h3, if_false]
                exact fs_trans _ _ _ _ base3 h3
                  (monitor_after_fs ctx _ mon_list _ f3.1 h3)
            · -- error 14 and recovery
              have base3 := fs_trans _ _ _ _ base2 h2
                (fs_display ctx.syms.length _ 14
                  (get_symbol ctx (get_symbol ctx (check_name st).2)).sym f2.1)
              have hds : (display_error 14
                  (get_symbol ctx (get_symbol ctx (check_name st).2)).sym
                  (get_symbol ctx (get_symbol ctx (check_name st).2))).sym ≠
                  none := by rw [de_sym]; exact h2
              have pd : (display_error 14
                  (get_symbol ctx (get_symbol ctx (check_name st).2)).sym
                  (get_symbol ctx (get_symbol ctx (check_name st).2))).pos ≤
                  ctx.syms.length := by rw [de_pos]; exact f2.1
              exact fs_trans _ _ _ _ base3 hds
                (resync_fs ctx stop_comma_semi _ pd hds)
        · exact fs_trans _ _ _ _ base1 h1
            (monitor_after_fs ctx _ mon_list _ f1.1 h1)
  · exact fs_trans _ _ _ _ fc hcs (resync_fs ctx stop_comma_semi _ pc hcs)

/-- Source parse.py Parser.connection_list, tail after the while loop
(lines 623-639). -/
def connection_list_after (ctx : Ctx) (con_list : List MItem) (st : PSt) :
    Option (List MItem) × PSt :=
  if symType st = "semi-colon" then
    match (get_symbol ctx st).sym with
    | none => (none, display_error 22 (last_symbol ctx) (get_symbol ctx st))
    | some _ =>
      if con_list.contains none then (none, get_symbol ctx st)
      else (some con_list, get_symbol ctx st)
  else
    let st1 := display_error 13 st.sym st
    (none, resync ctx (stop_name_is ctx "MONITOR") st1)

/-- Source parse.py Parser.connection_list, the while loop (lines
613-622). -/
def connection_list_loop (ctx : Ctx) (con_list : List MItem) (st : PSt) :
    Option (List MItem) × PSt :=
  if symType st = "comma" then
    match h1 : (get_symbol ctx st).sym with
    | none => (none, display_error 22 (last_symbol ctx) (get_symbol ctx st))
    | some _ =>
      if symName ctx (get_symbol ctx st) = some "MONITOR" then
        connection_list_after ctx con_list (get_symbol ctx st)
      else
        if h2 : (connection ctx con_list (get_symbol ctx st)).2.sym = none then
          (none, (connection ctx con_list (get_symbol ctx st)).2)
        else
          connection_list_loop ctx
            (connection ctx con_list (get_symbol ctx st)).1
            (connection ctx con_list (get_symbol ctx st)).2
  else connection_list_after ctx con_list st
termination_by ctx.syms.length - st.pos
decreasing_by
  have hs1 : (get_symbol ctx st).sym ≠ none := by simp [h1]
  have hg := gs_some ctx st hs1
  have hd := connection_fs ctx con_list (get_symbol ctx st) (by omega) hs1
  rcases hd.2.2 with ⟨hn, _, _⟩ | ⟨_, hp, _⟩
  · exact absurd hn h2
  · omega

/-- Source parse.py Parser.connection_list (lines 587-639): an immediate
semi-colon is an empty, legal connection list; otherwise parse the first
connection and iterate. -/
def connection_list (ctx : Ctx) (st : PSt) : Option (List MItem) × PSt :=
  match (get_symbol ctx st).sym with
  | none => (none, display_error 22 (last_symbol ctx) (get_symbol ctx st))
  | some _ =>
    if symType (get_symbol ctx st) = "semi-colon" then
      match (get_symbol ctx (get_symbol ctx st)).sym with
      | none =>
        (none, display_error 22 (last_symbol ctx)
          (get_symbol ctx (get_symbol ctx st)))
      | some _ => (some [], get_symbol ctx (get_symbol ctx st))
    else
      let r := connection ctx [] (get_symbol ctx st)
      if r.2.sym = none then (none, r.2)
      else connection_list_loop ctx r.1 r.2

/-- Source parse.py Parser.monitor_list, tail after the while loop (lines
747-763). -/
def monitor_list_after (ctx : Ctx) (mon_list : List MItem) (st : PSt) :
    Option (List MItem) × PSt :=
  if symType st = "semi-colon" then
    match (get_symbol ctx st).sym with
    | none => (none, display_error 22 (last_symbol ctx) (get_symbol ctx st))
    | some _ =>
      if mon_list.contains none then (none, get_symbol ctx st)
      else (some mon_list, get_symbol ctx st)
  else
    let st1 := display_error 18 st.sym st
    (none, resync ctx (stop_name_is ctx "END") st1)

/-- Source parse.py Parser.monitor_list, the while loop (lines 737-746). -/
def monitor_list_loop (ctx : Ctx) (mon_list : List MItem) (st : PSt) :
    Option (List MItem) × PSt :=
  if symType st = "comma" then
    match h1 : (get_symbol ctx st).sym with
    | none => (none, display_error 22 (last_symbol ctx) (get_symbol ctx st))
    | some _ =>
      if symName ctx (get_symbol ctx st) = some "END" then
        monitor_list_after ctx mon_list (get_symbol ctx st)
      else
        if h2 : (monitor ctx mon_list (get_symbol ctx st)).2.sym = none then
          (none, (monitor ctx mon_list (get_symbol ctx st)).2)
        else
          monitor_list_loop ctx
            (monitor ctx mon_list (get_symbol ctx st)).1
            (monitor ctx mon_list (get_symbol ctx st)).2
  else monitor_list_after ctx mon_list st
termination_by ctx.syms.length - st.pos
decreasing_by
  have hs1 : (get_symbol ctx st).sym ≠ none := by simp [h1]
  have hg := gs_some ctx st hs1
  have hd := monitor_fs ctx mon_list (get_symbol ctx st) (by omega) hs1
  rcases hd.2.2 with ⟨hn, _, _⟩ | ⟨_, hp, _⟩
  · exact absurd hn h2
  · omega

/-- Source parse.py Parser.monitor_list (lines 711-763): an immediate
semi-colon is an empty, legal monitor list; otherwise parse the first
monitor and iterate. -/
def monitor_list (ctx : Ctx) (st : PSt) : Option (List MItem) × PSt :=
  match (get_symbol ctx st).sym with
  | none => (none, display_error 22 (last_symbol ctx) (get_symbol ctx st))
  | some _ =>
    if symType (get_symbol ctx st) = "semi-colon" then
      match (get_symbol ctx (get_symbol ctx st)).sym with
      | none =>
        (none, display_error 22 (last_symbol ctx)
          (get_symbol ctx (get_symbol ctx st)))
      | some _ => (some [], get_symbol ctx (get_symbol ctx st))
    else
      let r := monitor ctx [] (get_symbol ctx st)
      if r.2.sym = none then (none, r.2)
      else monitor_list_loop ctx r.1 r.2

theorem connection_list_after_fs (ctx : Ctx) (con_list : List MItem)
    (st : PSt) (hpos : st.pos ≤ ctx.syms.length) (hsym : st.sym ≠ none) :
    FS ctx.syms.length st (connection_list_after ctx con_list st).2 := by
  unfold connection_list_after
  split
  · split
    · rename_i hn
      exact fs_fetch_none ctx st 22 (last_symbol ctx) hpos hn
    · rename_i z hz
      have hs : (get_symbol ctx st).sym ≠ none := by simp [hz]
      split
      · exact fs_fetch_some ctx st hpos hs
      · exact fs_fetch_some ctx st hpos hs
  · have hds : (display_error 13 st.sym st).sym ≠ none := by
      rw [de_sym]; exact hsym
    have pd : (display_error 13 st.sym st).pos ≤ ctx.syms.length := by
      rw [de_pos]; exact hpos
    exact fs_trans _ _ _ _ (fs_display _ _ 13 st.sym hpos) hds
      (resync_fs ctx (stop_name_is ctx "MONITOR") _ pd hds)

theorem connection_list_loop_fs (ctx : Ctx) (con_list : List MItem)
    (st : PSt) (hpos : st.pos ≤ ctx.syms.length) (hsym : st.sym ≠ none) :
    FS ctx.syms.length st (connection_list_loop ctx con_list st).2 := by
  induction con_list, st using connection_list_loop.induct ctx with
  | case1 cl st hc h1 =>
    rw [connection_list_loop, if_pos hc]
    split
    · exact fs_fetch_none ctx st 22 (last_symbol ctx) hpos h1
    · simp_all
  | case2 cl st hc z h1 hkw =>
    rw [connection_list_loop, if_pos hc]
    split
    · simp_all
    · rw [if_pos hkw]
      have hs : (get_symbol ctx st).sym ≠ none := by simp [h1]
      exact fs_trans _ _ _ _ (fs_fetch_some ctx st hpos hs) hs
        (connection_list_after_fs ctx cl _ (fs_fetch_some ctx st hpos hs).1 hs)
  | case3 cl st hc z h1 hkw h2 =>
    rw [connection_list_loop, if_pos hc]
    split
    · simp_all
    · rw [if_neg hkw, dif_pos h2]
      have hs : (get_symbol ctx st).sym ≠ none := by simp [h1]
      have hd := connection_fs ctx cl (get_symbol ctx st)
        (fs_fetch_some ctx st hpos hs).1 hs
      exact fs_trans _ _ _ _ (fs_fetch_some ctx st hpos hs) hs hd
  | case4 cl st hc z h1 hkw h2 ih =>
    rw [connection_list_loop, if_pos hc]
    split
    · simp_all
    · rw [if_neg hkw, dif_neg h2]
      have hs : (get_symbol ctx st).sym ≠ none := by simp [h1]
      have hd := connection_fs ctx cl (get_symbol ctx st)
        (fs_fetch_some ctx st hpos hs).1 hs
      exact fs_trans _ _ _ _
        (fs_trans _ _ _ _ (fs_fetch_some ctx st hpos hs) hs hd) h2
        (ih hd.1 h2)
  | case5 cl st hc =>
    rw [connection_list_loop, if_neg hc]
    exact connection_list_after_fs ctx cl st hpos hsym

theorem connection_list_fs (ctx : Ctx) (st : PSt)
    (hpos : st.pos ≤ ctx.syms.length) :
    FS ctx.syms.length st (connection_list ctx st).2 := by
  unfold connection_list
  split
  · rename_i hn
    exact fs_fetch_none ctx st 22 (last_symbol ctx) hpos hn
  · rename_i z hz
    have hs : (get_symbol ctx st).sym ≠ none := by simp [hz]
    have f1 := fs_fetch_some ctx st hpos hs
    split
    · split
      · rename_i hn2
        exact fs_trans _ _ _ _ f1 hs
          (fs_fetch_none ctx _ 22 (last_symbol ctx) f1.1 hn2)
      · rename_i z2 hz2
        exact fs_trans _ _ _ _ f1 hs
          (fs_fetch_some ctx _ f1.1 (by simp [hz2]))
    · have hd := connection_fs ctx [] (get_symbol ctx st) f1.1 hs
      have base := fs_trans _ _ _ _ f1 hs hd
      simp only []
      split
      · exact base
      · rename_i hns
        exact fs_trans _ _ _ _ base hns
          (connection_list_loop_fs ctx _ _ hd.1 hns)

theorem monitor_list_after_fs (ctx : Ctx) (mon_list : List MItem)
    (st : PSt) (hpos : st.pos ≤ ctx.syms.length) (hsym : st.sym ≠ none) :
    FS ctx.syms.length st (monitor_list_after ctx mon_list st).2 := by
  unfold monitor_list_after
  split
  · split
    · rename_i hn
      exact fs_fetch_none ctx st 22 (last_symbol ctx) hpos hn
    · rename_i z hz
      have hs : (get_symbol ctx st).sym ≠ none := by simp [hz]
      split
      · exact fs_fetch_some ctx st hpos hs
      · exact fs_fetch_some ctx st hpos hs
  · have hds : (display_error 18 st.sym st).sym ≠ none := by
      rw [de_sym]; exact hsym
    have pd : (display_error 18 st.sym st).pos ≤ ctx.syms.length := by
      rw [de_pos]; exact hpos
    exact fs_trans _ _ _ _ (fs_display _ _ 18 st.sym hpos) hds
      (resync_fs ctx (stop_name_is ctx "END") _ pd hds)

theorem monitor_list_loop_fs (ctx : Ctx) (mon_list : List MItem)
    (st : PSt) (hpos : st.pos ≤ ctx.syms.length) (hsym : st.sym ≠ none) :
    FS ctx.syms.length st (monitor_list_loop ctx mon_list st).2 := by
  induction mon_list, st using monitor_list_loop.induct ctx with
  | case1 ml st hc h1 =>
    rw [monitor_list_loop, if_pos hc]
    split
    · exact fs_fetch_none ctx st 22 (last_symbol ctx) hpos h1
    · simp_all
  | case2 ml st hc z h1 hkw =>
    rw [monitor_list_loop, if_pos hc]
    split
    · simp_all
    · rw [if_pos hkw]
      have hs : (get_symbol ctx st).sym ≠ none := by simp [h1]
      exact fs_trans _ _ _ _ (fs_fetch_some ctx st hpos hs) hs
        (monitor_list_after_fs ctx ml _ (fs_fetch_some ctx st hpos hs).1 hs)
  | case3 ml st hc z h1 hkw h2 =>
    rw [monitor_list_loop, if_pos hc]
    split
    · simp_all
    · rw [if_neg hkw, dif_pos h2]
      have hs : (get_symbol ctx st).sym ≠ none := by simp [h1]
      have hd := monitor_fs ctx ml (get_symbol ctx st)
        (fs_fetch_some ctx st hpos hs).1 hs
      exact fs_trans _ _ _ _ (fs_fetch_some ctx st hpos hs) hs hd
  | case4 ml st hc z h1 hkw h2 ih =>
    rw [monitor_list_loop, if_pos hc]
    split
    · simp_all
    · rw [if_neg hkw, dif_neg h2]
      have hs : (get_symbol ctx st).sym ≠ none := by simp [h1]
      have hd := monitor_fs ctx ml (get_symbol ctx st)
        (fs_fetch_some ctx st hpos hs).1 hs
      exact fs_trans _ _ _ _
        (fs_trans _ _ _ _ (fs_fetch_some ctx st hpos hs) hs hd) h2
        (ih hd.1 h2)
  | case5 ml st hc =>
    rw [monitor_list_loop, if_neg hc]
    exact monitor_list_after_fs ctx ml st hpos hsym

theorem monitor_list_fs (ctx : Ctx) (st : PSt)
    (hpos : st.pos ≤ ctx.syms.length) :
    FS ctx.syms.length st (monitor_list ctx st).2 := by
  unfold monitor_list
  split
  · rename_i hn
    exact fs_fetch_none ctx st 22 (last_symbol ctx) hpos hn
  · rename_i z hz
    have hs : (get_symbol ctx st).sym ≠ none := by simp [hz]
    have f1 := fs_fetch_some ctx st hpos hs
    split
    · split
      · rename_i hn2
        exact fs_trans _ _ _ _ f1 hs
          (fs_fetch_none ctx _ 22 (last_symbol ctx) f1.1 hn2)
      · rename_i z2 hz2
        exact fs_trans _ _ _ _ f1 hs
          (fs_fetch_some ctx _ f1.1 (by simp [hz2]))
    · have hd := monitor_fs ctx [] (get_symbol ctx st) f1.1 hs
      have base := fs_trans _ _ _ _ f1 hs hd
      simp only []
      split
      · exact base
      · rename_i hns
        exact fs_trans _ _ _ _ base hns
          (monitor_list_loop_fs ctx _ _ hd.1 hns)

/-- Source parse.py Parser.network_dict (lines 786-853): fetch the first
symbol, run the DEVICES, CONNECT and MONITOR sections, check END and the
final semi-colon (error 20 in this variant), and return the dictionary
exactly when the error count is zero. -/
def network_dict (ctx : Ctx) (st : PSt) : Option NetDict × PSt :=
  match (get_symbol ctx st).sym with
  | none => (none, display_error 22 (last_symbol ctx) (get_symbol ctx st))
  | some _ =>
    match network_section ctx "DEVICES" 1 device_list (get_symbol ctx st) with
    | Except.error stE => (none, stE)
    | Except.ok (dl, st1) =>
      match network_section ctx "CONNECT" 2 connection_list st1 with
      | Except.error stE => (none, stE)
      | Except.ok (cl, st2) =>
        match network_section ctx "MONITOR" 3 monitor_list st2 with
        | Except.error stE => (none, stE)
        | Except.ok (ml, st3) =>
          let stA := if symName ctx st3 = some "END" then st3
                     else display_error 4 st3.sym st3
          match (get_symbol ctx stA).sym with
          | none =>
            (none, display_error 22 (last_symbol ctx) (get_symbol ctx stA))
          | some _ =>
            let stB := if symType (get_symbol ctx stA) = "semi-colon" then
                get_symbol ctx stA
              else display_error 20 (get_symbol ctx stA).sym
                (get_symbol ctx stA)
            if stB.errors = 0 then (some ⟨dl, cl, ml⟩, stB)
            else (none, stB)

theorem network_dict_fs (ctx : Ctx) (st : PSt)
    (hpos : st.pos ≤ ctx.syms.length) :
    FS ctx.syms.length st (network_dict ctx st).2 := by
  unfold network_dict
  split
  · rename_i hfn
    exact fs_fetch_none ctx st 22 (last_symbol ctx) hpos hfn
  · rename_i z hz
    have hs : (get_symbol ctx st).sym ≠ none := by simp [hz]
    have f1 := fs_fetch_some ctx st hpos hs
    have hsec1 := network_section_fs ctx "DEVICES" 1 device_list
      (fun s h => device_list_fs ctx s h) (get_symbol ctx st) f1.1 hs
    split
    · rename_i stE hE
      rw [hE] at hsec1
      exact fs_trans _ _ _ _ f1 hs hsec1
    · rename_i dl st1 hE
      rw [hE] at hsec1
      have base1 := fs_trans _ _ _ _ f1 hs hsec1.1
      have hsec2 := network_section_fs ctx "CONNECT" 2 connection_list
        (fun s h => connection_list_fs ctx s h) st1 base1.1 hsec1.2
      split
      · rename_i stE hE2
        rw [hE2] at hsec2
        exact fs_trans _ _ _ _ base1 hsec1.2 hsec2
      · rename_i cl st2 hE2
        rw [hE2] at hsec2
        have base2 := fs_trans _ _ _ _ base1 hsec1.2 hsec2.1
        have hsec3 := network_section_fs ctx "MONITOR" 3 monitor_list
          (fun s h => monitor_list_fs ctx s h) st2 base2.1 hsec2.2
        split
        · rename_i stE hE3
          rw [hE3] at hsec3
          exact fs_trans _ _ _ _ base2 hsec2.2 hsec3
        · rename_i ml st3 hE3
          rw [hE3] at hsec3
          have base3 := fs_trans _ _ _ _ base2 hsec2.2 hsec3.1
          have hs3 := hsec3.2
          simp only []
          generalize hGA : (if symName ctx st3 = some "END" then st3
              else display_error 4 st3.sym st3) = A
          have hA : FS ctx.syms.length st A := by
            rw [← hGA]
            split
            · exact base3
            · exact fs_trans _ _ _ _ base3 hs3
                (fs_display _ _ 4 st3.sym base3.1)
          have hAs : A.sym ≠ none := by
            rw [← hGA]
            split
            · exact hs3
            · rw [de_sym]; exact hs3
          have hAp : A.pos ≤ ctx.syms.length := by
            rw [← hGA]
            split
            · exact base3.1
            · rw [de_pos]; exact base3.1
          split
          · rename_i hfn2
            exact fs_trans _ _ _ _ hA hAs
              (fs_fetch_none ctx A 22 (last_symbol ctx) hAp hfn2)
          · rename_i z2 hz2
            have hs2 : (get_symbol ctx A).sym ≠ none := by simp [hz2]
            have f2 := fs_fetch_some ctx A hAp hs2
            have base4 := fs_trans _ _ _ _ hA hAs f2
            generalize hGB : (if symType (get_symbol ctx A) = "semi-colon"
                then get_symbol ctx A
              else display_error 20 (get_symbol ctx A).sym
                (get_symbol ctx A)) = B
            have hB : FS ctx.syms.length st B := by
              rw [← hGB]
              split
              · exact base4
              · exact fs_trans _ _ _ _ base4 hs2
                  (fs_display _ _ 20 _ f2.1)
            split
            · exact hB
            · exact hB

/-- One call made to a collaborator during the building phase of parse.py
(the device property is the int Python passes in this variant). -/
inductive BCall where
  | makeDevice (name typ : Nat) (prop : Option Int)
  | makeConnection (dev1 : Nat) (port1 : Option Nat) (dev2 : Nat)
      (port2 : Option Nat)
  | checkNetwork
  | makeMonitor (dev : Nat) (port : Option Nat)
deriving DecidableEq

/-- The collaborators the building phase of parse.py drives: their minted
result codes and, for each creation entry point, the code it returns as a
function of the call history so far and of the arguments (this covers any
stateful collaborator). -/
structure BuildEnv where
  codes : CollabCodes
  device_code : List BCall → Nat → Nat → Option Int → Nat
  connection_code : List BCall → Nat → Option Nat → Nat → Option Nat → Nat
  monitor_code : List BCall → Nat → Option Nat → Nat
  network_ok : List BCall → Bool

/-- Source parse.py Parser.build_devices (lines 855-879): one make_device
call per item; a code that handle_error classifies as fatal stops the
phase with False.  Python reads device[0] and device[1] unconditionally
(and device[2] only when the length is 3, where it exists), so an item
shorter than two symbols raises an uncaught IndexError (a None item, read
here as [], raises TypeError) before any call is made: the Except.error
result models that exception, paired with the calls already made. -/
def build_devices (ctx : Ctx) (env : BuildEnv) :
    List MItem → List BCall → Except String Bool × List BCall
  | [], tr => (Except.ok true, tr)
  | item :: rest, tr =>
    let ds := item.getD []
    if 2 ≤ ds.length then
      let device_type := (ds[0]?.getD junk_symbol).id
      let device_name := (ds[1]?.getD junk_symbol).id
      let device_property : Option Int :=
        if ds.length = 3 then
          some (py_int (get_name_string ctx.names (ds[2]?.getD junk_symbol).id))
        else none
      let code := env.device_code tr device_name device_type device_property
      let tr1 := tr ++ [BCall.makeDevice device_name device_type
        device_property]
      if handle_error env.codes code ds then (Except.ok false, tr1)
      else build_devices ctx env rest tr1
    else (Except.error "IndexError", tr)

/-- Source parse.py Parser.build_connections, the per-item loop and the
closing check_network call (lines 881-915); the unconnected-input
diagnostic itself is modelled by input_not_connected_entries.  The ports
are gathered exactly as Python reads the item: connection[0] and
connection[1] unconditionally, then in the dot branch connection[2],
connection[4] and connection[5] (connection[6] only behind the second dot
check), else connection[2] and connection[3] (connection[4] only behind
the dot check); any of these reads past the end of the item raises an
uncaught IndexError before make_connection is called, modelled by the
Except.error result with the calls already made. -/
def build_connections (env : BuildEnv) :
    List MItem → List BCall → Except String Bool × List BCall
  | [], tr =>
    let ok := env.network_ok tr
    let tr1 := tr ++ [BCall.checkNetwork]
    if !ok then (Except.ok false, tr1) else (Except.ok true, tr1)
  | item :: rest, tr =>
    let cs := item.getD []
    if 2 ≤ cs.length then
      let first_device := (cs[0]?.getD junk_symbol).id
      let ports : Except String (Option Nat × Nat × Option Nat) :=
        if (cs[1]?.getD junk_symbol).type = "dot" then
          if 6 ≤ cs.length then
            if (cs[5]?.getD junk_symbol).type = "dot" then
              if 7 ≤ cs.length then
                Except.ok (some (cs[2]?.getD junk_symbol).id,
                  (cs[4]?.getD junk_symbol).id,
                  some (cs[6]?.getD junk_symbol).id)
              else Except.error "IndexError"
            else
              Except.ok (some (cs[2]?.getD junk_symbol).id,
                (cs[4]?.getD junk_symbol).id, none)
          else Except.error "IndexError"
        else
          if 4 ≤ cs.length then
            if (cs[3]?.getD junk_symbol).type = "dot" then
              if 5 ≤ cs.length then
                Except.ok (none, (cs[2]?.getD junk_symbol).id,
                  some (cs[4]?.getD junk_symbol).id)
              else Except.error "IndexError"
            else Except.ok (none, (cs[2]?.getD junk_symbol).id, none)
          else Except.error "IndexError"
      match ports with
      | Except.error e => (Except.error e, tr)
      | Except.ok p =>
        let code := env.connection_code tr first_device p.1 p.2.1 p.2.2
        let tr1 := tr ++ [BCall.makeConnection first_device p.1 p.2.1 p.2.2]
        if handle_error env.codes code cs then (Except.ok false, tr1)
        else build_connections env rest tr1
    else (Except.error "IndexError", tr)

/-- Source parse.py Parser.build_monitors (lines 917-936): Python reads
monitor[0] unconditionally (and monitor[2] only when the length is 3), so
an empty item raises an uncaught IndexError, modelled as the Except.error
result. -/
def build_monitors (env : BuildEnv) :
    List MItem → List BCall → Except String Bool × List BCall
  | [], tr => (Except.ok true, tr)
  | item :: rest, tr =>
    let ms := item.getD []
    if 1 ≤ ms.length then
      let device_name := (ms[0]?.getD junk_symbol).id
      let port_name : Option Nat :=
        if ms.length = 3 then some (ms[2]?.getD junk_symbol).id else none
      let code := env.monitor_code tr device_name port_name
      let tr1 := tr ++ [BCall.makeMonitor device_name port_name]
      if handle_error env.codes code ms then (Except.ok false, tr1)
      else build_monitors env rest tr1
    else (Except.error "IndexError", tr)

/-- Source parse.py Parser.build_network (lines 938-956): all three phases
run unconditionally, whatever Boolean the earlier phases returned, and the
result is the conjunction of the three successes; an exception raised in
one phase propagates at once (the later phases do not run), carrying the
calls made so far. -/
def build_network (ctx : Ctx) (env : BuildEnv) (d : NetDict)
    (tr : List BCall) : Except String Bool × List BCall :=
  let rd := build_devices ctx env (d.devices.getD []) tr
  match rd.1 with
  | Except.error e => (Except.error e, rd.2)
  | Except.ok bd =>
    let rc := build_connections env (d.connect.getD []) rd.2
    match rc.1 with
    | Except.error e => (Except.error e, rc.2)
    | Except.ok bc =>
      let rm := build_monitors env (d.monitor.getD []) rc.2
      match rm.1 with
      | Except.error e => (Except.error e, rm.2)
      | Except.ok bm => (Except.ok (bd && bc && bm), rm.2)

/-- Parser state as Parser.__init__ of parse.py leaves it for a non-empty
cache: the cursor is before the first symbol and self.symbol is the first
cached symbol (read directly, without moving the cursor); on an empty
cache Python raises instead (see src_parser_init_symbol). -/
def init_state (ctx : Ctx) : PSt :=
  { pos := 0, sym := ctx.syms[0]?, errors := 0, log := [], fetches := 0 }

/-- Source parse.py Parser.parse_network (lines 958-971): run the syntax
phase; on a truthy dictionary run the building phase, else return False.
Returns the result (an exception of the building phase propagates out of
parse_network uncaught), the final parser state and the collaborator call
trace. -/
def parse_network (ctx : Ctx) (env : BuildEnv) (st : PSt) :
    Except String Bool × PSt × List BCall :=
  let r := network_dict ctx st
  match r.1 with
  | some d =>
    if dict_truthy d then
      let b := build_network ctx env d []
      (b.1, r.2, b.2)
    else (Except.ok false, r.2, [])
  | none => (Except.ok false, r.2, [])

end SrcP

/- ===== final/parse.py : the maintained Parser (namespace FinalP) =====

Parser.check_name of final/parse.py (lines 74-88) is textually identical
to the one of parse.py, so SrcP.check_name and its lemmas are reused. -/

namespace FinalP

/-- Modelled from the spec: Symbol.is_waveform of the final scanner, whose
source is not in the repository snapshot (only final/test_symbols.py and
its callers are).  Spec section 4.2: isWaveform(text) -> (valid,
firstBadOffset|None) for 0/1-only strings; per the tests, None and the
empty string give (False, 0), a clean waveform gives (True, None), and
otherwise the offset of the first character that is not 0 or 1 is
returned. -/
def is_waveform (o : Option String) : Bool × Option Nat :=
  match o with
  | none => (false, some 0)
  | some s =>
    if s.data = [] then (false, some 0)
    else
      match s.data.findIdx? (fun c => !(c == '0' || c == '1')) with
      | none => (true, none)
      | some i => (false, some i)

/-- Python self.scanner.list_of_symbols[self.scanner.list_of_symbols
.index(self.symbol) - 1], the symbol in front of the current one, used by
the final device_list, connection_list and monitor_list to locate their
separator errors (index 0 wraps to the last element, as Python indexing
with -1 does). -/
def py_prev_symbol (ctx : Ctx) (st : PSt) : Option Symbol :=
  let i := ctx.syms.indexOf (symD st)
  if i = 0 then ctx.syms.getLast? else ctx.syms[i - 1]?

/-- Common body of check_clock_rc (lines 90-168), check_switch (lines
170-248), check_logic_device (lines 250-328) and check_siggen (lines
390-467) of final/parse.py, which are textually identical up to the
third-parameter test (pcond) and the error reported when it fails (perr).
Differences from the parse.py variant: the missing-parameter guard also
fires on a semi-colon, and the trailing separator error 19 resynchronises
up to a comma, a semi-colon or the CONNECT keyword instead of fetching a
single symbol. -/
def check_param (ctx : Ctx) (pcond : PSt → Bool) (perr : Nat) (dev : Item)
    (dev_list : List MItem) (st : PSt) : List MItem × PSt :=
  let dev1 := dev ++ [symD st]
  let st1 := get_symbol ctx st
  if st1.sym = none then
    (dev_list ++ [none], display_error 22 (last_symbol ctx) st1)
  else if symType st1 = "comma" ∨ symType st1 = "semi-colon" then
    (dev_list ++ [none], display_error 6 st1.sym st1)
  else
    let r1 := SrcP.check_name st1
    if r1.1 then
      let dev2 := dev1 ++ [symD r1.2]
      let st2 := get_symbol ctx r1.2
      if st2.sym = none then
        (dev_list ++ [none], display_error 22 (last_symbol ctx) st2)
      else if symType st2 = "comma" ∨ symType st2 = "semi-colon" then
        (dev_list ++ [none], display_error 6 st2.sym st2)
      else if pcond st2 then
        let dev3 := dev2 ++ [symD st2]
        let st3 := get_symbol ctx st2
        if st3.sym = none then
          (dev_list ++ [none], display_error 22 (last_symbol ctx) st3)
        else if symType st3 = "comma" ∨ symType st3 = "semi-colon" then
          (dev_list ++ [some dev3], st3)
        else
          let st4 := display_error 19 st3.sym st3
          (dev_list ++ [none],
           resync ctx (stop_comma_semi_name ctx "CONNECT") st4)
      else
        let st3 := display_error perr st2.sym st2
        (dev_list ++ [none], resync ctx stop_comma_semi st3)
    else
      (dev_list ++ [none], resync ctx stop_comma_semi r1.2)

/-- Source final/parse.py Parser.check_clock_rc: the time constant must be
of type integer, else error 10. -/
def check_clock_rc (ctx : Ctx) (dev : Item) (dev_list : List MItem)
    (st : PSt) : List MItem × PSt :=
  check_param ctx (fun s => symType s == "integer") 10 dev dev_list st

/-- Source final/parse.py Parser.check_switch: the state must name 0 or 1,
else error 11. -/
def check_switch (ctx : Ctx) (dev : Item) (dev_list : List MItem)
    (st : PSt) : List MItem × PSt :=
  check_param ctx (fun s => name_in ctx s ["0", "1"]) 11 dev dev_list st

/-- Source final/parse.py Parser.check_logic_device: the fan-in must name
an integer 1..16, else error 12. -/
def check_logic_device (ctx : Ctx) (dev : Item) (dev_list : List MItem)
    (st : PSt) : List MItem × PSt :=
  check_param ctx (fun s => name_in ctx s one_to_sixteen) 12 dev dev_list st

/-- Source final/parse.py Parser.check_siggen: the waveform must pass
is_waveform, else error 23. -/
def check_siggen (ctx : Ctx) (dev : Item) (dev_list : List MItem)
    (st : PSt) : List MItem × PSt :=
  check_param ctx (fun s => (is_waveform (symName ctx s)).1) 23 dev dev_list st

/-- Source final/parse.py Parser.check_dtype_xor (lines 330-387). -/
def check_dtype_xor (ctx : Ctx) (dev : Item) (dev_list : List MItem)
    (st : PSt) : List MItem × PSt :=
  let dev1 := dev ++ [symD st]
  let st1 := get_symbol ctx st
  if st1.sym = none then
    (dev_list ++ [none], display_error 22 (last_symbol ctx) st1)
  else if symType st1 = "comma" ∨ symType st1 = "semi-colon" then
    (dev_list ++ [none], display_error 7 st1.sym st1)
  else
    let r1 := SrcP.check_name st1
    if r1.1 then
      let dev2 := dev1 ++ [symD r1.2]
      let st2 := get_symbol ctx r1.2
      if st2.sym = none then
        (dev_list ++ [none], display_error 22 (last_symbol ctx) st2)
      else if symType st2 = "comma" ∨ symType st2 = "semi-colon" then
        (dev_list ++ [some dev2], st2)
      else
        let st3 := display_error 19 st2.sym st2
        (dev_list ++ [none],
         resync ctx (stop_comma_semi_name ctx "CONNECT") st3)
    else
      (dev_list ++ [none], resync ctx stop_comma_semi r1.2)

/-- Source final/parse.py Parser.device (lines 469-508): dispatch on the
device keyword, now including RC and SIGGEN, or report error 8 and
resynchronise. -/
def device (ctx : Ctx) (dev_list : List MItem) (st : PSt) :
    List MItem × PSt :=
  if name_in ctx st ["CLOCK", "RC"] then check_clock_rc ctx [] dev_list st
  else if symName ctx st = some "SWITCH" then check_switch ctx [] dev_list st
  else if symName ctx st = some "SIGGEN" then check_siggen ctx [] dev_list st
  else if name_in ctx st ["AND", "NAND", "OR", "NOR"] then
    check_logic_device ctx [] dev_list st
  else if name_in ctx st ["XOR", "DTYPE"] then
    check_dtype_xor ctx [] dev_list st
  else
    let st1 := display_error 8 st.sym st
    (dev_list ++ [none], resync ctx stop_comma_semi st1)

theorem fcheck_param_fs (ctx : Ctx) (pcond : PSt → Bool) (perr : Nat)
    (dev : Item) (dev_list : List MItem) (st : PSt)
    (hpos : st.pos ≤ ctx.syms.length) :
    FS ctx.syms.length st (check_param ctx pcond perr dev dev_list st).2 := by
  unfold check_param
  by_cases h1 : (get_symbol ctx st).sym = none
  · simp only [h1, if_true]
    exact fs_fetch_none ctx st 22 (last_symbol ctx) hpos h1
  · have f1 := fs_fetch_some ctx st hpos h1
    have p1 : (get_symbol ctx st).pos ≤ ctx.syms.length := f1.1
    simp only [h1, if_false]
    split
    · exact fs_trans _ _ _ _ f1 h1
        (fs_display _ _ 6 (get_symbol ctx st).sym p1)
    · have fc := SrcP.cn_fs ctx.syms.length (get_symbol ctx st) p1 h1
      have hcs : (SrcP.check_name (get_symbol ctx st)).2.sym ≠ none := by
        rw [SrcP.cn_sym]; exact h1
      have pc : (SrcP.check_name (get_symbol ctx st)).2.pos ≤
          ctx.syms.length := by rw [SrcP.cn_pos]; exact p1
      have base1 := fs_trans _ _ _ _ f1 h1 fc
      split
      · by_cases h2 : (get_symbol ctx
            (SrcP.check_name (get_symbol ctx st)).2).sym = none
        · simp only [h2, if_true]
          exact fs_trans _ _ _ _ base1 hcs
            (fs_fetch_none ctx _ 22 (last_symbol ctx) pc h2)
        · have f2 := fs_fetch_some ctx _ pc h2
          have p2 := f2.1
          have base2 := fs_trans _ _ _ _ base1 hcs f2
          simp only [h2, if_false]
          split
          · exact fs_trans _ _ _ _ base2 h2 (fs_display _ _ 6 _ p2)
          · split
            · by_cases h3 : (get_symbol ctx (get_symbol ctx
                  (SrcP.check_name (get_symbol ctx st)).2)).sym = none
              · simp only [h3, if_true]
                exact fs_trans _ _ _ _ base2 h2
                  (fs_fetch_none ctx _ 22 (last_symbol ctx) p2 h3)
              · have f3 := fs_fetch_some ctx _ p2 h3
                have p3 := f3.1
                have base3 := fs_trans _ _ _ _ base2 h2 f3
                simp only [h3, if_false]
                split
                · exact base3
                · have base4 := fs_trans _ _ _ _ base3 h3
                    (fs_display ctx.syms.length _ 19
                      (get_symbol ctx (get_symbol ctx
                        (SrcP.check_name (get_symbol ctx st)).2)).sym p3)
                  have hds : (display_error 19
                      (get_symbol ctx (get_symbol ctx
                        (SrcP.check_name (get_symbol ctx st)).2)).sym
                      (get_symbol ctx (get_symbol ctx
                        (SrcP.check_name (get_symbol ctx st)).2))).sym ≠
                      none := by rw [de_sym]; exact h3
                  have pd : (display_error 19
                      (get_symbol ctx (get_symbol ctx
                        (SrcP.check_name (get_symbol ctx st)).2)).sym
                      (get_symbol ctx (get_symbol ctx
                        (SrcP.check_name (get_symbol ctx st)).2))).pos ≤
                      ctx.syms.length := by rw [de_pos]; exact p3
                  exact fs_trans _ _ _ _ base4 hds
                    (resync_fs ctx (stop_comma_semi_name ctx "CONNECT") _
                      pd hds)
            · have base3 := fs_trans _ _ _ _ base2 h2
                (fs_display ctx.syms.length _ perr
                  (get_symbol ctx
                    (SrcP.check_name (get_symbol ctx st)).2).sym p2)
              have hds : (display_error perr
                  (get_symbol ctx (SrcP.check_name (get_symbol ctx st)).2).sym
                  (get_symbol ctx
                    (SrcP.check_name (get_symbol ctx st)).2)).sym ≠ none := by
                rw [de_sym]; exact h2
              have pd : (display_error perr
                  (get_symbol ctx (SrcP.check_name (get_symbol ctx st)).2).sym
                  (get_symbol ctx
                    (SrcP.check_name (get_symbol ctx st)).2)).pos ≤
                  ctx.syms.length := by rw [de_pos]; exact p2
              exact fs_trans _ _ _ _ base3 hds
                (resync_fs ctx stop_comma_semi _ pd hds)
      · exact fs_trans _ _ _ _ base1 hcs
          (resync_fs ctx stop_comma_semi _ pc hcs)

theorem fcheck_dtype_xor_fs (ctx : Ctx) (dev : Item) (dev_list : List MItem)
    (st : PSt) (hpos : st.pos ≤ ctx.syms.length) :
    FS ctx.syms.length st (check_dtype_xor ctx dev dev_list st).2 := by
  unfold check_dtype_xor
  by_cases h1 : (get_symbol ctx st).sym = none
  · simp only [h1, if_true]
    exact fs_fetch_none ctx st 22 (last_symbol ctx) hpos h1
  · have f1 := fs_fetch_some ctx st hpos h1
    have p1 : (get_symbol ctx st).pos ≤ ctx.syms.length := f1.1
    simp only [h1, if_false]
    split
    · exact fs_trans _ _ _ _ f1 h1
        (fs_display _ _ 7 (get_symbol ctx st).sym p1)
    · have fc := SrcP.cn_fs ctx.syms.length (get_symbol ctx st) p1 h1
      have hcs : (SrcP.check_name (get_symbol ctx st)).2.sym ≠ none := by
        rw [SrcP.cn_sym]; exact h1
      have pc : (SrcP.check_name (get_symbol ctx st)).2.pos ≤
          ctx.syms.length := by rw [SrcP.cn_pos]; exact p1
      have base1 := fs_trans _ _ _ _ f1 h1 fc
      split
      · by_cases h2 : (get_symbol ctx
            (SrcP.check_name (get_symbol ctx st)).2).sym = none
        · simp only [h2, if_true]
          exact fs_trans _ _ _ _ base1 hcs
            (fs_fetch_none ctx _ 22 (last_symbol ctx) pc h2)
        · have f2 := fs_fetch_some ctx _ pc h2
          have base2 := fs_trans _ _ _ _ base1 hcs f2
          simp only [h2, if_false]
          split
          · exact base2
          · have base3 := fs_trans _ _ _ _ base2 h2
              (fs_display ctx.syms.length _ 19
                (get_symbol ctx
                  (SrcP.check_name (get_symbol ctx st)).2).sym f2.1)
            have hds : (display_error 19
                (get_symbol ctx (SrcP.check_name (get_symbol ctx st)).2).sym
                (get_symbol ctx
                  (SrcP.check_name (get_symbol ctx st)).2)).sym ≠ none := by
              rw [de_sym]; exact h2
            have pd : (display_error 19
                (get_symbol ctx (SrcP.check_name (get_symbol ctx st)).2).sym
                (get_symbol ctx
                  (SrcP.check_name (get_symbol ctx st)).2)).pos ≤
                ctx.syms.length := by rw [de_pos]; exact f2.1
            exact fs_trans _ _ _ _ base3 hds
              (resync_fs ctx (stop_comma_semi_name ctx "CONNECT") _ pd hds)
      · exact fs_trans _ _ _ _ base1 hcs
          (resync_fs ctx stop_comma_semi _ pc hcs)

theorem fdevice_fs (ctx : Ctx) (dev_list : List MItem) (st : PSt)
    (hpos : st.pos ≤ ctx.syms.length) (hsym : st.sym ≠ none) :
    FS ctx.syms.length st (device ctx dev_list st).2 := by
  unfold device
  split
  · exact fcheck_param_fs ctx _ 10 [] dev_list st hpos
  · split
    · exact fcheck_param_fs ctx _ 11 [] dev_list st hpos
    · split
      · exact fcheck_param_fs ctx _ 23 [] dev_list st hpos
      · split
        · exact fcheck_param_fs ctx _ 12 [] dev_list st hpos
        · split
          · exact fcheck_dtype_xor_fs ctx [] dev_list st hpos
          · have hds : (display_error 8 st.sym st).sym ≠ none := by
              rw [de_sym]; exact hsym
            have pd : (display_error 8 st.sym st).pos ≤ ctx.syms.length := by
              rw [de_pos]; exact hpos
            exact fs_trans _ _ _ _ (fs_display _ _ 8 st.sym hpos) hds
              (resync_fs ctx stop_comma_semi _ pd hds)

/-- Source final/parse.py Parser.connection, closing check: accept the
connection, or report error 13 and resynchronise up to a comma, a
semi-colon or the MONITOR keyword (this variant does not fetch a single
symbol as parse.py does). -/
def connection_close (ctx : Ctx) (con : Item) (con_list : List MItem)
    (st : PSt) : List MItem × PSt :=
  if symType st = "comma" ∨ symType st = "semi-colon" then
    (con_list ++ [some con], st)
  else
    let st1 := display_error 13 st.sym st
    (con_list ++ [none],
     resync ctx (stop_comma_semi_name ctx "MONITOR") st1)

/-- Source final/parse.py Parser.connection, input-pin check: same shape
as the parse.py variant. -/
def connection_input_pin (ctx : Ctx) (con : Item) (con_list : List MItem)
    (st : PSt) : List MItem × PSt :=
  if symType st = "input_pin" then
    let con1 := con ++ [symD st]
    let st1 := get_symbol ctx st
    if st1.sym = none then
      (con_list ++ [none], display_error 22 (last_symbol ctx) st1)
    else connection_close ctx con1 con_list st1
  else
    let st1 := display_error 17 st.sym st
    let st2 := get_symbol ctx st1
    if st2.sym = none then
      (con_list ++ [none], display_error 22 (last_symbol ctx) st2)
    else (con_list ++ [none], st2)

/-- Source final/parse.py Parser.connection, from the arrow check to the
dot in front of the input pin: same shape as the parse.py variant. -/
def connection_tail (ctx : Ctx) (con : Item) (con_list : List MItem)
    (st : PSt) : List MItem × PSt :=
  if symType st = "arrow" then
    let con1 := con ++ [symD st]
    let st1 := get_symbol ctx st
    if st1.sym = none then
      (con_list ++ [none], display_error 22 (last_symbol ctx) st1)
    else
      let r1 := SrcP.check_name st1
      if r1.1 then
        let con2 := con1 ++ [symD r1.2]
        let st2 := get_symbol ctx r1.2
        if st2.sym = none then
          (con_list ++ [none], display_error 22 (last_symbol ctx) st2)
        else if symType st2 = "dot" then
          let con3 := con2 ++ [symD st2]
          let st3 := get_symbol ctx st2
          if st3.sym = none then
            (con_list ++ [none], display_error 22 (last_symbol ctx) st3)
          else connection_input_pin ctx con3 con_list st3
        else
          let st3 := display_error 16 st2.sym st2
          (con_list ++ [none], resync ctx stop_comma_semi st3)
      else
        (con_list ++ [none], resync ctx stop_comma_semi r1.2)
  else
    let st1 := display_error 15 st.sym st
    (con_list ++ [none], resync ctx stop_comma_semi st1)

/-- Source final/parse.py Parser.connection, head: the first device name
and its optional output pin, as in parse.py. -/
def connection (ctx : Ctx) (con_list : List MItem) (st : PSt) :
    List MItem × PSt :=
  let r1 := SrcP.check_name st
  if r1.1 then
    let con1 : Item := [symD r1.2]
    let st1 := get_symbol ctx r1.2
    if st1.sym = none then
      (con_list ++ [none], display_error 22 (last_symbol ctx) st1)
    else if symType st1 = "dot" then
      let con2 := con1 ++ [symD st1]
      let st2 := get_symbol ctx st1
      if st2.sym = none then
        (con_list ++ [none], display_error 22 (last_symbol ctx) st2)
      else if symType st2 = "output_pin" then
        let con3 := con2 ++ [symD st2]
        let st3 := get_symbol ctx st2
        if st3.sym = none then
          (con_list ++ [none], display_error 22 (last_symbol ctx) st3)
        else connection_tail ctx con3 con_list st3
      else
        let st3 := display_error 14 st2.sym st2
        (con_list ++ [none], resync ctx stop_comma_semi st3)
    else connection_tail ctx con1 con_list st1
  else
    (con_list ++ [none], resync ctx stop_comma_semi r1.2)

/-- Source final/parse.py Parser.monitor, closing check: accept the
monitor, or report error 18 and resynchronise up to a comma, a semi-colon
or the END keyword. -/
def monitor_after (ctx : Ctx) (mon : Item) (mon_list : List MItem)
    (st : PSt) : List MItem × PSt :=
  if symType st = "comma" ∨ symType st = "semi-colon" then
    (mon_list ++ [some mon], st)
  else
    let st1 := display_error 18 st.sym st
    (mon_list ++ [none], resync ctx (stop_comma_semi_name ctx "END") st1)

/-- Source final/parse.py Parser.monitor: a device name, an optional dot
and output pin, then the closing check. -/
def monitor (ctx : Ctx) (mon_list : List MItem) (st : PSt) :
    List MItem × PSt :=
  let r1 := SrcP.check_name st
  if r1.1 then
    let mon1 : Item := [symD r1.2]
    let st1 := get_symbol ctx r1.2
    if st1.sym = none then
      (mon_list ++ [none], display_error 22 (last_symbol ctx) st1)
    else if symType st1 = "comma" then
      (mon_list ++ [some mon1], st1)
    else if symType st1 = "dot" then
      let mon2 := mon1 ++ [symD st1]
      let st2 := get_symbol ctx st1
      if st2.sym = none then
        (mon_list ++ [none], display_error 22 (last_symbol ctx) st2)
      else if symType st2 = "output_pin" then
        let mon3 := mon2 ++ [symD st2]
        let st3 := get_symbol ctx st2
        if st3.sym = none then
          (mon_list ++ [none], display_error 22 (last_symbol ctx) st3)
        else monitor_after ctx mon3 mon_list st3
      else
        let st3 := display_error 14 st2.sym st2
        (mon_list ++ [none], resync ctx stop_comma_semi st3)
    else monitor_after ctx mon1 mon_list st1
  else
    (mon_list ++ [none], resync ctx stop_comma_semi r1.2)

theorem fconnection_close_fs (ctx : Ctx) (con : Item)
    (con_list : List MItem) (st : PSt) (hpos : st.pos ≤ ctx.syms.length)
    (hsym : st.sym ≠ none) :
    FS ctx.syms.length st (connection_close ctx con con_list st).2 := by
  rw [connection_close]
  simp only []
  split
  · exact fs_id_some _ st hpos hsym
  · have hds : (display_error 13 st.sym st).sym ≠ none := by
      rw [de_sym]; exact hsym
    have pd : (display_error 13 st.sym st).pos ≤ ctx.syms.length := by
      rw [de_pos]; exact hpos
    exact fs_trans _ _ _ _ (fs_display _ _ 13 st.sym hpos) hds
      (resync_fs ctx (stop_comma_semi_name ctx "MONITOR") _ pd hds)

theorem fconnection_input_pin_fs (ctx : Ctx) (con : Item)
    (con_list : List MItem) (st : PSt) (hpos : st.pos ≤ ctx.syms.length)
    (hsym : st.sym ≠ none) :
    FS ctx.syms.length st (connection_input_pin ctx con con_list st).2 := by
  rw [connection_input_pin]
  simp only []
  split
  · by_cases h1 : (get_symbol ctx st).sym = none
    · simp only [h1, if_true]
      exact fs_fetch_none ctx st 22 (last_symbol ctx) hpos h1
    · have f1 := fs_fetch_some ctx st hpos h1
      simp only [h1, if_false]
      exact fs_trans _ _ _ _ f1 h1
        (fconnection_close_fs ctx _ con_list _ f1.1 h1)
  · have hds : (display_error 17 st.sym st).sym ≠ none := by
      rw [de_sym]; exact hsym
    have pd : (display_error 17 st.sym st).pos ≤ ctx.syms.length := by
      rw [de_pos]; exact hpos
    have base := fs_display ctx.syms.length st 17 st.sym hpos
    by_cases h1 : (get_symbol ctx (display_error 17 st.sym st)).sym = none
    · simp only [h1, if_true]
      exact fs_trans _ _ _ _ base hds
        (fs_fetch_none ctx _ 22 (last_symbol ctx) pd h1)
    · simp only [h1, if_false]
      exact fs_trans _ _ _ _ base hds (fs_fetch_some ctx _ pd h1)

theorem fconnection_tail_fs (ctx : Ctx) (con : Item)
    (con_list : List MItem) (st : PSt) (hpos : st.pos ≤ ctx.syms.length)
    (hsym : st.sym ≠ none) :
    FS ctx.syms.length st (connection_tail ctx con con_list st).2 := by
  rw [connection_tail]
  simp only []
  split
  · by_cases h1 : (get_symbol ctx st).sym = none
    · simp only [h1, if_true]
      exact fs_fetch_none ctx st 22 (last_symbol ctx) hpos h1
    · have f1 := fs_fetch_some ctx st hpos h1
      have fc := SrcP.cn_fs ctx.syms.length (get_symbol ctx st) f1.1 h1
      have hcs : (SrcP.check_name (get_symbol ctx st)).2.sym ≠ none := by
        rw [SrcP.cn_sym]; exact h1
      have pc : (SrcP.check_name (get_symbol ctx st)).2.pos ≤
          ctx.syms.length := by rw [SrcP.cn_pos]; exact f1.1
      have base1 := fs_trans _ _ _ _ f1 h1 fc
      simp only [h1, if_false]
      split
      · by_cases h2 : (get_symbol ctx
            (SrcP.check_name (get_symbol ctx st)).2).sym = none
        · simp only [h2, if_true]
          exact fs_trans _ _ _ _ base1 hcs
            (fs_fetch_none ctx _ 22 (last_symbol ctx) pc h2)
        · have f2 := fs_fetch_some ctx _ pc h2
          have base2 := fs_trans _ _ _ _ base1 hcs f2
          simp only [h2, if_false]
          split
          · by_cases h3 : (get_symbol ctx (get_symbol ctx
                (SrcP.check_name (get_symbol ctx st)).2)).sym = none
            · simp only [h3, if_true]
              exact fs_trans _ _ _ _ base2 h2
                (fs_fetch_none ctx _ 22 (last_symbol ctx) f2.1 h3)
            · have f3 := fs_fetch_some ctx _ f2.1 h3
              have base3 := fs_trans _ _ _ _ base2 h2 f3
              simp only [h3, if_false]
              exact fs_trans _ _ _ _ base3 h3
                (fconnection_input_pin_fs ctx _ con_list _ f3.1 h3)
          · have base3 := fs_trans _ _ _ _ base2 h2
              (fs_display ctx.syms.length _ 16
                (get_symbol ctx
                  (SrcP.check_name (get_symbol ctx st)).2).sym f2.1)
            have hds : (display_error 16
                (get_symbol ctx (SrcP.check_name (get_symbol ctx st)).2).sym
                (get_symbol ctx
                  (SrcP.check_name (get_symbol ctx st)).2)).sym ≠ none := by
              rw [de_sym]; exact h2
            have pd : (display_error 16
                (get_symbol ctx (SrcP.check_name (get_symbol ctx st)).2).sym
                (get_symbol ctx
                  (SrcP.check_name (get_symbol ctx st)).2)).pos ≤
                ctx.syms.length := by rw [de_pos]; exact f2.1
            exact fs_trans _ _ _ _ base3 hds
              (resync_fs ctx stop_comma_semi _ pd hds)
      · exact fs_trans _ _ _ _ base1 hcs
          (resync_fs ctx stop_comma_semi _ pc hcs)
  · have hds : (display_error 15 st.sym st).sym ≠ none := by
      rw [de_sym]; exact hsym
    have pd : (display_error 15 st.sym st).pos ≤ ctx.syms.length := by
      rw [de_pos]; exact hpos
    exact fs_trans _ _ _ _ (fs_display _ _ 15 st.sym hpos) hds
      (resync_fs ctx stop_comma_semi _ pd hds)

theorem fconnection_fs (ctx : Ctx) (con_list : List MItem) (st : PSt)
    (hpos : st.pos ≤ ctx.syms.length) (hsym : st.sym ≠ none) :
    FS ctx.syms.length st (connection ctx con_list st).2 := by
  rw [connection]
  have fc := SrcP.cn_fs ctx.syms.length st hpos hsym
  have hcs : (SrcP.check_name st).2.sym ≠ none := by
    rw [SrcP.cn_sym]; exact hsym
  have pc : (SrcP.check_name st).2.pos ≤ ctx.syms.length := by
    rw [SrcP.cn_pos]; exact hpos
  simp only []
  split
  · by_cases h1 : (get_symbol ctx (SrcP.check_name st).2).sym = none
    · simp only [h1, if_true]
      exact fs_trans _ _ _ _ fc hcs
        (fs_fetch_none ctx _ 22 (last_symbol ctx) pc h1)
    · have f1 := fs_fetch_some ctx _ pc h1
      have base1 := fs_trans _ _ _ _ fc hcs f1
      simp only [h1, if_false]
      split
      · by_cases h2 : (get_symbol ctx (get_symbol ctx
            (SrcP.check_name st).2)).sym = none
        · simp only [h2, if_true]
          exact fs_trans _ _ _ _ base1 h1
            (fs_fetch_none ctx _ 22 (last_symbol ctx) f1.1 h2)
        · have f2 := fs_fetch_some ctx _ f1.1 h2
          have base2 := fs_trans _ _ _ _ base1 h1 f2
          simp only [h2, if_false]
          split
          · by_cases h3 : (get_symbol ctx (get_symbol ctx (get_symbol ctx
                (SrcP.check_name st).2))).sym = none
            · simp only [h3, if_true]
              exact fs_trans _ _ _ _ base2 h2
                (fs_fetch_none ctx _ 22 (last_symbol ctx) f2.1 h3)
            · have f3 := fs_fetch_some ctx _ f2.1 h3
              have base3 := fs_trans _ _ _ _ base2 h2 f3
              simp only [h3, if_false]
              exact fs_trans _ _ _ _ base3 h3
                (fconnection_tail_fs ctx _ con_list _ f3.1 h3)
          · have base3 := fs_trans _ _ _ _ base2 h2
              (fs_display ctx.syms.length _ 14
                (get_symbol ctx (get_symbol ctx (SrcP.check_name st).2)).sym
                f2.1)
            have hds : (display_error 14
                (get_symbol ctx (get_symbol ctx (SrcP.check_name st).2)).sym
                (get_symbol ctx (get_symbol ctx
                  (SrcP.check_name st).2))).sym ≠ none := by
              rw [de_sym]; exact h2
            have pd : (display_error 14
                (get_symbol ctx (get_symbol ctx (SrcP.check_name st).2)).sym
                (get_symbol ctx (get_symbol ctx
                  (SrcP.check_name st).2))).pos ≤ ctx.syms.length := by
              rw [de_pos]; exact f2.1
            exact fs_trans _ _ _ _ base3 hds
              (resync_fs ctx stop_comma_semi _ pd hds)
      · exact fs_trans _ _ _ _ base1 h1
          (fconnection_tail_fs ctx _ con_list _ f1.1 h1)
  · exact fs_trans _ _ _ _ fc hcs (resync_fs ctx stop_comma_semi _ pc hcs)

theorem fmonitor_after_fs (ctx : Ctx) (mon : Item) (mon_list : List MItem)
    (st : PSt) (hpos : st.pos ≤ ctx.syms.length) (hsym : st.sym ≠ none) :
    FS ctx.syms.length st (monitor_after ctx mon mon_list st).2 := by
  unfold monitor_after
  split
  · exact fs_id_some _ st hpos hsym
  · have hds : (display_error 18 st.sym st).sym ≠ none := by
      rw [de_sym]; exact hsym
    have pd : (display_error 18 st.sym st).pos ≤ ctx.syms.length := by
      rw [de_pos]; exact hpos
    exact fs_trans _ _ _ _ (fs_display _ _ 18 st.sym hpos) hds
      (resync_fs ctx (stop_comma_semi_name ctx "END") _ pd hds)

theorem fmonitor_fs (ctx : Ctx) (mon_list : List MItem) (st : PSt)
    (hpos : st.pos ≤ ctx.syms.length) (hsym : st.sym ≠ none) :
    FS ctx.syms.length st (monitor ctx mon_list st).2 := by
  rw [monitor]
  have fc := SrcP.cn_fs ctx.syms.length st hpos hsym
  have hcs : (SrcP.check_name st).2.sym ≠ none := by
    rw [SrcP.cn_sym]; exact hsym
  have pc : (SrcP.check_name st).2.pos ≤ ctx.syms.length := by
    rw [SrcP.cn_pos]; exact hpos
  simp only []
  split
  · by_cases h1 : (get_symbol ctx (SrcP.check_name st).2).sym = none
    · simp only [h1, if_true]
      exact fs_trans _ _ _ _ fc hcs
        (fs_fetch_none ctx _ 22 (last_symbol ctx) pc h1)
    · have f1 := fs_fetch_some ctx _ pc h1
      have base1 := fs_trans _ _ _ _ fc hcs f1
      simp only [h1, if_false]
      split
      · exact base1
      · split
        · by_cases h2 : (get_symbol ctx (get_symbol ctx
              (SrcP.check_name st).2)).sym = none
          · simp only [h2, if_true]
            exact fs_trans _ _ _ _ base1 h1
              (fs_fetch_none ctx _ 22 (last_symbol ctx) f1.1 h2)
          · have f2 := fs_fetch_some ctx _ f1.1 h2
            have base2 := fs_trans _ _ _ _ base1 h1 f2
            simp only [h2, if_false]
            split
            · by_cases h3 : (get_symbol ctx (get_symbol ctx (get_symbol ctx
                  (SrcP.check_name st).2))).sym = none
              · simp only [h3, if_true]
                exact fs_trans _ _ _ _ base2 h2
                  (fs_fetch_none ctx _ 22 (last_symbol ctx) f2.1 h3)
              · have f3 := fs_fetch_some ctx _ f2.1 h3
                have base3 := fs_trans _ _ _ _ base2 h2 f3
                simp only [h3, if_false]
                exact fs_trans _ _ _ _ base3 h3
                  (fmonitor_after_fs ctx _ mon_list _ f3.1 h3)
            · have base3 := fs_trans _ _ _ _ base2 h2
                (fs_display ctx.syms.length _ 14
                  (get_symbol ctx (get_symbol ctx
                    (SrcP.check_name st).2)).sym f2.1)
              have hds : (display_error 14
                  (get_symbol ctx (get_symbol ctx (SrcP.check_name st).2)).sym
                  (get_symbol ctx (get_symbol ctx
                    (SrcP.check_name st).2))).sym ≠ none := by
                rw [de_sym]; exact h2
              have pd : (display_error 14
                  (get_symbol ctx (get_symbol ctx (SrcP.check_name st).2)).sym
                  (get_symbol ctx (get_symbol ctx
                    (SrcP.check_name st).2))).pos ≤ ctx.syms.length := by
                rw [de_pos]; exact f2.1
              exact fs_trans _ _ _ _ base3 hds
                (resync_fs ctx stop_comma_semi _ pd hds)
        · exact fs_trans _ _ _ _ base1 h1
            (fmonitor_after_fs ctx _ mon_list _ f1.1 h1)
  · exact fs_trans _ _ _ _ fc hcs (resync_fs ctx stop_comma_semi _ pc hcs)

/-- Source final/parse.py Parser.device_list, tail after the while loop
(lines 547-567): as in parse.py, except that a bare CONNECT keyword
returns None silently and the separator error 19 is located at the symbol
in front of the current one. -/
def device_list_after (ctx : Ctx) (dev_list : List MItem) (st : PSt) :
    Option (List MItem) × PSt :=
  if symType st = "semi-colon" then
    match (get_symbol ctx st).sym with
    | none => (none, display_error 22 (last_symbol ctx) (get_symbol ctx st))
    | some _ =>
      if dev_list.contains none then (none, get_symbol ctx st)
      else (some dev_list, get_symbol ctx st)
  else if symName ctx st = some "CONNECT" then (none, st)
  else
    let st1 := display_error 19 (py_prev_symbol ctx st) st
    (none, resync ctx (stop_name_is ctx "CONNECT") st1)

/-- Source final/parse.py Parser.device_list, the while loop (lines
537-546). -/
def device_list_loop (ctx : Ctx) (dev_list : List MItem) (st : PSt) :
    Option (List MItem) × PSt :=
  if symType st = "comma" then
    match h1 : (get_symbol ctx st).sym with
    | none => (none, display_error 22 (last_symbol ctx) (get_symbol ctx st))
    | some _ =>
      if symName ctx (get_symbol ctx st) = some "CONNECT" then
        device_list_after ctx dev_list (get_symbol ctx st)
      else
        if h2 : (device ctx dev_list (get_symbol ctx st)).2.sym = none then
          (none, (device ctx dev_list (get_symbol ctx st)).2)
        else
          device_list_loop ctx (device ctx dev_list (get_symbol ctx st)).1
            (device ctx dev_list (get_symbol ctx st)).2
  else device_list_after ctx dev_list st
termination_by ctx.syms.length - st.pos
decreasing_by
  have hs1 : (get_symbol ctx st).sym ≠ none := by simp [h1]
  have hg := gs_some ctx st hs1
  have hd := fdevice_fs ctx dev_list (get_symbol ctx st) (by omega) hs1
  rcases hd.2.2 with ⟨hn, _, _⟩ | ⟨_, hp, _⟩
  · exact absurd hn h2
  · omega

/-- Source final/parse.py Parser.device_list (lines 510-567): a bare
semi-colon is still error 5. -/
def device_list (ctx : Ctx) (st : PSt) : Option (List MItem) × PSt :=
  match (get_symbol ctx st).sym with
  | none => (none, display_error 22 (last_symbol ctx) (get_symbol ctx st))
  | some _ =>
    if symType (get_symbol ctx st) = "semi-colon" then
      let st1 := display_error 5 (get_symbol ctx st).sym (get_symbol ctx st)
      match (get_symbol ctx st1).sym with
      | none => (none, display_error 22 (last_symbol ctx) (get_symbol ctx st1))
      | some _ => (none, get_symbol ctx st1)
    else
      let r := device ctx [] (get_symbol ctx st)
      if r.2.sym = none then (none, r.2)
      else device_list_loop ctx r.1 r.2

/-- Source final/parse.py Parser.connection_list, tail after the while
loop (lines 741-762): a bare MONITOR keyword returns None silently, and
error 13 is located at the symbol in front of the current one. -/
def connection_list_after (ctx : Ctx) (con_list : List MItem) (st : PSt) :
    Option (List MItem) × PSt :=
  if symType st = "semi-colon" then
    match (get_symbol ctx st).sym with
    | none => (none, display_error 22 (last_symbol ctx) (get_symbol ctx st))
    | some _ =>
      if con_list.contains none then (none, get_symbol ctx st)
      else (some con_list, get_symbol ctx st)
  else if symName ctx st = some "MONITOR" then (none, st)
  else
    let st1 := display_error 13 (py_prev_symbol ctx st) st
    (none, resync ctx (stop_name_is ctx "MONITOR") st1)

/-- Source final/parse.py Parser.connection_list, the while loop (lines
731-740). -/
def connection_list_loop (ctx : Ctx) (con_list : List MItem) (st : PSt) :
    Option (List MItem) × PSt :=
  if symType st = "comma" then
    match h1 : (get_symbol ctx st).sym with
    | none => (none, display_error 22 (last_symbol ctx) (get_symbol ctx st))
    | some _ =>
      if symName ctx (get_symbol ctx st) = some "MONITOR" then
        connection_list_after ctx con_list (get_symbol ctx st)
      else
        if h2 : (connection ctx con_list (get_symbol ctx st)).2.sym = none then
          (none, (connection ctx con_list (get_symbol ctx st)).2)
        else
          connection_list_loop ctx
            (connection ctx con_list (get_symbol ctx st)).1
            (connection ctx con_list (get_symbol ctx st)).2
  else connection_list_after ctx con_list st
termination_by ctx.syms.length - st.pos
decreasing_by
  have hs1 : (get_symbol ctx st).sym ≠ none := by simp [h1]
  have hg := gs_some ctx st hs1
  have hd := fconnection_fs ctx con_list (get_symbol ctx st) (by omega) hs1
  rcases hd.2.2 with ⟨hn, _, _⟩ | ⟨_, hp, _⟩
  · exact absurd hn h2
  · omega

/-- Source final/parse.py Parser.connection_list (lines 705-762): an
immediate semi-colon is an empty, legal connection list. -/
def connection_list (ctx : Ctx) (st : PSt) : Option (List MItem) × PSt :=
  match (get_symbol ctx st).sym with
  | none => (none, display_error 22 (last_symbol ctx) (get_symbol ctx st))
  | some _ =>
    if symType (get_symbol ctx st) = "semi-colon" then
      match (get_symbol ctx (get_symbol ctx st)).sym with
      | none =>
        (none, display_error 22 (last_symbol ctx)
          (get_symbol ctx (get_symbol ctx st)))
      | some _ => (some [], get_symbol ctx (get_symbol ctx st))
    else
      let r := connection ctx [] (get_symbol ctx st)
      if r.2.sym = none then (none, r.2)
      else connection_list_loop ctx r.1 r.2

/-- Source final/parse.py Parser.monitor_list, tail after the while loop
(lines 879-899): a bare END keyword returns None silently, and error 18
is located at the symbol in front of the current one. -/
def monitor_list_after (ctx : Ctx) (mon_list : List MItem) (st : PSt) :
    Option (List MItem) × PSt :=
  if symType st = "semi-colon" then
    match (get_symbol ctx st).sym with
    | none => (none, display_error 22 (last_symbol ctx) (get_symbol ctx st))
    | some _ =>
      if mon_list.contains none then (none, get_symbol ctx st)
      else (some mon_list, get_symbol ctx st)
  else if symName ctx st = some "END" then (none, st)
  else
    let st1 := display_error 18 (py_prev_symbol ctx st) st
    (none, resync ctx (stop_name_is ctx "END") st1)

/-- Source final/parse.py Parser.monitor_list, the while loop (lines
869-878). -/
def monitor_list_loop (ctx : Ctx) (mon_list : List MItem) (st : PSt) :
    Option (List MItem) × PSt :=
  if symType st = "comma" then
    match h1 : (get_symbol ctx st).sym with
    | none => (none, display_error 22 (last_symbol ctx) (get_symbol ctx st))
    | some _ =>
      if symName ctx (get_symbol ctx st) = some "END" then
        monitor_list_after ctx mon_list (get_symbol ctx st)
      else
        if h2 : (monitor ctx mon_list (get_symbol ctx st)).2.sym = none then
          (none, (monitor ctx mon_list (get_symbol ctx st)).2)
        else
          monitor_list_loop ctx
            (monitor ctx mon_list (get_symbol ctx st)).1
            (monitor ctx mon_list (get_symbol ctx st)).2
  else monitor_list_after ctx mon_list st
termination_by ctx.syms.length - st.pos
decreasing_by
  have hs1 : (get_symbol ctx st).sym ≠ none := by simp [h1]
  have hg := gs_some ctx st hs1
  have hd := fmonitor_fs ctx mon_list (get_symbol ctx st) (by omega) hs1
  rcases hd.2.2 with ⟨hn, _, _⟩ | ⟨_, hp, _⟩
  · exact absurd hn h2
  · omega

/-- Source final/parse.py Parser.monitor_list (lines 843-899): an
immediate semi-colon is an empty, legal monitor list. -/
def monitor_list (ctx : Ctx) (st : PSt) : Option (List MItem) × PSt :=
  match (get_symbol ctx st).sym with
  | none => (none, display_error 22 (last_symbol ctx) (get_symbol ctx st))
  | some _ =>
    if symType (get_symbol ctx st) = "semi-colon" then
      match (get_symbol ctx (get_symbol ctx st)).sym with
      | none =>
        (none, display_error 22 (last_symbol ctx)
          (get_symbol ctx (get_symbol ctx st)))
      | some _ => (some [], get_symbol ctx (get_symbol ctx st))
    else
      let r := monitor ctx [] (get_symbol ctx st)
      if r.2.sym = none then (none, r.2)
      else monitor_list_loop ctx r.1 r.2

theorem fdevice_list_after_fs (ctx : Ctx) (dev_list : List MItem) (st : PSt)
    (hpos : st.pos ≤ ctx.syms.length) (hsym : st.sym ≠ none) :
    FS ctx.syms.length st (device_list_after ctx dev_list st).2 := by
  unfold device_list_after
  split
  · split
    · rename_i hn
      exact fs_fetch_none ctx st 22 (last_symbol ctx) hpos hn
    · rename_i z hz
      have hs : (get_symbol ctx st).sym ≠ none := by simp [hz]
      split
      · exact fs_fetch_some ctx st hpos hs
      · exact fs_fetch_some ctx st hpos hs
  · split
    · exact fs_id_some _ st hpos hsym
    · have hds : (display_error 19 (py_prev_symbol ctx st) st).sym ≠ none := by
        rw [de_sym]; exact hsym
      have pd : (display_error 19 (py_prev_symbol ctx st) st).pos ≤
          ctx.syms.length := by rw [de_pos]; exact hpos
      exact fs_trans _ _ _ _ (fs_display _ _ 19 (py_prev_symbol ctx st) hpos)
        hds (resync_fs ctx (stop_name_is ctx "CONNECT") _ pd hds)

theorem fdevice_list_loop_fs (ctx : Ctx) (dev_list : List MItem) (st : PSt)
    (hpos : st.pos ≤ ctx.syms.length) (hsym : st.sym ≠ none) :
    FS ctx.syms.length st (device_list_loop ctx dev_list st).2 := by
  induction dev_list, st using device_list_loop.induct ctx with
  | case1 dl st hc h1 =>
    rw [device_list_loop, if_pos hc]
    split
    · exact fs_fetch_none ctx st 22 (last_symbol ctx) hpos h1
    · simp_all
  | case2 dl st hc z h1 hkw =>
    rw [device_list_loop, if_pos hc]
    split
    · simp_all
    · rw [if_pos hkw]
      have hs : (get_symbol ctx st).sym ≠ none := by simp [h1]
      exact fs_trans _ _ _ _ (fs_fetch_some ctx st hpos hs) hs
        (fdevice_list_after_fs ctx dl _ (fs_fetch_some ctx st hpos hs).1 hs)
  | case3 dl st hc z h1 hkw h2 =>
    rw [device_list_loop, if_pos hc]
    split
    · simp_all
    · rw [if_neg hkw, dif_pos h2]
      have hs : (get_symbol ctx st).sym ≠ none := by simp [h1]
      have hd := fdevice_fs ctx dl (get_symbol ctx st)
        (fs_fetch_some ctx st hpos hs).1 hs
      exact fs_trans _ _ _ _ (fs_fetch_some ctx st hpos hs) hs hd
  | case4 dl st hc z h1 hkw h2 ih =>
    rw [device_list_loop, if_pos hc]
    split
    · simp_all
    · rw [if_neg hkw, dif_neg h2]
      have hs : (get_symbol ctx st).sym ≠ none := by simp [h1]
      have hd := fdevice_fs ctx dl (get_symbol ctx st)
        (fs_fetch_some ctx st hpos hs).1 hs
      exact fs_trans _ _ _ _
        (fs_trans _ _ _ _ (fs_fetch_some ctx st hpos hs) hs hd) h2
        (ih hd.1 h2)
  | case5 dl st hc =>
    rw [device_list_loop, if_neg hc]
    exact fdevice_list_after_fs ctx dl st hpos hsym

theorem fdevice_list_fs (ctx : Ctx) (st : PSt)
    (hpos : st.pos ≤ ctx.syms.length) :
    FS ctx.syms.length st (device_list ctx st).2 := by
  unfold device_list
  split
  · rename_i hn
    exact fs_fetch_none ctx st 22 (last_symbol ctx) hpos hn
  · rename_i z hz
    have hs : (get_symbol ctx st).sym ≠ none := by simp [hz]
    have f1 := fs_fetch_some ctx st hpos hs
    split
    · have pd : (display_error 5 (get_symbol ctx st).sym
          (get_symbol ctx st)).pos ≤ ctx.syms.length := by
        rw [de_pos]; exact f1.1
      have hds : (display_error 5 (get_symbol ctx st).sym
          (get_symbol ctx st)).sym ≠ none := by rw [de_sym]; exact hs
      have base := fs_trans _ _ _ _ f1 hs
        (fs_display _ _ 5 (get_symbol ctx st).sym f1.1)
      simp only []
      split
      · rename_i hn2
        exact fs_trans _ _ _ _ base hds
          (fs_fetch_none ctx _ 22 (last_symbol ctx) pd hn2)
      · rename_i z2 hz2
        exact fs_trans _ _ _ _ base hds
          (fs_fetch_some ctx _ pd (by simp [hz2]))
    · have hd := fdevice_fs ctx [] (get_symbol ctx st) f1.1 hs
      have base := fs_trans _ _ _ _ f1 hs hd
      simp only []
      split
      · exact base
      · rename_i hns
        exact fs_trans _ _ _ _ base hns
          (fdevice_list_loop_fs ctx _ _ hd.1 hns)

theorem fconnection_list_after_fs (ctx : Ctx) (con_list : List MItem)
    (st : PSt) (hpos : st.pos ≤ ctx.syms.length) (hsym : st.sym ≠ none) :
    FS ctx.syms.length st (connection_list_after ctx con_list st).2 := by
  unfold connection_list_after
  split
  · split
    · rename_i hn
      exact fs_fetch_none ctx st 22 (last_symbol ctx) hpos hn
    · rename_i z hz
      have hs : (get_symbol ctx st).sym ≠ none := by simp [hz]
      split
      · exact fs_fetch_some ctx st hpos hs
      · exact fs_fetch_some ctx st hpos hs
  · split
    · exact fs_id_some _ st hpos hsym
    · have hds : (display_error 13 (py_prev_symbol ctx st) st).sym ≠ none := by
        rw [de_sym]; exact hsym
      have pd : (display_error 13 (py_prev_symbol ctx st) st).pos ≤
          ctx.syms.length := by rw [de_pos]; exact hpos
      exact fs_trans _ _ _ _ (fs_display _ _ 13 (py_prev_symbol ctx st) hpos)
        hds (resync_fs ctx (stop_name_is ctx "MONITOR") _ pd hds)

theorem fconnection_list_loop_fs (ctx : Ctx) (con_list : List MItem)
    (st : PSt) (hpos : st.pos ≤ ctx.syms.length) (hsym : st.sym ≠ none) :
    FS ctx.syms.length st (connection_list_loop ctx con_list st).2 := by
  induction con_list, st using connection_list_loop.induct ctx with
  | case1 cl st hc h1 =>
    rw [connection_list_loop, if_pos hc]
    split
    · exact fs_fetch_none ctx st 22 (last_symbol ctx) hpos h1
    · simp_all
  | case2 cl st hc z h1 hkw =>
    rw [connection_list_loop, if_pos hc]
    split
    · simp_all
    · rw [if_pos hkw]
      have hs : (get_symbol ctx st).sym ≠ none := by simp [h1]
      exact fs_trans _ _ _ _ (fs_fetch_some ctx st hpos hs) hs
        (fconnection_list_after_fs ctx cl _
          (fs_fetch_some ctx st hpos hs).1 hs)
  | case3 cl st hc z h1 hkw h2 =>
    rw [connection_list_loop, if_pos hc]
    split
    · simp_all
    · rw [if_neg hkw, dif_pos h2]
      have hs : (get_symbol ctx st).sym ≠ none := by simp [h1]
      have hd := fconnection_fs ctx cl (get_symbol ctx st)
        (fs_fetch_some ctx st hpos hs).1 hs
      exact fs_trans _ _ _ _ (fs_fetch_some ctx st hpos hs) hs hd
  | case4 cl st hc z h1 hkw h2 ih =>
    rw [connection_list_loop, if_pos hc]
    split
    · simp_all
    · rw [if_neg hkw, dif_neg h2]
      have hs : (get_symbol ctx st).sym ≠ none := by simp [h1]
      have hd := fconnection_fs ctx cl (get_symbol ctx st)
        (fs_fetch_some ctx st hpos hs).1 hs
      exact fs_trans _ _ _ _
        (fs_trans _ _ _ _ (fs_fetch_some ctx st hpos hs) hs hd) h2
        (ih hd.1 h2)
  | case5 cl st hc =>
    rw [connection_list_loop, if_neg hc]
    exact fconnection_list_after_fs ctx cl st hpos hsym

theorem fconnection_list_fs (ctx : Ctx) (st : PSt)
    (hpos : st.pos ≤ ctx.syms.length) :
    FS ctx.syms.length st (connection_list ctx st).2 := by
  unfold connection_list
  split
  · rename_i hn
    exact fs_fetch_none ctx st 22 (last_symbol ctx) hpos hn
  · rename_i z hz
    have hs : (get_symbol ctx st).sym ≠ none := by simp [hz]
    have f1 := fs_fetch_some ctx st hpos hs
    split
    · split
      · rename_i hn2
        exact fs_trans _ _ _ _ f1 hs
          (fs_fetch_none ctx _ 22 (last_symbol ctx) f1.1 hn2)
      · rename_i z2 hz2
        exact fs_trans _ _ _ _ f1 hs
          (fs_fetch_some ctx _ f1.1 (by simp [hz2]))
    · have hd := fconnection_fs ctx [] (get_symbol ctx st) f1.1 hs
      have base := fs_trans _ _ _ _ f1 hs hd
      simp only []
      split
      · exact base
      · rename_i hns
        exact fs_trans _ _ _ _ base hns
          (fconnection_list_loop_fs ctx _ _ hd.1 hns)

theorem fmonitor_list_after_fs (ctx : Ctx) (mon_list : List MItem)
    (st : PSt) (hpos : st.pos ≤ ctx.syms.length) (hsym : st.sym ≠ none) :
    FS ctx.syms.length st (monitor_list_after ctx mon_list st).2 := by
  unfold monitor_list_after
  split
  · split
    · rename_i hn
      exact fs_fetch_none ctx st 22 (last_symbol ctx) hpos hn
    · rename_i z hz
      have hs : (get_symbol ctx st).sym ≠ none := by simp [hz]
      split
      · exact fs_fetch_some ctx st hpos hs
      · exact fs_fetch_some ctx st hpos hs
  · split
    · exact fs_id_some _ st hpos hsym
    · have hds : (display_error 18 (py_prev_symbol ctx st) st).sym ≠ none := by
        rw [de_sym]; exact hsym
      have pd : (display_error 18 (py_prev_symbol ctx st) st).pos ≤
          ctx.syms.length := by rw [de_pos]; exact hpos
      exact fs_trans _ _ _ _ (fs_display _ _ 18 (py_prev_symbol ctx st) hpos)
        hds (resync_fs ctx (stop_name_is ctx "END") _ pd hds)

theorem fmonitor_list_loop_fs (ctx : Ctx) (mon_list : List MItem)
    (st : PSt) (hpos : st.pos ≤ ctx.syms.length) (hsym : st.sym ≠ none) :
    FS ctx.syms.length st (monitor_list_loop ctx mon_list st).2 := by
  induction mon_list, st using monitor_list_loop.induct ctx with
  | case1 ml st hc h1 =>
    rw [monitor_list_loop, if_pos hc]
    split
    · exact fs_fetch_none ctx st 22 (last_symbol ctx) hpos h1
    · simp_all
  | case2 ml st hc z h1 hkw =>
    rw [monitor_list_loop, if_pos hc]
    split
    · simp_all
    · rw [if_pos hkw]
      have hs : (get_symbol ctx st).sym ≠ none := by simp [h1]
      exact fs_trans _ _ _ _ (fs_fetch_some ctx st hpos hs) hs
        (fmonitor_list_after_fs ctx ml _ (fs_fetch_some ctx st hpos hs).1 hs)
  | case3 ml st hc z h1 hkw h2 =>
    rw [monitor_list_loop, if_pos hc]
    split
    · simp_all
    · rw [if_neg hkw, dif_pos h2]
      have hs : (get_symbol ctx st).sym ≠ none := by simp [h1]
      have hd := fmonitor_fs ctx ml (get_symbol ctx st)
        (fs_fetch_some ctx st hpos hs).1 hs
      exact fs_trans _ _ _ _ (fs_fetch_some ctx st hpos hs) hs hd
  | case4 ml st hc z h1 hkw h2 ih =>
    rw [monitor_list_loop, if_pos hc]
    split
    · simp_all
    · rw [if_neg hkw, dif_neg h2]
      have hs : (get_symbol ctx st).sym ≠ none := by simp [h1]
      have hd := fmonitor_fs ctx ml (get_symbol ctx st)
        (fs_fetch_some ctx st hpos hs).1 hs
      exact fs_trans _ _ _ _
        (fs_trans _ _ _ _ (fs_fetch_some ctx st hpos hs) hs hd) h2
        (ih hd.1 h2)
  | case5 ml st hc =>
    rw [monitor_list_loop, if_neg hc]
    exact fmonitor_list_after_fs ctx ml st hpos hsym

theorem fmonitor_list_fs (ctx : Ctx) (st : PSt)
    (hpos : st.pos ≤ ctx.syms.length) :
    FS ctx.syms.length st (monitor_list ctx st).2 := by
  unfold monitor_list
  split
  · rename_i hn
    exact fs_fetch_none ctx st 22 (last_symbol ctx) hpos hn
  · rename_i z hz
    have hs : (get_symbol ctx st).sym ≠ none := by simp [hz]
    have f1 := fs_fetch_some ctx st hpos hs
    split
    · split
      · rename_i hn2
        exact fs_trans _ _ _ _ f1 hs
          (fs_fetch_none ctx _ 22 (last_symbol ctx) f1.1 hn2)
      · rename_i z2 hz2
        exact fs_trans _ _ _ _ f1 hs
          (fs_fetch_some ctx _ f1.1 (by simp [hz2]))
    · have hd := fmonitor_fs ctx [] (get_symbol ctx st) f1.1 hs
      have base := fs_trans _ _ _ _ f1 hs hd
      simp only []
      split
      · exact base
      · rename_i hns
        exact fs_trans _ _ _ _ base hns
          (fmonitor_list_loop_fs ctx _ _ hd.1 hns)

/-- Source final/parse.py Parser.network_dict (lines 933-1002): fetch the
first symbol (a premature EOF here is reported at location None), run the
DEVICES, CONNECT and MONITOR sections, check END, report error 21 both
when the file ends before the final symbol and when that symbol is not a
semi-colon, and return the dictionary exactly when the error count is
zero. -/
def network_dict (ctx : Ctx) (st : PSt) : Option NetDict × PSt :=
  match (get_symbol ctx st).sym with
  | none => (none, display_error 22 none (get_symbol ctx st))
  | some _ =>
    match network_section ctx "DEVICES" 1 device_list (get_symbol ctx st) with
    | Except.error stE => (none, stE)
    | Except.ok (dl, st1) =>
      match network_section ctx "CONNECT" 2 connection_list st1 with
      | Except.error stE => (none, stE)
      | Except.ok (cl, st2) =>
        match network_section ctx "MONITOR" 3 monitor_list st2 with
        | Except.error stE => (none, stE)
        | Except.ok (ml, st3) =>
          let stA := if symName ctx st3 = some "END" then st3
                     else display_error 4 st3.sym st3
          match (get_symbol ctx stA).sym with
          | none =>
            (none, display_error 21 (last_symbol ctx) (get_symbol ctx stA))
          | some _ =>
            let stB := if symType (get_symbol ctx stA) = "semi-colon" then
                get_symbol ctx stA
              else display_error 21 (get_symbol ctx stA).sym
                (get_symbol ctx stA)
            if stB.errors = 0 then (some ⟨dl, cl, ml⟩, stB)
            else (none, stB)

theorem fnetwork_dict_fs (ctx : Ctx) (st : PSt)
    (hpos : st.pos ≤ ctx.syms.length) :
    FS ctx.syms.length st (network_dict ctx st).2 := by
  unfold network_dict
  split
  · rename_i hfn
    exact fs_fetch_none ctx st 22 none hpos hfn
  · rename_i z hz
    have hs : (get_symbol ctx st).sym ≠ none := by simp [hz]
    have f1 := fs_fetch_some ctx st hpos hs
    have hsec1 := network_section_fs ctx "DEVICES" 1 device_list
      (fun s h => fdevice_list_fs ctx s h) (get_symbol ctx st) f1.1 hs
    split
    · rename_i stE hE
      rw [hE] at hsec1
      exact fs_trans _ _ _ _ f1 hs hsec1
    · rename_i dl st1 hE
      rw [hE] at hsec1
      have base1 := fs_trans _ _ _ _ f1 hs hsec1.1
      have hsec2 := network_section_fs ctx "CONNECT" 2 connection_list
        (fun s h => fconnection_list_fs ctx s h) st1 base1.1 hsec1.2
      split
      · rename_i stE hE2
        rw [hE2] at hsec2
        exact fs_trans _ _ _ _ base1 hsec1.2 hsec2
      · rename_i cl st2 hE2
        rw [hE2] at hsec2
        have base2 := fs_trans _ _ _ _ base1 hsec1.2 hsec2.1
        have hsec3 := network_section_fs ctx "MONITOR" 3 monitor_list
          (fun s h => fmonitor_list_fs ctx s h) st2 base2.1 hsec2.2
        split
        · rename_i stE hE3
          rw [hE3] at hsec3
          exact fs_trans _ _ _ _ base2 hsec2.2 hsec3
        · rename_i ml st3 hE3
          rw [hE3] at hsec3
          have base3 := fs_trans _ _ _ _ base2 hsec2.2 hsec3.1
          have hs3 := hsec3.2
          simp only []
          generalize hGA : (if symName ctx st3 = some "END" then st3
              else display_error 4 st3.sym st3) = A
          have hA : FS ctx.syms.length st A := by
            rw [← hGA]
            split
            · exact base3
            · exact fs_trans _ _ _ _ base3 hs3
                (fs_display _ _ 4 st3.sym base3.1)
          have hAs : A.sym ≠ none := by
            rw [← hGA]
            split
            · exact hs3
            · rw [de_sym]; exact hs3
          have hAp : A.pos ≤ ctx.syms.length := by
            rw [← hGA]
            split
            · exact base3.1
            · rw [de_pos]; exact base3.1
          split
          · rename_i hfn2
            exact fs_trans _ _ _ _ hA hAs
              (fs_fetch_none ctx A 21 (last_symbol ctx) hAp hfn2)
          · rename_i z2 hz2
            have hs2 : (get_symbol ctx A).sym ≠ none := by simp [hz2]
            have f2 := fs_fetch_some ctx A hAp hs2
            have base4 := fs_trans _ _ _ _ hA hAs f2
            generalize hGB : (if symType (get_symbol ctx A) = "semi-colon"
                then get_symbol ctx A
              else display_error 21 (get_symbol ctx A).sym
                (get_symbol ctx A)) = B
            have hB : FS ctx.syms.length st B := by
              rw [← hGB]
              split
              · exact base4
              · exact fs_trans _ _ _ _ base4 hs2
                  (fs_display _ _ 21 _ f2.1)
            split
            · exact hB
            · exact hB

/-- One call made to a collaborator during the building phase of
final/parse.py (here the device property is passed as the raw name
string, matching the maintenance note in build_devices). -/
inductive BCall where
  | makeDevice (name typ : Nat) (prop : Option String)
  | makeConnection (dev1 : Nat) (port1 : Option Nat) (dev2 : Nat)
      (port2 : Option Nat)
  | checkNetwork
  | makeMonitor (dev : Nat) (port : Option Nat)
deriving DecidableEq

/-- The collaborators the building phase of final/parse.py drives: their
minted result codes and, for each creation entry point, the code it
returns as a function of the call history so far and of the arguments. -/
structure BuildEnv where
  codes : CollabCodes
  device_code : List BCall → Nat → Nat → Option String → Nat
  connection_code : List BCall → Nat → Option Nat → Nat → Option Nat → Nat
  monitor_code : List BCall → Nat → Option Nat → Nat
  network_ok : List BCall → Bool

/-- Source final/parse.py Parser.build_devices (lines 1004-1030): as in
parse.py except that the optional device property is forwarded as the
name string itself. -/
def build_devices (ctx : Ctx) (env : BuildEnv) :
    List MItem → List BCall → Bool × List BCall
  | [], tr => (true, tr)
  | item :: rest, tr =>
    let ds := item.getD []
    let device_type := (ds[0]?.getD junk_symbol).id
    let device_name := (ds[1]?.getD junk_symbol).id
    let device_property : Option String :=
      if ds.length = 3 then
        get_name_string ctx.names (ds[2]?.getD junk_symbol).id
      else none
    let code := env.device_code tr device_name device_type device_property
    let tr1 := tr ++ [BCall.makeDevice device_name device_type device_property]
    if handle_error env.codes code ds then (false, tr1)
    else build_devices ctx env rest tr1

/-- Source final/parse.py Parser.build_connections (lines 1032-1069),
identical in shape to the one of parse.py. -/
def build_connections (env : BuildEnv) :
    List MItem → List BCall → Bool × List BCall
  | [], tr =>
    let ok := env.network_ok tr
    let tr1 := tr ++ [BCall.checkNetwork]
    if !ok then (false, tr1) else (true, tr1)
  | item :: rest, tr =>
    let cs := item.getD []
    let first_device := (cs[0]?.getD junk_symbol).id
    let r :=
      if (cs[1]?.getD junk_symbol).type = "dot" then
        (some (cs[2]?.getD junk_symbol).id, (cs[4]?.getD junk_symbol).id,
         if (cs[5]?.getD junk_symbol).type = "dot" then
           some (cs[6]?.getD junk_symbol).id
         else none)
      else
        (none, (cs[2]?.getD junk_symbol).id,
         if (cs[3]?.getD junk_symbol).type = "dot" then
           some (cs[4]?.getD junk_symbol).id
         else none)
    let code := env.connection_code tr first_device r.1 r.2.1 r.2.2
    let tr1 := tr ++ [BCall.makeConnection first_device r.1 r.2.1 r.2.2]
    if handle_error env.codes code cs then (false, tr1)
    else build_connections env rest tr1

/-- Source final/parse.py Parser.build_monitors (lines 1071-1096). -/
def build_monitors (env : BuildEnv) :
    List MItem → List BCall → Bool × List BCall
  | [], tr => (true, tr)
  | item :: rest, tr =>
    let ms := item.getD []
    let device_name := (ms[0]?.getD junk_symbol).id
    let port_name : Option Nat :=
      if ms.length = 3 then some (ms[2]?.getD junk_symbol).id else none
    let code := env.monitor_code tr device_name port_name
    let tr1 := tr ++ [BCall.makeMonitor device_name port_name]
    if handle_error env.codes code ms then (false, tr1)
    else build_monitors env rest tr1

/-- Source final/parse.py Parser.build_network (lines 1098-1117): the
CONNECT phase runs only if the DEVICES phase returned True, and the
MONITOR phase only if the CONNECT phase returned True. -/
def build_network (ctx : Ctx) (env : BuildEnv) (d : NetDict)
    (tr : List BCall) : Bool × List BCall :=
  let rd := build_devices ctx env (d.devices.getD []) tr
  if !rd.1 then (false, rd.2)
  else
    let rc := build_connections env (d.connect.getD []) rd.2
    if !rc.1 then (false, rc.2)
    else
      let rm := build_monitors env (d.monitor.getD []) rc.2
      if !rm.1 then (false, rm.2)
      else (true, rm.2)

/-- Parser state as Parser.__init__ of final/parse.py leaves it: the
cursor is before the first symbol and self.symbol is None, whatever the
cache holds (final_parser_init_symbol). -/
def init_state : PSt :=
  { pos := 0, sym := none, errors := 0, log := [], fetches := 0 }

/-- Source final/parse.py Parser.parse_network (lines 1119-1141): run the
syntax phase; if the error count is zero and the returned value is truthy,
run the building phase; otherwise call the scanner once with the single
summary message counting the syntax errors (modelled as one
LogEntry.summary entry) and return False without any collaborator
calls. -/
def parse_network (ctx : Ctx) (env : BuildEnv) (st : PSt) :
    Bool × PSt × List BCall :=
  let r := network_dict ctx st
  match r.1 with
  | some d =>
    if r.2.errors = 0 ∧ dict_truthy d then
      let b := build_network ctx env d []
      (b.1, r.2, b.2)
    else
      (false, { r.2 with log := r.2.log ++ [LogEntry.summary r.2.errors] }, [])
  | none =>
    (false, { r.2 with log := r.2.log ++ [LogEntry.summary r.2.errors] }, [])

end FinalP

/- ===== Claim C4 : symbol classification ===== -/

theorem spec_digit_isDigit : spec_digit = Char.isDigit := by
  funext c
  simp [spec_digit, Char.isDigit, Char.le_def]

theorem spec_letter_isAlpha : spec_letter = Char.isAlpha := by
  funext c
  simp [spec_letter, Char.isAlpha, Char.isUpper, Char.isLower, Char.le_def]

theorem alnum_underscore_char (c : Char) :
    (c.isAlphanum || c == '_') = (spec_letter c || spec_digit c || c == '_') := by
  simp [Char.isAlphanum, Char.isAlpha, Char.isDigit, Char.isUpper,
    Char.isLower, spec_letter, spec_digit, Char.le_def, Bool.or_assoc]

theorem is_number_spec (s : String) : is_number s = spec_all_digits s := by
  unfold is_number spec_all_digits
  rw [spec_digit_isDigit]

theorem is_string_spec (s : String) : is_string s = spec_alnum_underscore s := by
  simp only [is_string, spec_alnum_underscore, alnum_underscore_char]

theorem is_name_spec (s : String) (h : is_string s = true) :
    is_name s = spec_name_shape s := by
  unfold is_name spec_name_shape
  cases hd : s.data with
  | nil => rfl
  | cons c cs =>
    rw [h, ← spec_letter_isAlpha]
    simp [Bool.and_assoc]

theorem input_pins_spec : input_pins = spec_input_pins := by decide

theorem keywords_amended_eq : keywords = spec_keywords_amended := rfl

/-- C4 (amended statement): on every non-empty text, determine_type follows
the spec's stated classification precedence with the keyword set amended to
the twelve keywords the code actually recognises (RC and SIGGEN removed).
The counterexample theorem shows the claim as stated, with RC and SIGGEN
in the keyword set, is false. -/
theorem C4_classification_amended (s : String) (hs : s ≠ "") :
    determine_type s = spec_classify spec_keywords_amended s := by
  have hdata : s.data ≠ [] := by
    intro h
    exact hs (by cases s; simp_all)
  unfold determine_type spec_classify
  rw [input_pins_spec, keywords_amended_eq, is_number_spec, is_string_spec]
  by_cases h1 : spec_input_pins.contains s = true
  · rw [if_pos h1, if_pos h1]
  rw [if_neg h1, if_neg h1]
  by_cases h2 : output_pins.contains s = true
  · rw [if_pos h2, if_pos h2]
  rw [if_neg h2, if_neg h2]
  by_cases h3 : spec_keywords_amended.contains s = true
  · rw [if_pos h3, if_pos h3]
  rw [if_neg h3, if_neg h3]
  by_cases h4 : spec_all_digits s = true
  · rw [if_pos h4, if_pos h4]
  rw [if_neg h4, if_neg h4]
  by_cases h5 : spec_alnum_underscore s = true
  · rw [if_pos h5, if_pos h5, is_name_spec s (by rw [is_string_spec]; exact h5)]
  rw [if_neg h5, if_neg h5]
  by_cases p1 : s = ";"
  · subst p1; rfl
  rw [if_neg p1]
  by_cases p2 : s = ":"
  · subst p2; rfl
  rw [if_neg p2]
  by_cases p3 : s = ","
  · subst p3; rfl
  rw [if_neg p3]
  by_cases p4 : s = "."
  · subst p4; rfl
  rw [if_neg p4]
  by_cases p5 : s = ">"
  · subst p5; rfl
  rw [if_neg p5]
  have e1 : (s == ";") = false := by simp [p1]
  have e2 : (s == ":") = false := by simp [p2]
  have e3 : (s == ",") = false := by simp [p3]
  have e4 : (s == ".") = false := by simp [p4]
  have e5 : (s == ">") = false := by simp [p5]
  have hnone : punctuation.lookup s = none := by
    simp [punctuation, List.lookup, e1, e2, e3, e4, e5]
  rw [hnone]

/-- C4 (counterexample): RC and SIGGEN, which the spec's keyword set
contains, are classified as "string" by determine_type, not as "keyword"
as the spec-side classifier with the full keyword set requires. -/
theorem C4_rc_siggen_counterexample :
    determine_type "RC" = "string" ∧ determine_type "SIGGEN" = "string" ∧
    spec_classify spec_keywords_full "RC" = "keyword" ∧
    spec_classify spec_keywords_full "SIGGEN" = "keyword" ∧
    spec_keywords_full.contains "RC" = true ∧
    spec_keywords_full.contains "SIGGEN" = true := by decide

/-- C4 (witness): the amended classification theorem applied at a concrete
name-shaped text. -/
theorem C4_classification_amended_witness :
    "nand1" ≠ "" ∧ determine_type "nand1" = spec_classify spec_keywords_amended "nand1" :=
  ⟨by decide, C4_classification_amended "nand1" (by decide)⟩

/- ===== Claim C5 : the semantic result-code protocol ===== -/

/-- C5: handle_error returns False for every code absent from the table
built at construction; a code equal to the MONITOR_PRESENT constant (the
one the dict maps to the Monitor present category, later bindings winning)
also returns False; and a present code whose category is not Monitor
present returns True, stopping the phase. -/
theorem C5_handle_error_protocol (k : CollabCodes) (code : Nat)
    (syms : List Symbol) :
    (py_dict_get (semantic_error_codes k) code = none →
      handle_error k code syms = false) ∧
    (code = k.MONITOR_PRESENT → handle_error k code syms = false) ∧
    (∀ cat : String, py_dict_get (semantic_error_codes k) code = some cat →
      cat ≠ "Monitor present" → handle_error k code syms = true) := by
  refine ⟨?_, ?_, ?_⟩
  · intro h
    unfold handle_error
    rw [h]
  · intro h
    subst h
    unfold handle_error py_dict_get semantic_error_codes
    simp [List.find?]
  · intro cat h hne
    unfold handle_error
    rw [h]
    simp [hne]

/- ===== Claim C6 : the unconnected-input diagnostic ===== -/

/-- Concrete collaborator state reproducing the module test
test_display_input_not_connected_error: one D-type device named dtype1
whose CLK input (pin id 1) is undriven. -/
def c6env : NetEnv :=
  { names := ["dtype1", "CLK"],
    devices := [{ id := 0, inputs := [1] }],
    connected_output := fun _ _ => false }

/-- C6: the diagnostic list that display_input_not_connected_error builds
holds the device NAME once per undriven input, not the device.pin pair the
spec and the module test expect (dtype1 instead of dtype1.CLK), and the
fixed message text in front of the list also differs from the one the
module test expects.  The module test therefore fails against this
handler: the code does not meet its own test suite or the spec here. -/
theorem C6_unconnected_lists_device_names_only :
    input_not_connected_entries c6env = [some "dtype1"] ∧
    input_not_connected_entries c6env ≠ [some "dtype1.CLK"] ∧
    input_not_connected_message_head ≠ expected_not_connected_message_head := by
  refine ⟨by decide, by decide, by decide⟩

/- ===== Claim C7 : cursor cycling of Scanner.get_symbol ===== -/

theorem gsi_shift (ctx : Ctx) (a b : Nat) (st : PSt) :
    get_symbol_iter ctx (a + b) st =
      get_symbol_iter ctx b (get_symbol_iter ctx a st) := by
  induction a generalizing st with
  | zero => rw [Nat.zero_add]; rfl
  | succ a ih =>
    have h1 : a + 1 + b = (a + b) + 1 := by omega
    rw [h1]
    show get_symbol_iter ctx (a + b) (get_symbol ctx st) = _
    rw [ih (get_symbol ctx st)]
    rfl

theorem gs_sym_at (ctx : Ctx) (st : PSt) (hlt : st.pos < ctx.syms.length) :
    (get_symbol ctx st).sym = ctx.syms[st.pos]? ∧
    (get_symbol ctx st).pos = st.pos + 1 := by
  unfold get_symbol
  rw [dif_pos hlt]
  exact ⟨by simp [List.getElem?_eq_getElem, hlt], rfl⟩

theorem gsi_sym_pos (ctx : Ctx) :
    ∀ (k : Nat) (st : PSt), st.pos + k ≤ ctx.syms.length → 0 < k →
      (get_symbol_iter ctx k st).pos = st.pos + k ∧
      (get_symbol_iter ctx k st).sym = ctx.syms[st.pos + k - 1]? := by
  intro k
  induction k with
  | zero => intro st _ h0; omega
  | succ k ih =>
    intro st hle _
    have hlt : st.pos < ctx.syms.length := by omega
    have hgs : (get_symbol ctx st).pos = st.pos + 1 ∧
        (get_symbol ctx st).sym = some (ctx.syms.get ⟨st.pos, hlt⟩) := by
      unfold get_symbol
      rw [dif_pos hlt]
      exact ⟨rfl, rfl⟩
    cases k with
    | zero =>
      show (get_symbol ctx st).pos = _ ∧ (get_symbol ctx st).sym = _
      refine ⟨hgs.1, ?_⟩
      rw [hgs.2]
      simp [List.getElem?_eq_getElem, hlt]
    | succ k =>
      have := ih (get_symbol ctx st) (by omega) (by omega)
      rw [hgs.1] at this
      show (get_symbol_iter ctx (k + 1) (get_symbol ctx st)).pos = _ ∧
        (get_symbol_iter ctx (k + 1) (get_symbol ctx st)).sym = _
      refine ⟨by rw [this.1]; omega, ?_⟩
      rw [this.2]
      congr 1
      omega

theorem c7_core (ctx : Ctx) (st : PSt) (hpos : st.pos = 0)
    (hn : 0 < ctx.syms.length) :
    (∀ k : Nat, k < ctx.syms.length →
      (get_symbol_iter ctx (k + 1) st).sym = ctx.syms[k]?) ∧
    (get_symbol_iter ctx (ctx.syms.length + 1) st).sym = none ∧
    (get_symbol_iter ctx (ctx.syms.length + 1) st).pos = 0 ∧
    (get_symbol_iter ctx (ctx.syms.length + 2) st).sym = ctx.syms[0]? := by
  have hfull := gsi_sym_pos ctx ctx.syms.length st (by omega) hn
  have hreset : (get_symbol_iter ctx (ctx.syms.length + 1) st).sym = none ∧
      (get_symbol_iter ctx (ctx.syms.length + 1) st).pos = 0 := by
    rw [gsi_shift ctx ctx.syms.length 1 st]
    show (get_symbol ctx (get_symbol_iter ctx ctx.syms.length st)).sym = none ∧
      (get_symbol ctx (get_symbol_iter ctx ctx.syms.length st)).pos = 0
    unfold get_symbol
    rw [dif_neg (by rw [hfull.1]; omega)]
    exact ⟨rfl, rfl⟩
  refine ⟨?_, hreset.1, hreset.2, ?_⟩
  · intro k hk
    have h := gsi_sym_pos ctx (k + 1) st (by omega) (by omega)
    rw [h.2]
    congr 1
    omega
  · have h2 : ctx.syms.length + 2 = (ctx.syms.length + 1) + 1 := rfl
    rw [h2, gsi_shift ctx (ctx.syms.length + 1) 1 st]
    show (get_symbol ctx (get_symbol_iter ctx (ctx.syms.length + 1) st)).sym
      = ctx.syms[0]?
    have hlt : (get_symbol_iter ctx (ctx.syms.length + 1) st).pos <
        ctx.syms.length := by rw [hreset.2]; exact hn
    rw [(gs_sym_at ctx _ hlt).1, hreset.2]

/-- C7: for a non-empty cache of n symbols and a cursor before the first
one, the first n get_symbol calls return the cached symbols in order, the
(n+1)-th returns None and resets the cursor to before the start, and the
(n+2)-th returns the first cached symbol again, restarting the pass. -/
theorem C7_cursor_cycles (s0 : Symbol) (rest : List Symbol)
    (nm : List String) (sy : Option Symbol) (e f : Nat) (lg : List LogEntry) :
    (∀ k : Nat, k < (s0 :: rest).length →
      (get_symbol_iter ⟨s0 :: rest, nm⟩ (k + 1)
        ⟨0, sy, e, lg, f⟩).sym = (s0 :: rest)[k]?) ∧
    (get_symbol_iter ⟨s0 :: rest, nm⟩ ((s0 :: rest).length + 1)
      ⟨0, sy, e, lg, f⟩).sym = none ∧
    (get_symbol_iter ⟨s0 :: rest, nm⟩ ((s0 :: rest).length + 1)
      ⟨0, sy, e, lg, f⟩).pos = 0 ∧
    (get_symbol_iter ⟨s0 :: rest, nm⟩ ((s0 :: rest).length + 2)
      ⟨0, sy, e, lg, f⟩).sym = some s0 := by
  have h := c7_core ⟨s0 :: rest, nm⟩ ⟨0, sy, e, lg, f⟩ rfl (by simp)
  refine ⟨h.1, h.2.1, h.2.2.1, ?_⟩
  simpa using h.2.2.2

/-- C7 (witness): the cycling theorem applied at a one-symbol cache. -/
theorem C7_cursor_cycles_witness :
    (get_symbol_iter ⟨[junk_symbol], []⟩ 1 ⟨0, none, 0, [], 0⟩).sym =
      [junk_symbol][0]? ∧
    (get_symbol_iter ⟨[junk_symbol], []⟩ 2 ⟨0, none, 0, [], 0⟩).sym = none ∧
    (get_symbol_iter ⟨[junk_symbol], []⟩ 2 ⟨0, none, 0, [], 0⟩).pos = 0 ∧
    (get_symbol_iter ⟨[junk_symbol], []⟩ 3 ⟨0, none, 0, [], 0⟩).sym =
      some junk_symbol := by
  have h := C7_cursor_cycles junk_symbol [] [] none 0 0 []
  exact ⟨h.1 0 (by decide), h.2.1, h.2.2.1, h.2.2.2⟩

/- ===== Claim C9 : unique_error_codes allocation ===== -/

theorem alloc_calls_spec (ns : List Nat) :
    ∀ c : Nat, (alloc_calls c ns).map List.length = ns ∧
      (alloc_calls c ns).flatten = List.range' c ns.sum ∧
      ∀ l ∈ alloc_calls c ns, List.Pairwise (· < ·) l := by
  induction ns with
  | nil => intro c; exact ⟨rfl, rfl, by intro l hl; cases hl⟩
  | cons n ns ih =>
    intro c
    have hone : (unique_error_codes c n).1 = List.range' c n := by
      unfold unique_error_codes pyRange
      simp
    have hrec := ih (c + n)
    refine ⟨?_, ?_, ?_⟩
    · show ((unique_error_codes c n).1 :: alloc_calls (c + n) ns).map
        List.length = n :: ns
      rw [hone]
      simp [hrec.1]
    · show (unique_error_codes c n).1 ++ (alloc_calls (c + n) ns).flatten = _
      rw [hone, hrec.2.1, List.sum_cons]
      have h2 := List.range'_append c n ns.sum 1
      simp only [Nat.one_mul, Nat.mul_one] at h2
      rw [h2]
      congr 1
      omega
    · intro l hl
      rcases List.mem_cons.mp hl with h | h
      · rw [h, hone]
        exact List.pairwise_lt_range' c n
      · exact hrec.2.2 l h

/-- C9: successive unique_error_codes calls on one Names instance return
ranges of exactly the requested sizes whose concatenation is the contiguous
range from the starting counter, each strictly increasing, and no integer
appears twice across all calls. -/
theorem C9_unique_error_codes (c : Nat) (ns : List Nat) :
    (alloc_calls c ns).map List.length = ns ∧
    (alloc_calls c ns).flatten = List.range' c ns.sum ∧
    (∀ l ∈ alloc_calls c ns, List.Pairwise (· < ·) l) ∧
    (alloc_calls c ns).flatten.Nodup := by
  have h := alloc_calls_spec ns c
  refine ⟨h.1, h.2.1, h.2.2, ?_⟩
  rw [h.2.1]
  exact List.nodup_range' c ns.sum

/- ===== Claim C8 : fetch bound of a full parse ===== -/

/-- C8: a full parse of parse.py terminates with a fetch count bounded by
the cached symbol count plus one: every production and recovery loop keeps
the scanner cursor within the cache and advances it at least once per
fetch, and only the final None fetch exceeds the cache length. -/
theorem C8_fetch_bound (ctx : Ctx) (env : SrcP.BuildEnv) :
    (SrcP.parse_network ctx env (SrcP.init_state ctx)).2.1.fetches ≤
      ctx.syms.length + 1 := by
  have h := SrcP.network_dict_fs ctx (SrcP.init_state ctx)
    (by simp [SrcP.init_state])
  have hb : (SrcP.network_dict ctx (SrcP.init_state ctx)).2.fetches ≤
      ctx.syms.length + 1 := by
    have e1 : (SrcP.init_state ctx).fetches = 0 := rfl
    have e2 : (SrcP.init_state ctx).pos = 0 := rfl
    rcases h with ⟨hp, _, ⟨_, hf, _⟩ | ⟨_, _, hf⟩⟩
    · rw [e1, e2] at hf
      omega
    · rw [e1, e2] at hf
      omega
  unfold SrcP.parse_network
  simp only []
  split
  · split
    · exact hb
    · exact hb
  · exact hb

/- ===== Claim C1 : the zero-error gate of the syntax phase ===== -/

theorem ns_err_sym (ctx : Ctx) (kw : String) (errk : Nat)
    (listfn : Ctx → PSt → Option (List MItem) × PSt) (st stE : PSt)
    (h : network_section ctx kw errk listfn st = Except.error stE) :
    stE.sym = none := by
  unfold network_section at h
  simp only [] at h
  generalize hGA : (if symName ctx st = some kw then st
      else display_error errk st.sym st) = A at h
  split at h
  · rename_i hn
    cases h
    rw [de_sym]
    exact hn
  · rename_i z hz
    generalize hGC : (if symType (get_symbol ctx A) = "colon" then
        get_symbol ctx A
      else display_error 20 (get_symbol ctx A).sym (get_symbol ctx A)) = C at h
    split at h
    · rename_i hnn
      cases h
      exact hnn
    · cases h

theorem ns_err_strict (ctx : Ctx) (kw : String) (errk : Nat)
    (listfn : Ctx → PSt → Option (List MItem) × PSt)
    (hlist : ∀ st1 : PSt, st1.pos ≤ ctx.syms.length →
      FS ctx.syms.length st1 (listfn ctx st1).2)
    (st : PSt) (hpos : st.pos ≤ ctx.syms.length) (hsym : st.sym ≠ none)
    (stE : PSt) (h : network_section ctx kw errk listfn st = Except.error stE) :
    st.errors < stE.errors := by
  have hs2 := ns_err_sym ctx kw errk listfn st stE h
  have hfs := network_section_fs ctx kw errk listfn hlist st hpos hsym
  rw [h] at hfs
  rcases hfs with ⟨_, _, ⟨_, _, hstrict⟩ | ⟨hns, _, _⟩⟩
  · exact hstrict
  · exact absurd hs2 hns

theorem src_nd_gate (ctx : Ctx) (st : PSt)
    (hpos : st.pos ≤ ctx.syms.length) :
    ((SrcP.network_dict ctx st).1 = none →
      (SrcP.network_dict ctx st).2.errors ≠ 0) ∧
    (∀ d : NetDict, (SrcP.network_dict ctx st).1 = some d →
      (SrcP.network_dict ctx st).2.errors = 0) := by
  unfold SrcP.network_dict
  split
  · refine ⟨fun _ => ?_, fun d hd => Option.noConfusion hd⟩
    show (display_error 22 (last_symbol ctx) (get_symbol ctx st)).errors ≠ 0
    rw [de_errors]
    omega
  · rename_i z hz
    have hs : (get_symbol ctx st).sym ≠ none := by simp [hz]
    have f1 := fs_fetch_some ctx st hpos hs
    split
    · rename_i stE hE
      refine ⟨fun _ => ?_, fun d hd => Option.noConfusion hd⟩
      have hst := ns_err_strict ctx "DEVICES" 1 SrcP.device_list
        (fun s h => SrcP.device_list_fs ctx s h) (get_symbol ctx st)
        f1.1 hs stE hE
      show stE.errors ≠ 0
      omega
    · rename_i dl st1 hE
      have hsec1 := network_section_fs ctx "DEVICES" 1 SrcP.device_list
        (fun s h => SrcP.device_list_fs ctx s h) (get_symbol ctx st) f1.1 hs
      rw [hE] at hsec1
      split
      · rename_i stE hE2
        refine ⟨fun _ => ?_, fun d hd => Option.noConfusion hd⟩
        have hst := ns_err_strict ctx "CONNECT" 2 SrcP.connection_list
          (fun s h => SrcP.connection_list_fs ctx s h) st1
          hsec1.1.1 hsec1.2 stE hE2
        show stE.errors ≠ 0
        omega
      · rename_i cl st2 hE2
        have hsec2 := network_section_fs ctx "CONNECT" 2 SrcP.connection_list
          (fun s h => SrcP.connection_list_fs ctx s h) st1 hsec1.1.1 hsec1.2
        rw [hE2] at hsec2
        split
        · rename_i stE hE3
          refine ⟨fun _ => ?_, fun d hd => Option.noConfusion hd⟩
          have hst := ns_err_strict ctx "MONITOR" 3 SrcP.monitor_list
            (fun s h => SrcP.monitor_list_fs ctx s h) st2
            hsec2.1.1 hsec2.2 stE hE3
          show stE.errors ≠ 0
          omega
        · rename_i ml st3 hE3
          simp only []
          generalize (if symName ctx st3 = some "END" then st3
              else display_error 4 st3.sym st3) = A
          split
          · refine ⟨fun _ => ?_, fun d hd => Option.noConfusion hd⟩
            show (display_error 22 (last_symbol ctx)
              (get_symbol ctx A)).errors ≠ 0
            rw [de_errors]
            omega
          · generalize (if symType (get_symbol ctx A) = "semi-colon" then
                get_symbol ctx A
              else display_error 20 (get_symbol ctx A).sym
                (get_symbol ctx A)) = B
            split
            · rename_i hz0
              exact ⟨fun hn => Option.noConfusion hn, fun d _ => hz0⟩
            · rename_i hz0
              exact ⟨fun _ => hz0, fun d hd => Option.noConfusion hd⟩

theorem final_nd_gate (ctx : Ctx) (st : PSt)
    (hpos : st.pos ≤ ctx.syms.length) :
    ((FinalP.network_dict ctx st).1 = none →
      (FinalP.network_dict ctx st).2.errors ≠ 0) ∧
    (∀ d : NetDict, (FinalP.network_dict ctx st).1 = some d →
      (FinalP.network_dict ctx st).2.errors = 0) := by
  unfold FinalP.network_dict
  split
  · refine ⟨fun _ => ?_, fun d hd => Option.noConfusion hd⟩
    show (display_error 22 none (get_symbol ctx st)).errors ≠ 0
    rw [de_errors]
    omega
  · rename_i z hz
    have hs : (get_symbol ctx st).sym ≠ none := by simp [hz]
    have f1 := fs_fetch_some ctx st hpos hs
    split
    · rename_i stE hE
      refine ⟨fun _ => ?_, fun d hd => Option.noConfusion hd⟩
      have hst := ns_err_strict ctx "DEVICES" 1 FinalP.device_list
        (fun s h => FinalP.fdevice_list_fs ctx s h) (get_symbol ctx st)
        f1.1 hs stE hE
      show stE.errors ≠ 0
      omega
    · rename_i dl st1 hE
      have hsec1 := network_section_fs ctx "DEVICES" 1 FinalP.device_list
        (fun s h => FinalP.fdevice_list_fs ctx s h) (get_symbol ctx st) f1.1 hs
      rw [hE] at hsec1
      split
      · rename_i stE hE2
        refine ⟨fun _ => ?_, fun d hd => Option.noConfusion hd⟩
        have hst := ns_err_strict ctx "CONNECT" 2 FinalP.connection_list
          (fun s h => FinalP.fconnection_list_fs ctx s h) st1
          hsec1.1.1 hsec1.2 stE hE2
        show stE.errors ≠ 0
        omega
      · rename_i cl st2 hE2
        have hsec2 := network_section_fs ctx "CONNECT" 2
          FinalP.connection_list
          (fun s h => FinalP.fconnection_list_fs ctx s h) st1
          hsec1.1.1 hsec1.2
        rw [hE2] at hsec2
        split
        · rename_i stE hE3
          refine ⟨fun _ => ?_, fun d hd => Option.noConfusion hd⟩
          have hst := ns_err_strict ctx "MONITOR" 3 FinalP.monitor_list
            (fun s h => FinalP.fmonitor_list_fs ctx s h) st2
            hsec2.1.1 hsec2.2 stE hE3
          show stE.errors ≠ 0
          omega
        · rename_i ml st3 hE3
          simp only []
          generalize (if symName ctx st3 = some "END" then st3
              else display_error 4 st3.sym st3) = A
          split
          · refine ⟨fun _ => ?_, fun d hd => Option.noConfusion hd⟩
            show (display_error 21 (last_symbol ctx)
              (get_symbol ctx A)).errors ≠ 0
            rw [de_errors]
            omega
          · generalize (if symType (get_symbol ctx A) = "semi-colon" then
                get_symbol ctx A
              else display_error 21 (get_symbol ctx A).sym
                (get_symbol ctx A)) = B
            split
            · rename_i hz0
              exact ⟨fun hn => Option.noConfusion hn, fun d _ => hz0⟩
            · rename_i hz0
              exact ⟨fun _ => hz0, fun d hd => Option.noConfusion hd⟩

/-- C1: in both parsers the syntax phase returns the network description
exactly when the recorded syntax-error count is zero; and in final/parse.py,
whenever the count is nonzero, parse_network emits exactly one summary
entry carrying that count, returns False, and makes no collaborator call
(the building phase never runs). -/
theorem C1_zero_error_gate (ctx : Ctx) (env : FinalP.BuildEnv) :
    ((SrcP.network_dict ctx (SrcP.init_state ctx)).1 ≠ none ↔
      (SrcP.network_dict ctx (SrcP.init_state ctx)).2.errors = 0) ∧
    ((FinalP.network_dict ctx FinalP.init_state).1 ≠ none ↔
      (FinalP.network_dict ctx FinalP.init_state).2.errors = 0) ∧
    ((FinalP.network_dict ctx FinalP.init_state).2.errors ≠ 0 →
      (FinalP.parse_network ctx env FinalP.init_state).1 = false ∧
      (FinalP.parse_network ctx env FinalP.init_state).2.2 = [] ∧
      (FinalP.parse_network ctx env FinalP.init_state).2.1.log =
        (FinalP.network_dict ctx FinalP.init_state).2.log ++
          [LogEntry.summary
            (FinalP.network_dict ctx FinalP.init_state).2.errors]) := by
  have hsrc := src_nd_gate ctx (SrcP.init_state ctx)
    (by simp [SrcP.init_state])
  have hfin := final_nd_gate ctx FinalP.init_state
    (by simp [FinalP.init_state])
  have iff1 : (SrcP.network_dict ctx (SrcP.init_state ctx)).1 ≠ none ↔
      (SrcP.network_dict ctx (SrcP.init_state ctx)).2.errors = 0 := by
    constructor
    · intro h
      cases hr : (SrcP.network_dict ctx (SrcP.init_state ctx)).1 with
      | none => exact absurd hr h
      | some d => exact hsrc.2 d hr
    · intro h hn
      exact hsrc.1 hn h
  have iff2 : (FinalP.network_dict ctx FinalP.init_state).1 ≠ none ↔
      (FinalP.network_dict ctx FinalP.init_state).2.errors = 0 := by
    constructor
    · intro h
      cases hr : (FinalP.network_dict ctx FinalP.init_state).1 with
      | none => exact absurd hr h
      | some d => exact hfin.2 d hr
    · intro h hn
      exact hfin.1 hn h
  refine ⟨iff1, iff2, fun hne => ?_⟩
  have hnone : (FinalP.network_dict ctx FinalP.init_state).1 = none := by
    cases hr : (FinalP.network_dict ctx FinalP.init_state).1 with
    | none => rfl
    | some d => exact absurd (hfin.2 d hr) hne
  unfold FinalP.parse_network
  simp only []
  rw [hnone]
  exact ⟨rfl, rfl, rfl⟩

/- ===== Claim C2 : gating of the building phases ===== -/

theorem calls_step {c x : FinalP.BCall} {tr : List FinalP.BCall}
    (hc : c ∈ tr ++ [x]) : c ∈ tr ∨ c = x := by
  rcases List.mem_append.mp hc with h | h
  · exact Or.inl h
  · exact Or.inr (List.mem_singleton.mp h)

theorem fbuild_devices_calls (ctx : Ctx) (env : FinalP.BuildEnv) :
    ∀ (l : List MItem) (tr : List FinalP.BCall),
      ∀ c ∈ (FinalP.build_devices ctx env l tr).2,
        c ∈ tr ∨ ∃ n t p, c = FinalP.BCall.makeDevice n t p := by
  intro l
  induction l with
  | nil => intro tr c hc; exact Or.inl hc
  | cons item rest ih =>
    intro tr c hc
    unfold FinalP.build_devices at hc
    simp only [] at hc
    (split at hc) <;> (try split at hc) <;> (try split at hc)
    all_goals first
      | exact (calls_step hc).elim Or.inl (fun h => Or.inr ⟨_, _, _, h⟩)
      | exact (ih _ c hc).elim
          (fun h => (calls_step h).elim Or.inl
            (fun h2 => Or.inr ⟨_, _, _, h2⟩))
          Or.inr

theorem fbuild_connections_calls (env : FinalP.BuildEnv) :
    ∀ (l : List MItem) (tr : List FinalP.BCall),
      ∀ c ∈ (FinalP.build_connections env l tr).2,
        c ∈ tr ∨ (∃ a b e g, c = FinalP.BCall.makeConnection a b e g) ∨
          c = FinalP.BCall.checkNetwork := by
  intro l
  induction l with
  | nil =>
    intro tr c hc
    unfold FinalP.build_connections at hc
    simp only [] at hc
    have hc2 : c ∈ tr ++ [FinalP.BCall.checkNetwork] := by
      split at hc
      · exact hc
      · exact hc
    exact (calls_step hc2).elim Or.inl (fun h => Or.inr (Or.inr h))
  | cons item rest ih =>
    intro tr c hc
    unfold FinalP.build_connections at hc
    simp only [] at hc
    (split at hc) <;> (try split at hc) <;> (try split at hc) <;>
      (try split at hc)
    all_goals first
      | exact (calls_step hc).elim Or.inl
          (fun h => Or.inr (Or.inl ⟨_, _, _, _, h⟩))
      | exact (ih _ c hc).elim
          (fun h => (calls_step h).elim Or.inl
            (fun h2 => Or.inr (Or.inl ⟨_, _, _, _, h2⟩)))
          Or.inr

/-- C2 (amended statement): in final/parse.py the building phases are
gated: when the DEVICES phase reports a fatal error, build_network stops
with the devices trace, so no make_connection, check_network or
make_monitor call is ever made; when the DEVICES phase succeeds and the
CONNECT phase reports a fatal error, build_network stops with the
connections trace, so no make_monitor call is ever made.  The
counterexample theorem shows build_network of parse.py is not gated. -/
theorem C2_build_order_gated (ctx : Ctx) (env : FinalP.BuildEnv)
    (d : NetDict) (tr : List FinalP.BCall) :
    ((FinalP.build_devices ctx env (d.devices.getD []) tr).1 = false →
      FinalP.build_network ctx env d tr =
        (false, (FinalP.build_devices ctx env (d.devices.getD []) tr).2) ∧
      ∀ c ∈ (FinalP.build_network ctx env d tr).2,
        c ∈ tr ∨ ∃ n t p, c = FinalP.BCall.makeDevice n t p) ∧
    ((FinalP.build_devices ctx env (d.devices.getD []) tr).1 = true →
      (FinalP.build_connections env (d.connect.getD [])
        (FinalP.build_devices ctx env (d.devices.getD []) tr).2).1 = false →
      FinalP.build_network ctx env d tr =
        (false, (FinalP.build_connections env (d.connect.getD [])
          (FinalP.build_devices ctx env (d.devices.getD []) tr).2).2) ∧
      ∀ c ∈ (FinalP.build_network ctx env d tr).2,
        c ∈ tr ∨ (∃ n t p, c = FinalP.BCall.makeDevice n t p) ∨
          (∃ a b e g, c = FinalP.BCall.makeConnection a b e g) ∨
          c = FinalP.BCall.checkNetwork) := by
  constructor
  · intro hd
    have heq : FinalP.build_network ctx env d tr =
        (false, (FinalP.build_devices ctx env (d.devices.getD []) tr).2) := by
      simp [FinalP.build_network, hd]
    refine ⟨heq, ?_⟩
    rw [heq]
    intro c hc
    exact fbuild_devices_calls ctx env _ tr c hc
  · intro hd hcn
    have heq : FinalP.build_network ctx env d tr =
        (false, (FinalP.build_connections env (d.connect.getD [])
          (FinalP.build_devices ctx env (d.devices.getD []) tr).2).2) := by
      simp [FinalP.build_network, hd, hcn]
    refine ⟨heq, ?_⟩
    rw [heq]
    intro c hc
    rcases fbuild_connections_calls env _ _ c hc with h | h | h
    · rcases fbuild_devices_calls ctx env _ tr c h with h2 | h2
      · exact Or.inl h2
      · exact Or.inr (Or.inl h2)
    · exact Or.inr (Or.inr (Or.inl h))
    · exact Or.inr (Or.inr (Or.inr h))

/-- Concrete result codes for the counterexample scenarios: the twelve
constants take the distinct values 1..12, as unique_error_codes would
mint them. -/
def c2codes : CollabCodes := ⟨1, 2, 3, 4, 5, 6, 7, 8, 9, 10, 11, 12⟩

/-- Collaborators of parse.py whose make_device always reports BAD_DEVICE
(a fatal code) while every other operation succeeds. -/
def c2src_env : SrcP.BuildEnv :=
  { codes := c2codes,
    device_code := fun _ _ _ _ => 3,
    connection_code := fun _ _ _ _ _ => 0,
    monitor_code := fun _ _ _ => 0,
    network_ok := fun _ => true }

/-- AND keyword symbol of the counterexample device item. -/
def c2sA : Symbol :=
  { id := 4, type := "keyword", line_number := 1, column_number := 1 }

/-- Device-name symbol of the counterexample items. -/
def c2sa : Symbol :=
  { id := 13, type := "name", line_number := 1, column_number := 5 }

/-- Arrow symbol of the counterexample connection item. -/
def c2sarrow : Symbol :=
  { id := 20, type := "arrow", line_number := 2, column_number := 3 }

/-- Dot symbol of the counterexample connection item. -/
def c2sdot : Symbol :=
  { id := 21, type := "dot", line_number := 2, column_number := 5 }

/-- Input-pin symbol of the counterexample connection item. -/
def c2spin : Symbol :=
  { id := 22, type := "input_pin", line_number := 2, column_number := 6 }

/-- A parsed network description with one device (which the collaborator
will reject fatally), one five-symbol connection `a > a.I1` (the shape
connection produces when the driving side has no port: name, arrow, name,
dot, input pin) and one monitor. -/
def c2dict : NetDict :=
  { devices := some [some [c2sA, c2sa]],
    connect := some [some [c2sa, c2sarrow, c2sa, c2sdot, c2spin]],
    monitor := some [some [c2sa]] }

/-- Empty scanner context for the building-phase counterexample (the
building phase never touches the symbol cache). -/
def c2ctx : Ctx := { syms := [], names := [] }

/-- C2 (counterexample): in parse.py, even though the DEVICES phase
reports a fatal error on this input, build_network still calls
make_connection, check_network and make_monitor, and finishes without
raising. -/
theorem C2_ungated_counterexample :
    (SrcP.build_devices c2ctx c2src_env (c2dict.devices.getD []) []).1
      = Except.ok false ∧
    (SrcP.build_network c2ctx c2src_env c2dict []).1 = Except.ok false ∧
    SrcP.BCall.makeConnection 13 none 13 (some 22) ∈
      (SrcP.build_network c2ctx c2src_env c2dict []).2 ∧
    SrcP.BCall.checkNetwork ∈
      (SrcP.build_network c2ctx c2src_env c2dict []).2 ∧
    SrcP.BCall.makeMonitor 13 none ∈
      (SrcP.build_network c2ctx c2src_env c2dict []).2 :=
  ⟨rfl, rfl, by decide, by decide, by decide⟩

/- ===== Claim C3 : a device list of a bare semi-colon ===== -/

/-- The token strings of the file `DEVICES : ; CONNECT : ; MONITOR : ;
END ;` that the claim describes. -/
def c3strs : List String :=
  ["DEVICES", ":", ";", "CONNECT", ":", ";", "MONITOR", ":", ";", "END", ";"]

/-- Scanner context for that file, as Scanner.get_symbols caches it. -/
def c3ctx : Ctx :=
  { syms := (tokenize_strings c3strs).1, names := (tokenize_strings c3strs).2 }

/-- Collaborators for the C3 run; they are never consulted because the
syntax phase fails. -/
def c3fenv : FinalP.BuildEnv :=
  { codes := c2codes,
    device_code := fun _ _ _ _ => 0,
    connection_code := fun _ _ _ _ _ => 0,
    monitor_code := fun _ _ _ => 0,
    network_ok := fun _ => true }

/-- C3 (counterexample): on the file `DEVICES : ; CONNECT : ; MONITOR : ;
END ;` both parsers record a syntax error (one, not zero) and return no
network description at all, so the DEVICES entry is not an empty sequence
but absent. -/
theorem C3_bare_semicolon_counterexample :
    (SrcP.network_dict c3ctx (SrcP.init_state c3ctx)).2.errors = 1 ∧
    (SrcP.network_dict c3ctx (SrcP.init_state c3ctx)).1 = none ∧
    (FinalP.network_dict c3ctx FinalP.init_state).2.errors = 1 ∧
    (FinalP.network_dict c3ctx FinalP.init_state).1 = none := by decide

/-- C3 (amended statement): a device list consisting of a bare semi-colon
is rejected, not accepted: on `DEVICES : ; CONNECT : ; MONITOR : ; END ;`
the only recorded diagnostic is syntax error 5 (the empty-device-list
error) located at that semi-colon, the description is withheld, and
parse_network of final/parse.py reports the single error in its summary
entry and returns False. -/
theorem C3_bare_semicolon_amended :
    (FinalP.network_dict c3ctx FinalP.init_state).2.log =
      [LogEntry.err 5 (c3ctx.syms[2]?)] ∧
    (FinalP.network_dict c3ctx FinalP.init_state).2.errors = 1 ∧
    (FinalP.parse_network c3ctx c3fenv FinalP.init_state).1 = false ∧
    (FinalP.parse_network c3ctx c3fenv FinalP.init_state).2.2 = [] ∧
    (FinalP.parse_network c3ctx c3fenv FinalP.init_state).2.1.log =
      [LogEntry.err 5 (c3ctx.syms[2]?), LogEntry.summary 1] := by decide

/- ===== Claim C10 : Parser construction on an empty cache ===== -/

/-- C10: Parser.__init__ of parse.py reads the first cached symbol, so an
empty cache (an input that tokenizes to no symbols) raises an uncaught
IndexError and parse_network is never reached; on a non-empty cache it
reads the first symbol; the variant of final/parse.py initialises the
current symbol to None on every cache and cannot raise. -/
theorem C10_init_empty_cache :
    src_parser_init_symbol [] = Except.error "IndexError" ∧
    (∀ (s : Symbol) (rest : List Symbol),
      src_parser_init_symbol (s :: rest) = Except.ok s) ∧
    (∀ syms : List Symbol, final_parser_init_symbol syms = none) :=
  ⟨rfl, fun _ _ => rfl, fun _ => rfl⟩

end LogicSim
